import Mathlib

/-!
# Break-Down-z: the simulation engine of `src/game.js`

A shallow embedding of the game's state and of its step function `update`, and the
properties of the engine that are checked against it.

Numbers.  JavaScript numbers are modelled by an arbitrary linearly ordered field `α` with a
floor function (the reals, where `Math.sqrt`, `Math.sin` and `Math.cos` are the real
functions; the rationals for running the definitions): the arithmetic is exact, rounding
and `NaN` are not modelled.  Integer
quantities that the source only ever treats as integers (hit-points, score, lives, the
level geometry computed with `Math.floor`) are `Int`.

Run time.  What the source reads from the JavaScript run time is collected in `Env`:
`Math.sqrt`, `Math.sin`, `Math.cos`, `Math.PI`, the successive results of `Math.random()`
and the successive readings of `performance.now() / 1000`.  The state counts how many
random numbers and clock readings were consumed.

Not modelled: the canvas, the HUD (`setHUD`, `ui.*`) and the sounds (`audio.*`); none of
them feeds back into the state.
-/

namespace BreakDown

/-! ## CONFIG -/

namespace CONFIG

/-- The value `CONFIG.BASE_WIDTH`; `canvas.width` is set to it by `init` and `fitCanvas`. -/
def BASE_WIDTH : Int := 960

/-- The value `CONFIG.BASE_HEIGHT`; `canvas.height` is set to it by `init` and `fitCanvas`. -/
def BASE_HEIGHT : Int := 540

namespace PADDLE
/-- The value `CONFIG.PADDLE.h`. -/
def h {α : Type} [LinearOrderedField α] : α := 16
/-- The value `CONFIG.PADDLE.speed`. -/
def speed {α : Type} [LinearOrderedField α] : α := 820
end PADDLE

namespace BALL
/-- The value `CONFIG.BALL.r`. -/
def r {α : Type} [LinearOrderedField α] : α := 8
/-- The value `CONFIG.BALL.speed`. -/
def speed {α : Type} [LinearOrderedField α] : α := 420
/-- The value `CONFIG.BALL.maxSpeed`. -/
def maxSpeed {α : Type} [LinearOrderedField α] : α := 1200
end BALL

namespace BRICK
/-- The value `CONFIG.BRICK.gap`. -/
def gap : Int := 8
/-- The value `CONFIG.BRICK.top`. -/
def top : Int := 72
/-- The value `CONFIG.BRICK.marginX`. -/
def marginX : Int := 28
/-- The value `Math.floor(canvas.height * CONFIG.BRICK.maxHeightRatio)` with the ratio `0.45`:
`540 * 45 / 100 = 243` exactly. -/
def maxBrickArea : Int := BASE_HEIGHT * 45 / 100
/-- The value `CONFIG.BRICK.maxH`. -/
def maxH : Int := 32
end BRICK

namespace POWERUP
/-- The value `CONFIG.POWERUP.fallSpeed`. -/
def fallSpeed {α : Type} [LinearOrderedField α] : α := 160
/-- The value `CONFIG.POWERUP.chance`, `0.22`. -/
def chance {α : Type} [LinearOrderedField α] : α := 22 / 100
/-- The value `CONFIG.POWERUP.duration`. -/
def duration {α : Type} [LinearOrderedField α] : α := 10
end POWERUP

namespace LASER
/-- The value `CONFIG.LASER.cooldown`, `0.12`. -/
def cooldown {α : Type} [LinearOrderedField α] : α := 12 / 100
/-- The value `CONFIG.LASER.bulletSpeed`. -/
def bulletSpeed {α : Type} [LinearOrderedField α] : α := 820
/-- The value `CONFIG.LASER.life`, `3.8`. -/
def life {α : Type} [LinearOrderedField α] : α := 38 / 10
end LASER

namespace MULTIBALL
/-- The value `CONFIG.MULTIBALL.clones`. -/
def clones : Nat := 2
end MULTIBALL

namespace MOBILE
/-- The value `CONFIG.MOBILE.portraitPaddleScale`, `1.6`. -/
def portraitPaddleScale {α : Type} [LinearOrderedField α] : α := 16 / 10
/-- The value `CONFIG.MOBILE.portraitBallScale`, `0.85`. -/
def portraitBallScale {α : Type} [LinearOrderedField α] : α := 85 / 100
/-- The value `CONFIG.MOBILE.portraitSpeedMul`, `0.9`. -/
def portraitSpeedMul {α : Type} [LinearOrderedField α] : α := 9 / 10
end MOBILE

end CONFIG

/-! ## The run time and the data model -/

/-- The JavaScript run time as `game.js` uses it. -/
structure Env (α : Type) where
  /-- The function `Math.sqrt`. -/
  sqrt : α → α
  /-- The function `Math.sin`. -/
  sin : α → α
  /-- The function `Math.cos`. -/
  cos : α → α
  /-- The constant `Math.PI`. -/
  pi : α
  /-- The `k`-th result of `Math.random()`. -/
  random : Nat → α
  /-- The `k`-th reading of `performance.now() / 1000` (`nowSec`). -/
  clock : Nat → α

/-- The laws of `Math.sqrt` on non-negative arguments. -/
def Env.SqrtLaw {α : Type} [LinearOrderedField α] (E : Env α) : Prop :=
  ∀ x : α, 0 ≤ x → 0 ≤ E.sqrt x ∧ E.sqrt x * E.sqrt x = x

/-- The run time with the given `Math` functions in which every `Math.random()` returns 0
and every clock reading is 0. -/
def Env.quiet {α : Type} [LinearOrderedField α] (sqrt sin cos : α → α) (pi : α) : Env α :=
  ⟨sqrt, sin, cos, pi, fun _ => 0, fun _ => 0⟩

/-- A circle `{x, y, r}`, the first argument of the collision tests. -/
structure Circle (α : Type) where
  x : α
  y : α
  r : α

/-- A rectangle `{x, y, w, h}`. -/
structure Rect (α : Type) where
  x : α
  y : α
  w : α
  h : α

/-- The object `state.paddle`. -/
structure Paddle (α : Type) where
  x : α
  y : α
  w : α
  h : α
  vx : α

/-- A ball `{x, y, vx, vy, r, speed, stuck}`; `dead` is the `_dead` mark, absent (falsy)
until `update` sets it. -/
structure Ball (α : Type) where
  x : α
  y : α
  vx : α
  vy : α
  r : α
  speed : α
  stuck : Bool
  dead : Bool

/-- A brick `{x, y, w, h, hp, alive, kind}`; `kind` is the string `'normal'`, `'steel'` or the
grid character. -/
structure Brick (α : Type) where
  x : α
  y : α
  w : α
  h : α
  hp : Int
  alive : Bool
  kind : String

/-- A falling power-up `{x, y, w, h, type, vy}`. -/
structure Powerup (α : Type) where
  x : α
  y : α
  w : α
  h : α
  type : String
  vy : α

/-- A laser bullet `{x, y, vx, vy, born}`. -/
structure Bullet (α : Type) where
  x : α
  y : α
  vx : α
  vy : α
  born : α

/-- The object `state.timers`. -/
structure Timers (α : Type) where
  widenEnd : α
  shrinkEnd : α
  laserEnd : α

/-- A normalised level `{name, rows, cols, grid}`; a row string is the list of its
characters. -/
structure Level where
  name : String
  rows : Int
  cols : Int
  grid : List (List Char)

/-- The codes of the set `keys` that `update` reads. -/
structure Keys where
  ArrowLeft : Bool
  ArrowRight : Bool
  KeyF : Bool
  Space : Bool

/-- The mutable world: the object `state`, and beside it the other variables `update` reads
or writes: `CONFIG.PADDLE.w` (rewritten by `fitCanvas`), `lastLaserShot`, `keys`, and the
number of `Math.random()` results (`rnd`) and of clock readings (`clk`) consumed so far. -/
structure State (α : Type) where
  running : Bool
  speedMul : α
  levelIndex : Nat
  levels : List Level
  score : Int
  lives : Int
  paddle : Paddle α
  balls : List (Ball α)
  bricks : List (Brick α)
  powerups : List (Powerup α)
  bullets : List (Bullet α)
  timers : Timers α
  portraitMode : Bool
  cfgPaddleW : α
  lastLaserShot : α
  keys : Keys
  rnd : Nat
  clk : Nat

section Model

variable {α : Type} [LinearOrderedField α] [FloorRing α]

/-- The value `canvas.width`. -/
def canvasWidth : α := ((CONFIG.BASE_WIDTH : Int) : α)

/-- The value `canvas.height`. -/
def canvasHeight : α := ((CONFIG.BASE_HEIGHT : Int) : α)

/-- The ball as the circle argument of a collision test. -/
def Ball.circle (b : Ball α) : Circle α := ⟨b.x, b.y, b.r⟩

/-- The brick as the rectangle argument of a collision test. -/
def Brick.rect (b : Brick α) : Rect α := ⟨b.x, b.y, b.w, b.h⟩

/-- The rectangle `{x: paddle.x, y: paddle.y, w: paddle.w, h: paddle.h}`. -/
def Paddle.rect (p : Paddle α) : Rect α := ⟨p.x, p.y, p.w, p.h⟩

/-! ## Helpers -/

/-- The helper `clamp = (v, lo, hi) => Math.max(lo, Math.min(hi, v))`. -/
def clamp {β : Type} [LinearOrder β] (v lo hi : β) : β := max lo (min hi v)

/-- The helper `a || d` on numbers: `d` replaces a falsy `a` (zero). -/
def jsOr (a d : α) : α := if a = 0 then d else a

/-- The function `Math.sign`. -/
def jsSign (a : α) : α := if 0 < a then 1 else if a < 0 then -1 else 0

/-- The function `Math.round`: the nearest integer, halves rounded up. -/
def jsRound (a : α) : α := ((⌊a + 1 / 2⌋ : Int) : α)

/-- The function `String.prototype.toUpperCase`, on the ASCII letters. -/
def toUpperCase (t : String) : String := ⟨t.data.map Char.toUpper⟩

/-- The index of the first element satisfying `p`: the `for ... of` scans that stop at the
first match with `break`. -/
def firstIdx {β : Type} (p : β → Bool) : List β → Option Nat
  | [] => none
  | x :: xs => if p x then some 0 else (firstIdx p xs).map Nat.succ

/-! ## Physics and collisions -/

/-- The function `circleIntersectsRect(c, r)`. -/
def circleIntersectsRect (c : Circle α) (r : Rect α) : Bool :=
  let cx := clamp c.x r.x (r.x + r.w)
  let cy := clamp c.y r.y (r.y + r.h)
  let dx := c.x - cx
  let dy := c.y - cy
  decide (dx * dx + dy * dy ≤ c.r * c.r)

/-- The result `{nx, ny, pen}` of `collisionNormal`. -/
structure Overlap (α : Type) where
  nx : α
  ny : α
  pen : α

/-- The function `collisionNormal(c, r)`. -/
def collisionNormal (E : Env α) (c : Circle α) (r : Rect α) : Overlap α :=
  let cx := clamp c.x r.x (r.x + r.w)
  let cy := clamp c.y r.y (r.y + r.h)
  let dx := c.x - cx
  let dy := c.y - cy
  let dist := jsOr (E.sqrt (dx * dx + dy * dy)) (1 / 10000)
  let pen := c.r - dist
  let nx := dx / dist
  let ny := dy / dist
  if c.x > r.x ∧ c.x < r.x + r.w ∧ c.y > r.y ∧ c.y < r.y + r.h then
    let left := |c.x - r.x|
    let right := |r.x + r.w - c.x|
    let top := |c.y - r.y|
    let bottom := |r.y + r.h - c.y|
    let m := min (min (min left right) top) bottom
    if m = left then ⟨-1, 0, c.r⟩
    else if m = right then ⟨1, 0, c.r⟩
    else if m = top then ⟨0, -1, c.r⟩
    else ⟨0, 1, c.r⟩
  else if |nx| > |ny| then ⟨jsSign nx, 0, max 0 pen⟩
  else ⟨0, jsSign ny, max 0 pen⟩

/-- The squared distance `dx*dx + dy*dy` from the centre of the circle to the point of the
rectangle that `circleIntersectsRect` and `collisionNormal` clamp it to. -/
def clampDistSq (c : Circle α) (r : Rect α) : α :=
  (c.x - clamp c.x r.x (r.x + r.w)) * (c.x - clamp c.x r.x (r.x + r.w))
    + (c.y - clamp c.y r.y (r.y + r.h)) * (c.y - clamp c.y r.y (r.y + r.h))

/-- The test of `collisionNormal` for a centre strictly inside the rectangle. -/
def strictlyInside (c : Circle α) (r : Rect α) : Prop :=
  c.x > r.x ∧ c.x < r.x + r.w ∧ c.y > r.y ∧ c.y < r.y + r.h

/-- The function `rectIntersectsRect(a, b)`. -/
def rectIntersectsRect (a b : Rect α) : Bool :=
  !(decide (a.x + a.w < b.x) || decide (a.x > b.x + b.w)
    || decide (a.y + a.h < b.y) || decide (a.y > b.y + b.h))

/-! ## Level model -/

/-- The hit-points and the kind of the brick for a grid character other than `'0'`:
a digit `1..9` is its value in hit-points (`parseInt`), `'X'` is steel, any other character
is a special brick of that kind. -/
def brickOfChar (ch : Char) : Int × String :=
  if '1' ≤ ch ∧ ch ≤ '9' then ((ch.toNat : Int) - 48, "normal")
  else if ch = 'X' then (9999, "steel")
  else (1, String.singleton ch)

/-- The function `buildBricksFromGrid()`. -/
def buildBricksFromGrid (s : State α) : State α :=
  match s.levels[s.levelIndex]? with
  | none => { s with bricks := [] }
  | some L =>
    let marginX := CONFIG.BRICK.marginX
    let gap := CONFIG.BRICK.gap
    let cols := L.cols
    let rows := L.rows
    let totalGapX := (cols - 1) * gap
    let availableW := CONFIG.BASE_WIDTH - marginX * 2 - totalGapX
    let bw := max 12 (availableW / max 1 cols)
    let totalGapY := (rows - 1) * gap
    let maxBrickArea := CONFIG.BRICK.maxBrickArea
    let bh := min ((maxBrickArea - totalGapY) / max 1 rows) CONFIG.BRICK.maxH
    let totalW := cols * bw + totalGapX
    let x0 := (CONFIG.BASE_WIDTH - totalW) / 2
    let y0 := CONFIG.BRICK.top
    let out := (List.range rows.toNat).map (fun r =>
      let rowStr :=
        match L.grid[r]? with
        | none => List.replicate cols.toNat '0'
        | some row => if row = [] then List.replicate cols.toNat '0' else row
      (List.range cols.toNat).filterMap (fun c =>
        let ch := rowStr.getD c '0'
        if ch = '0' then none
        else
          some
            { x := ((x0 + (c : Int) * (bw + gap) : Int) : α)
              y := ((y0 + (r : Int) * (bh + gap) : Int) : α)
              w := ((bw : Int) : α)
              h := ((bh : Int) : α)
              hp := (brickOfChar ch).1
              alive := true
              kind := (brickOfChar ch).2 }))
    { s with bricks := out.flatten }

/-! ## Paddle, ball, reset -/

/-- The function `resetPaddleAndBalls()`. -/
def resetPaddleAndBalls (s : State α) : State α :=
  let w :=
    if s.portraitMode then s.cfgPaddleW * CONFIG.MOBILE.portraitPaddleScale else s.cfgPaddleW
  let h : α := CONFIG.PADDLE.h
  let px := (canvasWidth - w) / 2
  let py := canvasHeight - 42 - h
  let r : α :=
    max 6 (jsRound (CONFIG.BALL.r * (if s.portraitMode then CONFIG.MOBILE.portraitBallScale else 1)))
  let speedBase : α :=
    CONFIG.BALL.speed * (if s.portraitMode then CONFIG.MOBILE.portraitSpeedMul else 1)
  { s with
    paddle := { s.paddle with w := w, h := h, x := px, y := py }
    balls :=
      [{ x := px + w / 2, y := py - r - 1, vx := 0, vy := -speedBase * (9 / 10),
         r := r, speed := speedBase, stuck := true, dead := false }]
    powerups := []
    bullets := []
    timers := { widenEnd := 0, shrinkEnd := 0, laserEnd := 0 } }

/-- The function `startLevel(idx, keepStats)`. -/
def startLevel (s : State α) (idx : Int) (keepStats : Bool) : State α :=
  let s := { s with levelIndex := (clamp idx 0 ((s.levels.length : Int) - 1)).toNat }
  let s := if !keepStats then { s with score := 0, lives := 3 } else s
  resetPaddleAndBalls (buildBricksFromGrid s)

/-- The function `nextLevel()`. -/
def nextLevel (s : State α) : State α :=
  if (s.levelIndex : Int) < (s.levels.length : Int) - 1 then
    startLevel s ((s.levelIndex : Int) + 1) true
  else startLevel s 0 true

/-! ## Power-ups -/

/-- The function `spawnPowerup(type, cx, cy)`. -/
def spawnPowerup (s : State α) (type : String) (cx cy : α) : State α :=
  let size : α := 28
  let w := size
  let h := size
  { s with
    powerups := s.powerups ++
      [{ x := cx - w / 2, y := cy - h / 2, w := w, h := h, type := type,
         vy := CONFIG.POWERUP.fallSpeed }] }

/-- The function `maybeSpawnPowerupFromBrick(b)`.  `Math.random()` lies in `[0, 1)`, so the
index into `pool` is in range; an index out of range is given the empty tag. -/
def maybeSpawnPowerupFromBrick (E : Env α) (s : State α) (b : Brick α) : State α :=
  let kind := b.kind
  if kind ∈ ["M", "W", "S", "L"] then
    spawnPowerup s kind (b.x + b.w / 2) (b.y + b.h / 2)
  else
    let u := E.random s.rnd
    let s := { s with rnd := s.rnd + 1 }
    if u < CONFIG.POWERUP.chance then
      let pool := ["M", "W", "S", "L"]
      let i : Int := ⌊E.random s.rnd * (pool.length : α)⌋
      let s := { s with rnd := s.rnd + 1 }
      let pick := if 0 ≤ i then pool.getD i.toNat "" else ""
      spawnPowerup s pick (b.x + b.w / 2) (b.y + b.h / 2)
    else s

/-! ## Multi-ball -/

/-- The function `rand(min, max)`, drawing the `k`-th random number. -/
def rand (E : Env α) (k : Nat) (lo hi : α) : α := E.random k * (hi - lo) + lo

/-- One turn of the loop of `multiBallSpawn`: the clone of `base`, drawing random numbers
from the `k`-th on, and the index of the next unused random number. -/
def spawnClone (E : Env α) (base : Ball α) (k : Nat) : Ball α × Nat :=
  let angle := rand E k (-(6 / 10)) (6 / 10)
  let speed := base.speed * (1 + rand E (k + 1) (-(6 / 100)) (8 / 100))
  let sg := jsSign base.vx
  let dir : α := if sg = 0 then (if E.random (k + 2) < 1 / 2 then -1 else 1) else sg
  let k := if sg = 0 then k + 3 else k + 2
  let vx := E.sin angle * speed * dir
  let vy := -|E.cos angle * speed|
  ({ x := base.x + rand E k (-12) 12, y := base.y + rand E (k + 1) (-6) 6,
     vx := vx, vy := vy, r := base.r, speed := speed, stuck := false, dead := false }, k + 2)

/-- The loop of `multiBallSpawn` from turn `i` on, `n` turns: the clones and the index of
the next unused random number.  With no existing ball `base` is `undefined` and reading
`base.speed` throws: `none`. -/
def cloneLoop (E : Env α) (existing : List (Ball α)) : Nat → Nat → Nat → Option (List (Ball α) × Nat)
  | 0, _, k => some ([], k)
  | n + 1, i, k =>
    match existing[i % existing.length]? with
    | none => none
    | some base =>
      (cloneLoop E existing n (i + 1) (spawnClone E base k).2).map
        (fun r => ((spawnClone E base k).1 :: r.1, r.2))

/-- The function `multiBallSpawn(n)`. -/
def multiBallSpawn (E : Env α) (s : State α) (n : Nat) : Option (State α) :=
  (cloneLoop E s.balls n 0 s.rnd).map (fun r =>
    { s with
      balls := s.balls.map (fun b => if b.stuck then { b with stuck := false } else b) ++ r.1
      rnd := r.2 })

/-- The function `applyPowerup(type)`. -/
def applyPowerup (E : Env α) (s : State α) (type : String) : Option (State α) :=
  let t := toUpperCase type
  let r : Option (State α) :=
    if t = "M" then multiBallSpawn E s CONFIG.MULTIBALL.clones
    else if t = "W" then
      some { s with
        paddle := { s.paddle with w := s.paddle.w * (16 / 10) }
        timers := { s.timers with widenEnd := E.clock s.clk + CONFIG.POWERUP.duration }
        clk := s.clk + 1 }
    else if t = "S" then
      some { s with
        paddle := { s.paddle with w := s.paddle.w * (6 / 10) }
        timers := { s.timers with shrinkEnd := E.clock s.clk + CONFIG.POWERUP.duration }
        clk := s.clk + 1 }
    else if t = "L" then
      some { s with
        timers := { s.timers with laserEnd := E.clock s.clk + CONFIG.LASER.life }
        clk := s.clk + 1 }
    else some s
  r.map (fun s =>
    { s with paddle := { s.paddle with x := clamp s.paddle.x 0 (canvasWidth - s.paddle.w) } })

/-! ## Laser bullets -/

/-- The function `tryShootLaser()`. -/
def tryShootLaser (E : Env α) (s : State α) : State α :=
  let t0 := E.clock s.clk
  let s := { s with clk := s.clk + 1 }
  if t0 > s.timers.laserEnd then s
  else
    let tnow := E.clock s.clk
    let s := { s with clk := s.clk + 1 }
    if tnow - s.lastLaserShot < CONFIG.LASER.cooldown then s
    else
      let left := s.paddle.x + 12
      let right := s.paddle.x + s.paddle.w - 12
      { s with
        lastLaserShot := tnow
        bullets := s.bullets ++
          [{ x := left, y := s.paddle.y - 6, vx := 0, vy := -CONFIG.LASER.bulletSpeed, born := tnow },
           { x := right, y := s.paddle.y - 6, vx := 0, vy := -CONFIG.LASER.bulletSpeed, born := tnow }] }

/-! ## Game update -/

/-- The block run on the brick found by a collision scan (the same block in the ball loop
and in the bullet loop of `update`): a brick of kind `'X'` is left alone, any other brick
loses one hit-point and, at zero or below, is switched off, may drop a power-up and is
worth 10 points.  `i` is the position of the brick in `state.bricks`. -/
def damageBrick (E : Env α) (s : State α) (i : Nat) : State α :=
  match s.bricks[i]? with
  | none => s
  | some br =>
    if br.kind = "X" then s
    else
      let br := { br with hp := br.hp - 1 }
      if br.hp ≤ 0 then
        let br := { br with alive := false }
        let s := { s with bricks := s.bricks.set i br }
        let s := maybeSpawnPowerupFromBrick E s br
        { s with score := s.score + 10 }
      else { s with bricks := s.bricks.set i br }

/-- The wall collisions of a ball. -/
def wallCollide (b : Ball α) : Ball α :=
  let b :=
    if b.x - b.r < 0 then { b with x := b.r, vx := b.vx * -1 }
    else if b.x + b.r > canvasWidth then { b with x := canvasWidth - b.r, vx := b.vx * -1 }
    else b
  if b.y - b.r < 0 then { b with y := b.r, vy := b.vy * -1 } else b

/-- The relative contact offset `rel` of a paddle bounce. -/
def bounceRel (p : Paddle α) (b : Ball α) : α := (b.x - (p.x + p.w / 2)) / (p.w / 2)

/-- The outgoing `angle` of a paddle bounce. -/
def bounceAngle (E : Env α) (p : Paddle α) (b : Ball α) : α :=
  bounceRel p b * (E.pi / (26 / 10))

/-- The body of the paddle collision: the ball after the bounce. -/
def paddleBounce (E : Env α) (p : Paddle α) (b : Ball α) : Ball α :=
  let b := { b with y := p.y - b.r - 1 / 100 }
  let angle := bounceAngle E p b
  let speed :=
    clamp (E.sqrt (b.vx * b.vx + b.vy * b.vy) * (103 / 100)) CONFIG.BALL.speed CONFIG.BALL.maxSpeed
  { b with vx := E.sin angle * speed, vy := -|E.cos angle * speed|, speed := speed }

/-- The paddle collision of a ball. -/
def paddleCollide (E : Env α) (p : Paddle α) (b : Ball α) : Ball α :=
  if circleIntersectsRect b.circle p.rect ∧ b.vy > 0 then paddleBounce E p b else b

/-- The response of the ball to the brick `br` it overlaps. -/
def bounceOffBrick (E : Env α) (b : Ball α) (br : Brick α) : Ball α :=
  let overlap := collisionNormal E b.circle br.rect
  let b := if overlap.nx ≠ 0 then { b with vx := b.vx * -1 } else b
  let b := if overlap.ny ≠ 0 then { b with vy := b.vy * -1 } else b
  { b with x := b.x + overlap.nx * overlap.pen, y := b.y + overlap.ny * overlap.pen }

/-- The brick collision of a ball: the first alive brick it overlaps is hit. -/
def brickCollide (E : Env α) (s : State α) (b : Ball α) : State α × Ball α :=
  match firstIdx (fun br => br.alive && circleIntersectsRect b.circle br.rect) s.bricks with
  | none => (s, b)
  | some i =>
    match s.bricks[i]? with
    | none => (s, b)
    | some br => (damageBrick E s i, bounceOffBrick E b br)

/-- The body of the loop over the balls in `update`. -/
def stepBall (E : Env α) (dt : α) (s : State α) (b : Ball α) : State α × Ball α :=
  if b.stuck then
    let pc := s.paddle.x + s.paddle.w / 2
    (s, { b with x := pc + (b.x - jsOr pc 0), y := s.paddle.y - b.r - 1 })
  else
    let mul := s.speedMul
    let b := { b with x := b.x + b.vx * dt * mul, y := b.y + b.vy * dt * mul }
    let b := wallCollide b
    let b := paddleCollide E s.paddle b
    let r := brickCollide E s b
    let b := r.2
    let b := if b.y - b.r > canvasHeight + 20 then { b with dead := true } else b
    (r.1, b)

/-- The loop over the balls in `update`: the state (bricks, power-ups, score) and the
balls after it. -/
def ballLoop (E : Env α) (dt : α) : List (Ball α) → State α → State α × List (Ball α)
  | [], s => (s, [])
  | b :: bs, s =>
    let r := stepBall E dt s b
    let q := ballLoop E dt bs r.1
    (q.1, r.2 :: q.2)

/-- The loop over the power-ups in `update`, from the last one to the first: the state and
the power-ups that stay. -/
def powerupLoop (E : Env α) : List (Powerup α) → State α → Option (State α × List (Powerup α))
  | [], s => some (s, [])
  | p :: rest, s =>
    match powerupLoop E rest s with
    | none => none
    | some (s, kept) =>
      if p.y > canvasHeight + 40 then some (s, kept)
      else if rectIntersectsRect ⟨p.x, p.y, p.w, p.h⟩ s.paddle.rect then
        (applyPowerup E s p.type).map (fun s => (s, kept))
      else some (s, p :: kept)

/-- The loop over the bullets against the bricks in `update`, from the last bullet to the
first: the state and the bullets that stay. -/
def bulletLoop (E : Env α) : List (Bullet α) → State α → State α × List (Bullet α)
  | [], s => (s, [])
  | bullet :: rest, s =>
    let q := bulletLoop E rest s
    match firstIdx (fun br => br.alive &&
        rectIntersectsRect ⟨bullet.x - 3, bullet.y - 8, 6, 12⟩ br.rect) q.1.bricks with
    | none => (q.1, bullet :: q.2)
    | some i => (damageBrick E q.1 i, q.2)

/-- The expiry of the timers at the clock reading `now`. -/
def expireTimers (now : α) (s : State α) : State α :=
  let base := s.cfgPaddleW * (if s.portraitMode then CONFIG.MOBILE.portraitPaddleScale else 1)
  let s :=
    if s.timers.widenEnd ≠ 0 ∧ now > s.timers.widenEnd then
      { s with paddle := { s.paddle with w := base }, timers := { s.timers with widenEnd := 0 } }
    else s
  let s :=
    if s.timers.shrinkEnd ≠ 0 ∧ now > s.timers.shrinkEnd then
      { s with paddle := { s.paddle with w := base }, timers := { s.timers with shrinkEnd := 0 } }
    else s
  if s.timers.laserEnd ≠ 0 ∧ now > s.timers.laserEnd then
    { s with timers := { s.timers with laserEnd := 0 } }
  else s

/-- The paddle movement via the keys. -/
def movePaddle (dt : α) (s : State α) : State α :=
  let mul := s.speedMul
  let pxv : α := 0
  let pxv := if s.keys.ArrowLeft then pxv - 1 else pxv
  let pxv := if s.keys.ArrowRight then pxv + 1 else pxv
  let vx := pxv * CONFIG.PADDLE.speed * mul
  { s with
    paddle :=
      { s.paddle with
        vx := vx
        x := clamp (s.paddle.x + vx * dt) 0 (canvasWidth - s.paddle.w) } }

/-- The key `KeyF`: shoot the laser. -/
def fireKey (E : Env α) (s : State α) : State α :=
  if s.keys.KeyF then
    let s := tryShootLaser E s
    { s with keys := { s.keys with KeyF := false } }
  else s

/-- The key `Space`: start, and launch the stuck balls. -/
def launchKey (s : State α) : State α :=
  if s.keys.Space then
    { s with
      running := true
      balls := s.balls.map (fun b => if b.stuck then { b with stuck := false } else b)
      keys := { s.keys with Space := false } }
  else s

/-- The fall of the power-ups. -/
def fallPowerups (dt : α) (s : State α) : State α :=
  let mul := s.speedMul
  { s with powerups := s.powerups.map (fun p => { p with y := p.y + p.vy * dt * mul }) }

/-- The removal of the power-ups off screen and the collection of those on the paddle. -/
def collectPowerups (E : Env α) (s : State α) : Option (State α) :=
  (powerupLoop E s.powerups s).map (fun r => { r.1 with powerups := r.2 })

/-- The first part of `update(dt)`: timers, paddle, keys, power-ups.  `none` when
`multiBallSpawn` throws.  (`mul` is `state.speedMul`, which `update` never writes.) -/
def updateHead (E : Env α) (dt : α) (s : State α) : Option (State α) :=
  let now := E.clock s.clk
  let s := { s with clk := s.clk + 1 }
  collectPowerups E (fallPowerups dt (launchKey (fireKey E (movePaddle dt (expireTimers now s)))))

/-- The second part of `update(dt)`: the bullets move, the balls move and collide. -/
def ballPhase (E : Env α) (dt : α) (s : State α) : State α :=
  let mul := s.speedMul
  let s :=
    { s with
      bullets :=
        (s.bullets.map (fun b => { b with y := b.y + b.vy * dt * mul })).filter
          (fun b => decide (b.y > -20)) }
  let r := ballLoop E dt s.balls s
  { r.1 with balls := r.2 }

/-- The purge of the balls marked `_dead`. -/
def purgeDead (s : State α) : State α :=
  { s with balls := s.balls.filter (fun b => !b.dead) }

/-- The handling of the loss of the last ball. -/
def loseLife (s : State α) : State α :=
  let s := { s with lives := s.lives - 1 }
  if s.lives ≤ 0 then
    let s := { s with running := false, score := 0, lives := 3 }
    startLevel s (s.levelIndex : Int) true
  else resetPaddleAndBalls s

/-- The bullets against the bricks. -/
def bulletPhase (E : Env α) (s : State α) : State α :=
  let r := bulletLoop E s.bullets s
  { r.1 with bullets := r.2 }

/-- The level-clear check. -/
def levelClear (s : State α) : State α :=
  if s.bricks.all (fun b => !b.alive) then nextLevel s else s

/-- The last part of `update(dt)`, from the state `s` left by the purge of the dead balls:
either the loss of a life, after which `update` returns, or the bullets against the
bricks and the level-clear check. -/
def updateTail (E : Env α) (s : State α) : State α :=
  if s.balls.length = 0 then loseLife s
  else levelClear (bulletPhase E s)

/-- The part of `update(dt)` up to the purge of the dead balls; `none` when it throws. -/
def afterPurge (E : Env α) (dt : α) (s : State α) : Option (State α) :=
  (updateHead E dt s).map (fun s => purgeDead (ballPhase E dt s))

/-- The function `update(dt)`; `none` when it throws. -/
def update (E : Env α) (dt : α) (s : State α) : Option (State α) :=
  (afterPurge E dt s).map (updateTail E)

/-- The state when the collision phases of `update(dt)` are over, before a restart or a
level advance rebuilds anything: after the purge of the dead balls when the last ball was
lost, after the bullets met the bricks otherwise. -/
def collided (E : Env α) (dt : α) (s : State α) : Option (State α) :=
  (afterPurge E dt s).map (fun s => if s.balls.length = 0 then s else bulletPhase E s)

/-- The way `update(dt)` ends. -/
inductive Branch where
  /-- The last ball and the last life were lost: the level restarts. -/
  | gameOver
  /-- The last ball was lost, lives remain. -/
  | lifeLost
  /-- Every brick is off: the next level starts. -/
  | levelAdvance
  /-- None of these. -/
  | play
  deriving DecidableEq, Repr

/-- The branch `update(dt)` takes; `none` when it throws. -/
def branch (E : Env α) (dt : α) (s : State α) : Option Branch :=
  (collided E dt s).map (fun s =>
    if s.balls.length = 0 then
      if s.lives - 1 ≤ 0 then Branch.gameOver else Branch.lifeLost
    else if s.bricks.all (fun b => !b.alive) then Branch.levelAdvance
    else Branch.play)

/-! ## Level loading -/

/-- A level descriptor as it comes from the level source, before normalisation: any of
its members may be missing. -/
structure RawLevel where
  name : Option String
  rows : Option Int
  cols : Option Int
  grid : Option (List (List Char))

/-- A parsed level document; its member `levels` may be missing. -/
structure LevelDoc where
  levels : Option (List RawLevel)

/-- The call `'0'.repeat(n)`; a negative count throws a `RangeError`: `none`. -/
def repeatZero (n : Int) : Option (List Char) :=
  if n < 0 then none else some (List.replicate n.toNat '0')

/-- The call `r.padEnd(n, '0')`. -/
def padEndZero (r : List Char) (n : Int) : List Char :=
  r ++ List.replicate (n.toNat - r.length) '0'

/-- The call `r.slice(0, n)`; a negative `n` counts from the end. -/
def sliceTo (r : List Char) (n : Int) : List Char :=
  if n < 0 then r.take ((r.length : Int) + n).toNat else r.take n.toNat

/-- The loop `while (grid.length < rows) grid.push(z)`, run for the `n` turns it takes. -/
def pushRows (z : List Char) : Nat → List (List Char) → List (List Char)
  | 0, grid => grid
  | n + 1, grid => pushRows z n (grid ++ [z])

/-- The body of the `map` in `normalizeLevels`, for one descriptor `L`; `none` when it
throws. -/
def normalizeLevel (L : RawLevel) : Option Level :=
  let grid := L.grid.getD []
  let rows : Int := L.rows.getD (grid.length : Int)
  let cols : Int := L.cols.getD ((grid[0]?.map (fun r => (r.length : Int))).getD 0)
  let filled : Option (List (List Char)) :=
    if (grid.length : Int) < rows then
      (repeatZero cols).map (fun z => pushRows z (rows - (grid.length : Int)).toNat grid)
    else some grid
  filled.map (fun grid =>
    let normGrid := grid.map (fun r => sliceTo (padEndZero r cols) cols)
    { name := match L.name with
        | some n => if n = "" then "Level" else n
        | none => "Level"
      rows := rows, cols := cols, grid := normGrid })

/-- The function `normalizeLevels(levels)`; `none` when it throws. -/
def normalizeLevels : List RawLevel → Option (List Level)
  | [] => some []
  | L :: rest =>
    match normalizeLevel L with
    | none => none
    | some N => (normalizeLevels rest).map (fun Ns => N :: Ns)

/-- The descriptor of the final fallback level in `loadLevels`. -/
def fallbackLevel : RawLevel :=
  { name := some "Fallback", rows := some 6, cols := some 12,
    grid := some
      ["111111111111".data, "122222222221".data, "133333333331".data, "144444444441".data,
       "100000000001".data, "111111111111".data] }

/-- The function `loadLevels()`: the value it leaves in `state.levels`.  `fetched` is the
document fetched from `levels.json` (`none` when the fetch fails, the response is not ok or
its body does not parse); `inline` is the element `inline-levels` (`none` when absent) with
the document in its text (`none` when it does not parse).  A `normalizeLevels` that throws
is caught like a failed fetch or parse. -/
def loadLevels (fetched : Option LevelDoc) (inline : Option (Option LevelDoc)) : List Level :=
  let final := (normalizeLevels [fallbackLevel]).getD []
  match fetched.bind (fun data => normalizeLevels (data.levels.getD [])) with
  | some levels => levels
  | none =>
    match inline with
    | some (some data) =>
      match normalizeLevels (data.levels.getD []) with
      | some levels => levels
      | none => final
    | _ => final

/-! ## More of the step -/

/-- The second declaration of `rectIntersectsRect(a, b)`, at the end of the file. -/
def rectIntersectsRect2 (a b : Rect α) : Bool :=
  !(decide (a.x + a.w < b.x) || decide (a.x > b.x + b.w)
    || decide (a.y + a.h < b.y) || decide (a.y > b.y + b.h))

/-- The free ball `b` when `update(dt)` scans the bricks for it: after the integration,
the wall collisions and the paddle collision. -/
def ballAtBricks (E : Env α) (dt : α) (s : State α) (b : Ball α) : Ball α :=
  paddleCollide E s.paddle
    (wallCollide { b with x := b.x + b.vx * dt * s.speedMul, y := b.y + b.vy * dt * s.speedMul })

/-- The state with other values in the fields `speedMul` and `paddle.vx`. -/
def State.withSpeed (s : State α) (mul vx : α) : State α :=
  { s with speedMul := mul, paddle := { s.paddle with vx := vx } }

/-! ## Vocabulary of the properties -/

/-- What one step may do to a brick: hit-points do not grow; a brick that is off stays off
with its hit-points; a brick that was on with positive hit-points is off after the step
exactly when its hit-points are then `≤ 0`; and "on iff hit-points `≥ 1`" is kept. -/
def BrickStep (b b' : Brick α) : Prop :=
  b'.hp ≤ b.hp ∧
  (b.alive = false → b'.alive = false ∧ b'.hp = b.hp) ∧
  (b.alive = true → 1 ≤ b.hp → (b'.alive = false ↔ b'.hp ≤ 0)) ∧
  ((b.alive = true ↔ 1 ≤ b.hp) → (b'.alive = true ↔ 1 ≤ b'.hp))

/-- The normal is an axis-aligned unit vector. -/
def AxisUnit (nx ny : α) : Prop :=
  (nx = 0 ∧ (ny = 1 ∨ ny = -1)) ∨ (ny = 0 ∧ (nx = 1 ∨ nx = -1))

/-- The paddle is inside the playfield, provided it is not wider than the playfield. -/
def PaddleClamped (p : Paddle α) : Prop :=
  p.w ≤ canvasWidth → 0 ≤ p.x ∧ p.x ≤ canvasWidth - p.w

/-- The number of bricks that are on. -/
def aliveCount (bs : List (Brick α)) : Nat := bs.countP (fun b => b.alive)

/-- The number of bricks that are on in `bs` and off at the same position in `bs'`. -/
def destroyed (bs bs' : List (Brick α)) : Nat :=
  (List.zip bs bs').countP (fun q => q.1.alive && !q.2.alive)

/-- The fields of the state that the power-ups, the balls and the bullets never write. -/
def State.core (s : State α) : Int × Nat × List Level × Bool × α × α :=
  (s.lives, s.levelIndex, s.levels, s.portraitMode, s.cfgPaddleW, s.speedMul)

/-- How a brick evolves under any number of hits: hit-points do not grow, a brick that is
off is not touched, and a brick that was touched is on iff its hit-points are `≥ 1`. -/
def BrickEvolves (b b' : Brick α) : Prop :=
  b'.hp ≤ b.hp ∧ (b.alive = false → b' = b) ∧ (b' = b ∨ (b'.alive = true ↔ 1 ≤ b'.hp))

/-- How the state evolves through the phases of `update(dt)` that come before a rebuild:
the core is kept, the bricks evolve one by one, and each brick switched off is worth 10
points. -/
structure Evolves (s s' : State α) : Prop where
  core : s'.core = s.core
  bricks : List.Forall₂ BrickEvolves s.bricks s'.bricks
  score : s'.score + 10 * (aliveCount s'.bricks : Int) = s.score + 10 * (aliveCount s.bricks : Int)

/-! ## Sample states -/

/-- A level of one row and two columns, a one-hit brick in each cell. -/
def twoBrickLevel : Level := ⟨"Two", 1, 2, [['1', '1']]⟩

/-- A running game on `twoBrickLevel` as `startLevel` leaves it (the ball stuck on the
middle of the paddle), with the left arrow key held. -/
def stuckState : State α :=
  { running := true, speedMul := 1, levelIndex := 0, levels := [twoBrickLevel],
    score := 0, lives := 3, paddle := ⟨420, 482, 120, 16, 0⟩,
    balls := [⟨480, 473, 0, -378, 8, 420, true, false⟩],
    bricks := [⟨28, 72, 448, 32, 1, true, "normal"⟩, ⟨484, 72, 448, 32, 1, true, "normal"⟩],
    powerups := [], bullets := [], timers := ⟨0, 0, 0⟩, portraitMode := false,
    cfgPaddleW := 120, lastLaserShot := 0, keys := ⟨true, false, false, false⟩,
    rnd := 0, clk := 0 }

/-- The game of `stuckState` with no key held and its ball in flight, moving up, just
below the left brick. -/
def flightState : State α :=
  { stuckState with
    balls := [⟨250, 1163 / 10, 0, -315, 8, 420, false, false⟩]
    keys := ⟨false, false, false, false⟩ }

/-- The game of `stuckState` with no key held and its only ball below the playfield. -/
def lostState (lives : Int) : State α :=
  { stuckState with
    lives := lives
    score := 40
    balls := [⟨250, 600, 0, 300, 8, 420, false, false⟩]
    keys := ⟨false, false, false, false⟩ }

/-- The game of `stuckState` after four widen pickups (`120 * 1.6^4 = 786.432`), the
paddle at the left wall. -/
def wideState : State α :=
  { stuckState with paddle := ⟨0, 482, 98304 / 125, 16, 0⟩ }

/-- A level of one row and one column holding a steel brick, `'X'`. -/
def steelLevel : Level := ⟨"Steel", 1, 1, [['X']]⟩

/-- A running game on `steelLevel`: the brick list is the one `buildBricksFromGrid` makes,
the ball is in flight, moving up, just below the steel brick. -/
def steelState : State α :=
  { running := true, speedMul := 1, levelIndex := 0, levels := [steelLevel],
    score := 0, lives := 3, paddle := ⟨420, 482, 120, 16, 0⟩,
    balls := [⟨480, 1163 / 10, 0, -315, 8, 420, false, false⟩],
    bricks := [⟨28, 72, 904, 32, 9999, true, "steel"⟩],
    powerups := [], bullets := [], timers := ⟨0, 0, 0⟩, portraitMode := false,
    cfgPaddleW := 120, lastLaserShot := 0, keys := ⟨false, false, false, false⟩,
    rnd := 0, clk := 0 }

/-- The character of the grid cell in row `r` and column `c`, a missing cell being `'0'`. -/
def cellAt (L : Level) (r c : Nat) : Char := (L.grid.getD r []).getD c '0'

/-- Following the spec: the hit-points, the kind and the alive flag of the brick for a
grid character other than `'0'`: a digit `d` in `1..9` gives a normal brick of `d`
hit-points, `'X'` a steel brick of 9999, any other character a brick of that kind with one
hit-point. -/
def specBrick (ch : Char) : Int × String × Bool :=
  if ch = '1' then (1, "normal", true)
  else if ch = '2' then (2, "normal", true)
  else if ch = '3' then (3, "normal", true)
  else if ch = '4' then (4, "normal", true)
  else if ch = '5' then (5, "normal", true)
  else if ch = '6' then (6, "normal", true)
  else if ch = '7' then (7, "normal", true)
  else if ch = '8' then (8, "normal", true)
  else if ch = '9' then (9, "normal", true)
  else if ch = 'X' then (9999, "steel", true)
  else (1, String.singleton ch, true)

/-- Following the spec: one brick per grid cell (`r < rows`, `c < cols`) whose character is
not `'0'`, in row-major order. -/
def specBricks (L : Level) : List (Int × String × Bool) :=
  ((List.range L.rows.toNat).map (fun r =>
    ((List.range L.cols.toNat).filter (fun c => cellAt L r c ≠ '0')).map
      (fun c => specBrick (cellAt L r c)))).flatten

/-- The facts about `Math.sin`, `Math.cos` and `Math.PI` that the bounce at the centre
and at the ends of the paddle rests on. -/
def Env.BounceLaw {α : Type} [LinearOrderedField α] (E : Env α) : Prop :=
  E.sin 0 = 0 ∧ E.cos 0 = 1 ∧ (∀ a, E.sin (-a) = -E.sin a) ∧ (∀ a, E.cos (-a) = E.cos a) ∧
  0 ≤ E.sin (E.pi / (26 / 10)) ∧ 0 ≤ E.cos (E.pi / (26 / 10))

/-- The facts about `Math.random`, `Math.sin` and `Math.cos` that the launch of a clone
rests on: a random number lies in `[0, 1)`, the sine is odd and positive on `(0, 0.6]`, the
cosine is positive on `[-0.6, 0.6]`. -/
def Env.SpawnLaw {α : Type} [LinearOrderedField α] (E : Env α) : Prop :=
  (∀ k, 0 ≤ E.random k ∧ E.random k < 1) ∧ (∀ a, E.sin (-a) = -E.sin a) ∧
  (∀ a, 0 < a → a ≤ 6 / 10 → 0 < E.sin a) ∧ (∀ a, -(6 / 10) ≤ a → a ≤ 6 / 10 → 0 < E.cos a)

/-- A level of one row and one column holding a one-hit brick. -/
def oneBrickLevel : Level := ⟨"One", 1, 1, [['1']]⟩

/-- A running game on two levels, the first being `oneBrickLevel`, the ball in flight,
moving up, just below the only brick. -/
def lastBrickState : State α :=
  { running := true, speedMul := 1, levelIndex := 0, levels := [oneBrickLevel, twoBrickLevel],
    score := 30, lives := 2, paddle := ⟨420, 482, 120, 16, 0⟩,
    balls := [⟨480, 1163 / 10, 0, -315, 8, 420, false, false⟩],
    bricks := [⟨28, 72, 904, 32, 1, true, "normal"⟩],
    powerups := [], bullets := [], timers := ⟨0, 0, 0⟩, portraitMode := false,
    cfgPaddleW := 120, lastLaserShot := 0, keys := ⟨false, false, false, false⟩,
    rnd := 0, clk := 0 }

/-- A level descriptor of three declared rows and four declared columns whose grid has a
short row and a long row. -/
def raggedLevel : RawLevel :=
  { name := some "Ragged", rows := some 3, cols := some 4,
    grid := some [['1', '2'], ['1', '2', '3', '4', '5']] }

/-- The game of `stuckState` with no key held and its ball in flight, moving down and to
the right. -/
def fallingState : State α :=
  { stuckState with
    balls := [⟨250, 300, 120, 300, 8, 420, false, false⟩]
    keys := ⟨false, false, false, false⟩ }

/-- The game of `stuckState` with its three timers set to expire at clock reading 5. -/
def timedState : State α :=
  { stuckState with
    paddle := ⟨420, 482, 192, 16, 0⟩
    timers := ⟨5, 5, 5⟩ }

/-- The value `pxv * CONFIG.PADDLE.speed * mul` that `update` stores in `paddle.vx` under
the held keys `k` when `speedMul` is 1. -/
def unitVx (k : Keys) : α :=
  (if k.ArrowRight then (if k.ArrowLeft then (0 : α) - 1 else 0) + 1
    else (if k.ArrowLeft then (0 : α) - 1 else 0)) * CONFIG.PADDLE.speed * 1

/-- The run time of the bounce of the ball `{x: 470, y: 480, vx: 3, vy: 4, r: 8}` on the
paddle `{x: 420, y: 482, w: 120, h: 16}` in double precision: `Math.hypot(3, 4)` is 5,
`Math.PI` is the double next to `π`, and `Math.sin` and `Math.cos` return the doubles
`-0.2000256937760444` and `0.9797906520422677` they return at the angle of that bounce,
written as the fractions they are. -/
def doubleEnv : Env ℚ :=
  Env.quiet (fun _ => 5) (fun _ => -1801671279908637 / 9007199254740992)
    (fun _ => 1103146203859663 / 1125899906842624) (884279719003555 / 281474976710656)

end Model

/-! # Theorems -/

/-! ## Facts about the helpers -/

section Primitives

variable {α : Type} [LinearOrderedField α]

theorem clamp_ge {β : Type} [LinearOrder β] (v lo hi : β) : lo ≤ clamp v lo hi :=
  le_max_left _ _

theorem clamp_le {β : Type} [LinearOrder β] (v lo hi : β) (h : lo ≤ hi) : clamp v lo hi ≤ hi :=
  max_le h (min_le_left _ _)

theorem clamp_of_mem {β : Type} [LinearOrder β] (v lo hi : β) (h1 : lo ≤ v) (h2 : v ≤ hi) :
    clamp v lo hi = v := by
  unfold clamp
  rw [min_eq_right h2, max_eq_right h1]

theorem Env.SqrtLaw.nonneg {E : Env α} (hE : E.SqrtLaw) {x : α} (hx : 0 ≤ x) : 0 ≤ E.sqrt x :=
  (hE x hx).1

theorem Env.SqrtLaw.mul_self {E : Env α} (hE : E.SqrtLaw) {x : α} (hx : 0 ≤ x) :
    E.sqrt x * E.sqrt x = x :=
  (hE x hx).2

theorem Env.SqrtLaw.eq_zero_iff {E : Env α} (hE : E.SqrtLaw) {x : α} (hx : 0 ≤ x) :
    E.sqrt x = 0 ↔ x = 0 := by
  constructor
  · intro h
    have := hE.mul_self hx
    rw [h] at this
    simpa using this.symm
  · intro h
    subst h
    have := hE.mul_self (le_refl (0 : α))
    exact mul_self_eq_zero.mp this

theorem Env.SqrtLaw.lt_iff {E : Env α} (hE : E.SqrtLaw) {x r : α} (hx : 0 ≤ x) (hr : 0 < r) :
    E.sqrt x < r ↔ x < r * r := by
  have h0 := hE.nonneg hx
  have h1 := hE.mul_self hx
  constructor
  · intro h
    calc x = E.sqrt x * E.sqrt x := h1.symm
      _ < r * r := mul_self_lt_mul_self h0 h
  · intro h
    by_contra hc
    push_neg at hc
    have : r * r ≤ E.sqrt x * E.sqrt x := mul_self_le_mul_self hr.le hc
    rw [h1] at this
    exact absurd h (not_lt.mpr this)

theorem Env.SqrtLaw.sqrt_mul_self {E : Env α} (hE : E.SqrtLaw) {r : α} (hr : 0 ≤ r) :
    E.sqrt (r * r) = r := by
  have hx : (0 : α) ≤ r * r := mul_self_nonneg r
  have h0 := hE.nonneg hx
  have h1 := hE.mul_self hx
  exact (mul_self_inj h0 hr).mp h1

theorem circleIntersectsRect_iff (c : Circle α) (r : Rect α) :
    circleIntersectsRect c r = true ↔ clampDistSq c r ≤ c.r * c.r := by
  simp [circleIntersectsRect, clampDistSq]

theorem clampDistSq_nonneg (c : Circle α) (r : Rect α) : 0 ≤ clampDistSq c r :=
  add_nonneg (mul_self_nonneg _) (mul_self_nonneg _)

theorem clampDistSq_of_inside (c : Circle α) (r : Rect α) (h : strictlyInside c r) :
    clampDistSq c r = 0 := by
  obtain ⟨h1, h2, h3, h4⟩ := h
  unfold clampDistSq
  rw [clamp_of_mem c.x _ _ h1.le h2.le, clamp_of_mem c.y _ _ h3.le h4.le]
  simp

theorem collisionNormal_pen (E : Env α) (c : Circle α) (r : Rect α) :
    (collisionNormal E c r).pen =
      if c.x > r.x ∧ c.x < r.x + r.w ∧ c.y > r.y ∧ c.y < r.y + r.h then c.r
      else max 0 (c.r - jsOr (E.sqrt (clampDistSq c r)) (1 / 10000)) := by
  unfold collisionNormal clampDistSq
  simp only []
  split_ifs <;> rfl

/-- C3, amended.  For a circle of radius `r > 0` and `Math.sqrt` the square root: a
penetration `pen > 0` from `collisionNormal` implies that `circleIntersectsRect` is true,
and `pen > 0` holds exactly when the squared distance to the clamped point is strictly below
`r * r` and, should that distance be zero with the centre not strictly inside the
rectangle, `r` exceeds the substitute distance `0.0001`. -/
theorem collisionNormal_pen_pos_iff (E : Env α) (hE : E.SqrtLaw) (c : Circle α) (r : Rect α)
    (hr : 0 < c.r) :
    (0 < (collisionNormal E c r).pen → circleIntersectsRect c r = true) ∧
    (0 < (collisionNormal E c r).pen ↔
      clampDistSq c r < c.r * c.r ∧
        (clampDistSq c r = 0 → strictlyInside c r ∨ 1 / 10000 < c.r)) := by
  have hd := clampDistSq_nonneg c r
  have key : 0 < (collisionNormal E c r).pen ↔
      clampDistSq c r < c.r * c.r ∧
        (clampDistSq c r = 0 → strictlyInside c r ∨ 1 / 10000 < c.r) := by
    rw [collisionNormal_pen]
    by_cases hin : strictlyInside c r
    · have hin1 : c.x > r.x ∧ c.x < r.x + r.w ∧ c.y > r.y ∧ c.y < r.y + r.h := hin
      rw [if_pos hin1]
      have h0 := clampDistSq_of_inside c r hin
      constructor
      · intro _
        refine ⟨?_, fun _ => Or.inl hin⟩
        rw [h0]
        exact mul_pos hr hr
      · intro _
        exact hr
    · have hin2 : ¬ (c.x > r.x ∧ c.x < r.x + r.w ∧ c.y > r.y ∧ c.y < r.y + r.h) := hin
      rw [if_neg hin2, lt_max_iff]
      simp only [lt_self_iff_false, false_or, sub_pos]
      unfold jsOr
      by_cases hz : clampDistSq c r = 0
      · rw [if_pos ((hE.eq_zero_iff hd).mpr hz), hz]
        constructor
        · intro h
          exact ⟨mul_pos hr hr, fun _ => Or.inr h⟩
        · rintro ⟨_, h⟩
          rcases h rfl with h | h
          · exact absurd h hin
          · exact h
      · rw [if_neg (fun h => hz ((hE.eq_zero_iff hd).mp h)), hE.lt_iff hd hr]
        constructor
        · intro h
          exact ⟨h, fun h0 => absurd h0 hz⟩
        · intro h
          exact h.1
  refine ⟨fun h => ?_, key⟩
  rw [circleIntersectsRect_iff]
  exact (key.mp h).1.le

/-- C3, witness: a ball of radius 8 whose centre is 5 above the middle of the top edge of a
rectangle. -/
theorem collisionNormal_pen_pos_iff_witness :
    Env.SqrtLaw (Env.quiet Real.sqrt Real.sin Real.cos Real.pi) ∧
    (0 : ℝ) < (⟨0, -5, 8⟩ : Circle ℝ).r ∧
    ((0 < (collisionNormal (Env.quiet Real.sqrt Real.sin Real.cos Real.pi)
        ⟨0, -5, 8⟩ ⟨-10, 0, 20, 10⟩).pen →
        circleIntersectsRect (⟨0, -5, 8⟩ : Circle ℝ) ⟨-10, 0, 20, 10⟩ = true) ∧
     (0 < (collisionNormal (Env.quiet Real.sqrt Real.sin Real.cos Real.pi)
        ⟨0, -5, 8⟩ ⟨-10, 0, 20, 10⟩).pen ↔
        clampDistSq (⟨0, -5, 8⟩ : Circle ℝ) ⟨-10, 0, 20, 10⟩ < (⟨0, -5, 8⟩ : Circle ℝ).r * (⟨0, -5, 8⟩ : Circle ℝ).r ∧
          (clampDistSq (⟨0, -5, 8⟩ : Circle ℝ) ⟨-10, 0, 20, 10⟩ = 0 →
            strictlyInside (⟨0, -5, 8⟩ : Circle ℝ) ⟨-10, 0, 20, 10⟩ ∨ 1 / 10000 < (⟨0, -5, 8⟩ : Circle ℝ).r))) :=
  have hE : Env.SqrtLaw (Env.quiet Real.sqrt Real.sin Real.cos Real.pi) :=
    fun x hx => ⟨Real.sqrt_nonneg x, Real.mul_self_sqrt hx⟩
  ⟨hE, by norm_num, collisionNormal_pen_pos_iff _ hE ⟨0, -5, 8⟩ ⟨-10, 0, 20, 10⟩ (by norm_num)⟩

/-- C3, counterexample: a circle of radius 8 that touches the top edge of a rectangle from
above (its centre is at distance exactly 8) intersects it, with penetration 0. -/
theorem circleIntersectsRect_not_iff_pen_pos :
    ¬ (circleIntersectsRect (⟨0, -8, 8⟩ : Circle ℝ) ⟨-10, 0, 20, 10⟩ = true ↔
      0 < (collisionNormal (Env.quiet Real.sqrt Real.sin Real.cos Real.pi)
        ⟨0, -8, 8⟩ ⟨-10, 0, 20, 10⟩).pen) := by
  have h64 : Real.sqrt 64 = 8 := by
    rw [show (64 : ℝ) = 8 ^ 2 by norm_num]
    exact Real.sqrt_sq (by norm_num)
  have h1 : circleIntersectsRect (⟨0, -8, 8⟩ : Circle ℝ) ⟨-10, 0, 20, 10⟩ = true := by
    rw [circleIntersectsRect_iff]
    norm_num [clampDistSq, clamp]
  have h2 : (collisionNormal (Env.quiet Real.sqrt Real.sin Real.cos Real.pi)
        ⟨0, -8, 8⟩ ⟨-10, 0, 20, 10⟩).pen = 0 := by
    rw [collisionNormal_pen]
    norm_num [clampDistSq, clamp, jsOr, h64, Env.quiet]
  rw [h2]
  simp [h1]

end Primitives

/-! ## The paddle bounce -/

section PaddleBounce

variable {α : Type} [LinearOrderedField α]

theorem paddleCollide_of_hit (E : Env α) (p : Paddle α) (b : Ball α)
    (h : circleIntersectsRect b.circle p.rect = true ∧ 0 < b.vy) :
    paddleCollide E p b = paddleBounce E p b := by
  unfold paddleCollide
  rw [if_pos h]

/-- C5, amended.  A ball that undergoes a paddle bounce (the paddle-collision test
succeeds) leaves it with its `speed` field equal to
`clamp(Math.hypot(vx, vy) * 1.03, 420, 1200)`, hence in
`[CONFIG.BALL.speed, CONFIG.BALL.maxSpeed] = [420, 1200]` whatever its velocity was, and
with the velocity `(sin(angle) * speed, -|cos(angle) * speed|)`, whose squared magnitude is
`speed² * (sin²(angle) + cos²(angle))`: the magnitude is the `speed` field when `Math.sin`
and `Math.cos` return values with `sin² + cos² = 1` at that angle (and `Math.sqrt` is the
square root), and differs from it by their rounding otherwise. -/
theorem paddleCollide_speed (E : Env α) (p : Paddle α) (b : Ball α)
    (h : circleIntersectsRect b.circle p.rect = true ∧ 0 < b.vy) :
    (CONFIG.BALL.speed : α) = 420 ∧ (CONFIG.BALL.maxSpeed : α) = 1200 ∧
    (paddleCollide E p b).speed
      = clamp (E.sqrt (b.vx * b.vx + b.vy * b.vy) * (103 / 100)) 420 1200 ∧
    CONFIG.BALL.speed ≤ (paddleCollide E p b).speed ∧
    (paddleCollide E p b).speed ≤ CONFIG.BALL.maxSpeed ∧
    (paddleCollide E p b).vx = E.sin (bounceAngle E p b) * (paddleCollide E p b).speed ∧
    (paddleCollide E p b).vy = -|E.cos (bounceAngle E p b) * (paddleCollide E p b).speed| ∧
    (paddleCollide E p b).vx * (paddleCollide E p b).vx
      + (paddleCollide E p b).vy * (paddleCollide E p b).vy
      = (paddleCollide E p b).speed * (paddleCollide E p b).speed
        * (E.sin (bounceAngle E p b) * E.sin (bounceAngle E p b)
          + E.cos (bounceAngle E p b) * E.cos (bounceAngle E p b)) ∧
    (E.sin (bounceAngle E p b) * E.sin (bounceAngle E p b)
        + E.cos (bounceAngle E p b) * E.cos (bounceAngle E p b) = 1 →
      (paddleCollide E p b).vx * (paddleCollide E p b).vx
        + (paddleCollide E p b).vy * (paddleCollide E p b).vy
        = (paddleCollide E p b).speed * (paddleCollide E p b).speed ∧
      (E.SqrtLaw →
        E.sqrt ((paddleCollide E p b).vx * (paddleCollide E p b).vx
          + (paddleCollide E p b).vy * (paddleCollide E p b).vy)
          = (paddleCollide E p b).speed)) := by
  rw [paddleCollide_of_hit E p b h]
  have hle : (CONFIG.BALL.speed : α) ≤ CONFIG.BALL.maxSpeed := by
    unfold CONFIG.BALL.speed CONFIG.BALL.maxSpeed
    norm_num
  have ha : bounceAngle E p { b with y := p.y - b.r - 1 / 100 } = bounceAngle E p b := rfl
  refine ⟨rfl, rfl, rfl, clamp_ge _ _ _, clamp_le _ _ _ hle, ?_, ?_, ?_, ?_⟩
  · simp only [paddleBounce, ha]
  · simp only [paddleBounce, ha]
  · simp only [paddleBounce, ha]
    rw [neg_mul_neg, abs_mul_abs_self]
    ring
  · intro hT
    simp only [paddleBounce, ha]
    generalize hs : clamp (E.sqrt (b.vx * b.vx + b.vy * b.vy) * (103 / 100))
      (CONFIG.BALL.speed : α) CONFIG.BALL.maxSpeed = sp
    generalize bounceAngle E p b = a at hT
    have hsp : (0 : α) ≤ sp := by
      rw [← hs]
      refine le_trans ?_ (clamp_ge _ _ _)
      unfold CONFIG.BALL.speed
      norm_num
    have hsq : E.sin a * sp * (E.sin a * sp) + -|E.cos a * sp| * -|E.cos a * sp| = sp * sp := by
      rw [neg_mul_neg, abs_mul_abs_self]
      calc E.sin a * sp * (E.sin a * sp) + E.cos a * sp * (E.cos a * sp)
          = (E.sin a * E.sin a + E.cos a * E.cos a) * (sp * sp) := by ring
        _ = sp * sp := by rw [hT, one_mul]
    refine ⟨hsq, fun hS => ?_⟩
    rw [hsq]
    exact hS.sqrt_mul_self hsp

/-- C5, witness: a slow ball falling onto the middle of the paddle, with the real sine,
cosine and square root: the `speed` field is 420 and so is the magnitude of the velocity. -/
theorem paddleCollide_speed_witness :
    (circleIntersectsRect (⟨480, 480, 3, 4, 8, 420, false, false⟩ : Ball ℝ).circle
        (⟨420, 482, 120, 16, 0⟩ : Paddle ℝ).rect = true ∧
      0 < (⟨480, 480, 3, 4, 8, 420, false, false⟩ : Ball ℝ).vy) ∧
    (420 : ℝ) ≤ (paddleCollide (Env.quiet Real.sqrt Real.sin Real.cos Real.pi)
      ⟨420, 482, 120, 16, 0⟩ ⟨480, 480, 3, 4, 8, 420, false, false⟩).speed ∧
    (paddleCollide (Env.quiet Real.sqrt Real.sin Real.cos Real.pi)
      ⟨420, 482, 120, 16, 0⟩ ⟨480, 480, 3, 4, 8, 420, false, false⟩).speed ≤ 1200 ∧
    Real.sqrt
      ((paddleCollide (Env.quiet Real.sqrt Real.sin Real.cos Real.pi)
          ⟨420, 482, 120, 16, 0⟩ ⟨480, 480, 3, 4, 8, 420, false, false⟩).vx
        * (paddleCollide (Env.quiet Real.sqrt Real.sin Real.cos Real.pi)
          ⟨420, 482, 120, 16, 0⟩ ⟨480, 480, 3, 4, 8, 420, false, false⟩).vx
      + (paddleCollide (Env.quiet Real.sqrt Real.sin Real.cos Real.pi)
          ⟨420, 482, 120, 16, 0⟩ ⟨480, 480, 3, 4, 8, 420, false, false⟩).vy
        * (paddleCollide (Env.quiet Real.sqrt Real.sin Real.cos Real.pi)
          ⟨420, 482, 120, 16, 0⟩ ⟨480, 480, 3, 4, 8, 420, false, false⟩).vy)
      = (paddleCollide (Env.quiet Real.sqrt Real.sin Real.cos Real.pi)
          ⟨420, 482, 120, 16, 0⟩ ⟨480, 480, 3, 4, 8, 420, false, false⟩).speed :=
  have hS : Env.SqrtLaw (Env.quiet Real.sqrt Real.sin Real.cos Real.pi) :=
    fun x hx => ⟨Real.sqrt_nonneg x, Real.mul_self_sqrt hx⟩
  have hT : ∀ a : ℝ, Real.sin a * Real.sin a + Real.cos a * Real.cos a = 1 :=
    fun a => by
      have := Real.sin_sq_add_cos_sq a
      simpa [sq] using this
  have hh : circleIntersectsRect (⟨480, 480, 3, 4, 8, 420, false, false⟩ : Ball ℝ).circle
        (⟨420, 482, 120, 16, 0⟩ : Paddle ℝ).rect = true ∧
      0 < (⟨480, 480, 3, 4, 8, 420, false, false⟩ : Ball ℝ).vy := by
    rw [circleIntersectsRect_iff]
    norm_num [clampDistSq, clamp, Ball.circle, Paddle.rect]
  have t := paddleCollide_speed (Env.quiet Real.sqrt Real.sin Real.cos Real.pi)
    ⟨420, 482, 120, 16, 0⟩ ⟨480, 480, 3, 4, 8, 420, false, false⟩ hh
  ⟨hh, t.1 ▸ t.2.2.2.1, t.2.1 ▸ t.2.2.2.2.1, (t.2.2.2.2.2.2.2.2 (hT _)).2 hS⟩

/-- C5, counterexample: the ball `{x: 470, y: 480, vx: 3, vy: 4, r: 8}` bounces on the
paddle `{x: 420, y: 482, w: 120, h: 16}`.  With the doubles `Math.sin` and `Math.cos`
return, the `speed` field is 420 and the squared magnitude of the new velocity is below
`420²`: the magnitude is not the `speed` field, and it is below `CONFIG.BALL.speed`. -/
theorem bounce_magnitude_below_speed :
    (circleIntersectsRect (⟨470, 480, 3, 4, 8, 420, false, false⟩ : Ball ℚ).circle
        (⟨420, 482, 120, 16, 0⟩ : Paddle ℚ).rect = true ∧
      0 < (⟨470, 480, 3, 4, 8, 420, false, false⟩ : Ball ℚ).vy) ∧
    (paddleCollide doubleEnv ⟨420, 482, 120, 16, 0⟩
      ⟨470, 480, 3, 4, 8, 420, false, false⟩).speed = 420 ∧
    (paddleCollide doubleEnv ⟨420, 482, 120, 16, 0⟩
        ⟨470, 480, 3, 4, 8, 420, false, false⟩).vx
      * (paddleCollide doubleEnv ⟨420, 482, 120, 16, 0⟩
        ⟨470, 480, 3, 4, 8, 420, false, false⟩).vx
    + (paddleCollide doubleEnv ⟨420, 482, 120, 16, 0⟩
        ⟨470, 480, 3, 4, 8, 420, false, false⟩).vy
      * (paddleCollide doubleEnv ⟨420, 482, 120, 16, 0⟩
        ⟨470, 480, 3, 4, 8, 420, false, false⟩).vy
    < (paddleCollide doubleEnv ⟨420, 482, 120, 16, 0⟩
        ⟨470, 480, 3, 4, 8, 420, false, false⟩).speed
      * (paddleCollide doubleEnv ⟨420, 482, 120, 16, 0⟩
        ⟨470, 480, 3, 4, 8, 420, false, false⟩).speed := by
  have hh : circleIntersectsRect (⟨470, 480, 3, 4, 8, 420, false, false⟩ : Ball ℚ).circle
        (⟨420, 482, 120, 16, 0⟩ : Paddle ℚ).rect = true ∧
      0 < (⟨470, 480, 3, 4, 8, 420, false, false⟩ : Ball ℚ).vy := by
    rw [circleIntersectsRect_iff]
    norm_num [clampDistSq, clamp, Ball.circle, Paddle.rect]
  refine ⟨hh, ?_, ?_⟩
  · rw [paddleCollide_of_hit _ _ _ hh]
    norm_num [paddleBounce, doubleEnv, Env.quiet, clamp, CONFIG.BALL.speed,
      CONFIG.BALL.maxSpeed]
  · rw [paddleCollide_of_hit _ _ _ hh]
    norm_num [paddleBounce, doubleEnv, Env.quiet, clamp, CONFIG.BALL.speed,
      CONFIG.BALL.maxSpeed, abs_mul_abs_self]

/-- The horizontal reach of the paddle-collision test: the centre of a ball that meets
the paddle is within `r` of the paddle's horizontal extent. -/
theorem hit_x_range (p : Paddle α) (b : Ball α) (hw : 0 ≤ p.w) (hr : 0 ≤ b.r)
    (h : circleIntersectsRect b.circle p.rect = true) :
    p.x - b.r ≤ b.x ∧ b.x ≤ p.x + p.w + b.r := by
  rw [circleIntersectsRect_iff] at h
  unfold clampDistSq at h
  simp only [Ball.circle, Paddle.rect] at h
  have h1 : (b.x - clamp b.x p.x (p.x + p.w)) ^ 2 ≤ b.r ^ 2 := by
    have := mul_self_nonneg (b.y - clamp b.y p.y (p.y + p.h))
    rw [sq, sq]
    linarith
  have h2 := abs_le_of_sq_le_sq h1 hr
  rw [abs_le] at h2
  have h3 : p.x ≤ clamp b.x p.x (p.x + p.w) := clamp_ge _ _ _
  have h4 : clamp b.x p.x (p.x + p.w) ≤ p.x + p.w := clamp_le _ _ _ (by linarith)
  constructor <;> linarith [h2.1, h2.2]

/-- C6, amended.  At every ball position at which the paddle-collision test succeeds
(paddle width `w > 0`, radius `r ≥ 0`) the relative offset satisfies
`|rel| ≤ 1 + r / (w/2)` and the angle `|angle| ≤ (1 + r / (w/2)) * (pi / 2.6)`; when the
centre of the ball is within the paddle's horizontal extent, `|rel| ≤ 1` and
`|angle| ≤ pi / 2.6`. -/
theorem bounceAngle_bound (E : Env α) (hpi : 0 ≤ E.pi) (p : Paddle α) (b : Ball α)
    (hw : 0 < p.w) (hr : 0 ≤ b.r) (h : circleIntersectsRect b.circle p.rect = true) :
    |bounceRel p b| ≤ 1 + b.r / (p.w / 2) ∧
    |bounceAngle E p b| ≤ (1 + b.r / (p.w / 2)) * (E.pi / (26 / 10)) ∧
    (p.x ≤ b.x → b.x ≤ p.x + p.w →
      |bounceRel p b| ≤ 1 ∧ |bounceAngle E p b| ≤ E.pi / (26 / 10)) := by
  obtain ⟨h1, h2⟩ := hit_x_range p b hw.le hr h
  have hw2 : 0 < p.w / 2 := by linarith
  have hm : 0 ≤ E.pi / (26 / 10) := div_nonneg hpi (by norm_num)
  have hrel : |bounceRel p b| ≤ 1 + b.r / (p.w / 2) := by
    unfold bounceRel
    rw [abs_div, abs_of_pos hw2, div_le_iff₀ hw2, add_mul, one_mul, div_mul_cancel₀ _ hw2.ne',
      abs_le]
    constructor <;> linarith
  have hang : ∀ k : α, |bounceRel p b| ≤ k → |bounceAngle E p b| ≤ k * (E.pi / (26 / 10)) := by
    intro k hk
    unfold bounceAngle
    rw [abs_mul, abs_of_nonneg hm]
    exact mul_le_mul_of_nonneg_right hk hm
  refine ⟨hrel, hang _ hrel, fun h3 h4 => ?_⟩
  have hrel1 : |bounceRel p b| ≤ 1 := by
    unfold bounceRel
    rw [abs_div, abs_of_pos hw2, div_le_iff₀ hw2, one_mul, abs_le]
    constructor <;> linarith
  refine ⟨hrel1, ?_⟩
  have := hang 1 hrel1
  rwa [one_mul] at this

/-- C6, witness: a ball of radius 8 meeting the left corner of the paddle from outside. -/
theorem bounceAngle_bound_witness :
    0 ≤ (Env.quiet Real.sqrt Real.sin Real.cos Real.pi).pi ∧
    0 < (⟨420, 482, 120, 16, 0⟩ : Paddle ℝ).w ∧
    0 ≤ (⟨415, 480, 100, 300, 8, 420, false, false⟩ : Ball ℝ).r ∧
    circleIntersectsRect (⟨415, 480, 100, 300, 8, 420, false, false⟩ : Ball ℝ).circle
      (⟨420, 482, 120, 16, 0⟩ : Paddle ℝ).rect = true ∧
    |bounceRel (⟨420, 482, 120, 16, 0⟩ : Paddle ℝ) ⟨415, 480, 100, 300, 8, 420, false, false⟩|
      ≤ 1 + 8 / (120 / 2) :=
  have h : circleIntersectsRect (⟨415, 480, 100, 300, 8, 420, false, false⟩ : Ball ℝ).circle
      (⟨420, 482, 120, 16, 0⟩ : Paddle ℝ).rect = true := by
    rw [circleIntersectsRect_iff]
    norm_num [clampDistSq, clamp, Ball.circle, Paddle.rect]
  ⟨Real.pi_pos.le, by norm_num, by norm_num, h,
    (bounceAngle_bound (Env.quiet Real.sqrt Real.sin Real.cos Real.pi)
      Real.pi_pos.le ⟨420, 482, 120, 16, 0⟩ ⟨415, 480, 100, 300, 8, 420, false, false⟩
      (by norm_num) (by norm_num) h).1⟩

/-- C6, counterexample: a ball of radius 8 moving down whose centre is 5 to the left of
the paddle and 2 above it passes the paddle-collision test with `rel = -13/12`, outside
`[-1, 1]`, and an angle beyond `pi / 2.6`. -/
theorem bounceRel_outside_unit :
    circleIntersectsRect (⟨415, 480, 100, 300, 8, 420, false, false⟩ : Ball ℝ).circle
      (⟨420, 482, 120, 16, 0⟩ : Paddle ℝ).rect = true ∧
    0 < (⟨415, 480, 100, 300, 8, 420, false, false⟩ : Ball ℝ).vy ∧
    ¬ |bounceRel (⟨420, 482, 120, 16, 0⟩ : Paddle ℝ) ⟨415, 480, 100, 300, 8, 420, false, false⟩|
      ≤ 1 ∧
    ¬ |bounceAngle (Env.quiet Real.sqrt Real.sin Real.cos Real.pi)
        ⟨420, 482, 120, 16, 0⟩ ⟨415, 480, 100, 300, 8, 420, false, false⟩|
      ≤ Real.pi / (26 / 10) := by
  have hrel : bounceRel (⟨420, 482, 120, 16, 0⟩ : Paddle ℝ)
      ⟨415, 480, 100, 300, 8, 420, false, false⟩ = -(13 / 12) := by
    norm_num [bounceRel]
  refine ⟨?_, by norm_num, ?_, ?_⟩
  · rw [circleIntersectsRect_iff]
    norm_num [clampDistSq, clamp, Ball.circle, Paddle.rect]
  · rw [hrel, abs_neg, abs_of_pos (by norm_num : (0 : ℝ) < 13 / 12)]
    norm_num
  · unfold bounceAngle
    show ¬ |bounceRel (⟨420, 482, 120, 16, 0⟩ : Paddle ℝ)
        ⟨415, 480, 100, 300, 8, 420, false, false⟩ * (Real.pi / (26 / 10))| ≤ Real.pi / (26 / 10)
    rw [hrel, abs_mul, abs_neg, abs_of_pos (by norm_num : (0 : ℝ) < 13 / 12),
      abs_of_pos (div_pos Real.pi_pos (by norm_num))]
    have : 0 < Real.pi / (26 / 10) := div_pos Real.pi_pos (by norm_num)
    intro hc
    linarith

end PaddleBounce

/-! ## The bricks through the step -/

section Bricks

variable {α : Type}

theorem BrickEvolves.brickRefl (b : Brick α) : BrickEvolves b b :=
  ⟨le_refl _, fun _ => rfl, Or.inl rfl⟩

theorem BrickEvolves.brickTrans {a b c : Brick α} (h1 : BrickEvolves a b) (h2 : BrickEvolves b c) :
    BrickEvolves a c := by
  obtain ⟨h1a, h1b, h1c⟩ := h1
  obtain ⟨h2a, h2b, h2c⟩ := h2
  refine ⟨le_trans h2a h1a, fun h => ?_, ?_⟩
  · have hb := h1b h
    subst hb
    exact h2b h
  · rcases h2c with h | h
    · rw [h]
      exact h1c
    · exact Or.inr h

theorem BrickEvolves.step {b b' : Brick α} (h : BrickEvolves b b') : BrickStep b b' := by
  obtain ⟨ha, hb, hc⟩ := h
  refine ⟨ha, fun h => ?_, fun h1 h2 => ?_, fun hi => ?_⟩
  · rw [hb h]
    exact ⟨h, rfl⟩
  · rcases hc with h | h
    · rw [h]
      constructor
      · intro h3
        rw [h1] at h3
        exact absurd h3 (by simp)
      · intro h3
        omega
    · constructor
      · intro h3
        by_contra h4
        have := h.mpr (by omega)
        rw [h3] at this
        exact absurd this (by simp)
      · intro h3
        by_contra h4
        have h5 : b'.alive = true := by simpa using h4
        have := h.mp h5
        omega
  · rcases hc with h | h
    · rw [h]
      exact hi
    · exact h

theorem forall₂_evolves_refl (l : List (Brick α)) : List.Forall₂ BrickEvolves l l := by
  induction l with
  | nil => exact List.Forall₂.nil
  | cons x xs ih => exact List.Forall₂.cons (BrickEvolves.brickRefl x) ih

theorem forall₂_evolves_trans {l1 l2 l3 : List (Brick α)}
    (h1 : List.Forall₂ BrickEvolves l1 l2) (h2 : List.Forall₂ BrickEvolves l2 l3) :
    List.Forall₂ BrickEvolves l1 l3 := by
  induction h1 generalizing l3 with
  | nil =>
    cases h2
    exact List.Forall₂.nil
  | cons hab _ ih =>
    cases h2 with
    | cons hbc htl => exact List.Forall₂.cons (hab.brickTrans hbc) (ih htl)

theorem forall₂_evolves_set (l : List (Brick α)) (i : Nat) (b b' : Brick α)
    (hi : l[i]? = some b) (h : BrickEvolves b b') :
    List.Forall₂ BrickEvolves l (l.set i b') := by
  induction l generalizing i with
  | nil => simp at hi
  | cons x xs ih =>
    cases i with
    | zero =>
      simp at hi
      subst hi
      exact List.Forall₂.cons h (forall₂_evolves_refl xs)
    | succ n =>
      simp at hi
      exact List.Forall₂.cons (BrickEvolves.brickRefl x) (ih n hi)

theorem aliveCount_set (l : List (Brick α)) (i : Nat) (b b' : Brick α) (hi : l[i]? = some b) :
    (aliveCount (l.set i b') : Int) + (if b.alive then 1 else 0)
      = (aliveCount l : Int) + (if b'.alive then 1 else 0) := by
  induction l generalizing i with
  | nil => simp at hi
  | cons x xs ih =>
    cases i with
    | zero =>
      simp at hi
      subst hi
      simp only [aliveCount, List.set_cons_zero, List.countP_cons]
      push_cast
      split_ifs <;> simp_all
    | succ n =>
      simp at hi
      have := ih n hi
      simp only [aliveCount, List.set_cons_succ, List.countP_cons] at this ⊢
      push_cast
      linarith

theorem firstIdx_some {β : Type} (p : β → Bool) (l : List β) (i : Nat)
    (h : firstIdx p l = some i) : ∃ x, l[i]? = some x ∧ p x = true := by
  induction l generalizing i with
  | nil => simp [firstIdx] at h
  | cons x xs ih =>
    unfold firstIdx at h
    split_ifs at h with hp
    · simp at h
      subst h
      exact ⟨x, by simp, hp⟩
    · simp only [Option.map_eq_some'] at h
      obtain ⟨j, hj, rfl⟩ := h
      obtain ⟨y, hy, hpy⟩ := ih j hj
      exact ⟨y, by simpa using hy, hpy⟩

theorem Evolves.refl (s : State α) : Evolves s s :=
  ⟨rfl, forall₂_evolves_refl _, rfl⟩

theorem Evolves.trans {a b c : State α} (h1 : Evolves a b) (h2 : Evolves b c) : Evolves a c :=
  ⟨h2.core.trans h1.core, forall₂_evolves_trans h1.bricks h2.bricks, h2.score.trans h1.score⟩

theorem Evolves.of_eq {s s' : State α} (hc : s'.core = s.core) (hb : s'.bricks = s.bricks)
    (hs : s'.score = s.score) : Evolves s s' := by
  refine ⟨hc, ?_, ?_⟩
  · rw [hb]
    exact forall₂_evolves_refl _
  · rw [hb, hs]

end Bricks

section Damage

variable {α : Type} [LinearOrderedField α] [FloorRing α]

theorem maybeSpawnPowerupFromBrick_frame (E : Env α) (s : State α) (b : Brick α) :
    (maybeSpawnPowerupFromBrick E s b).core = s.core ∧
    (maybeSpawnPowerupFromBrick E s b).bricks = s.bricks ∧
    (maybeSpawnPowerupFromBrick E s b).score = s.score ∧
    (maybeSpawnPowerupFromBrick E s b).paddle = s.paddle ∧
    (maybeSpawnPowerupFromBrick E s b).balls = s.balls ∧
    (maybeSpawnPowerupFromBrick E s b).bullets = s.bullets := by
  unfold maybeSpawnPowerupFromBrick spawnPowerup State.core
  simp only []
  split_ifs <;> simp

theorem damageBrick_frame (E : Env α) (s : State α) (i : Nat) :
    (damageBrick E s i).paddle = s.paddle ∧ (damageBrick E s i).balls = s.balls ∧
    (damageBrick E s i).bullets = s.bullets := by
  unfold damageBrick
  split
  · simp
  · simp only []
    split_ifs
    · simp
    · have := maybeSpawnPowerupFromBrick_frame E
      simp [this]
    · simp

theorem damageBrick_evolves (E : Env α) (s : State α) (i : Nat)
    (h : ∀ br, s.bricks[i]? = some br → br.alive = true) : Evolves s (damageBrick E s i) := by
  unfold damageBrick
  split
  · exact Evolves.refl s
  · rename_i br hbr
    have hal := h br hbr
    simp only []
    split_ifs with hk hhp
    · exact Evolves.refl s
    · have hf := maybeSpawnPowerupFromBrick_frame E
      refine ⟨?_, ?_, ?_⟩
      · simp [State.core, hf]
        have := (hf { s with bricks := s.bricks.set i { br with hp := br.hp - 1, alive := false } }
          { br with hp := br.hp - 1, alive := false }).1
        simpa [State.core] using this
      · simp only [hf]
        refine forall₂_evolves_set _ _ br _ hbr ⟨?_, ?_, ?_⟩
        · simp
        · intro h0
          rw [hal] at h0
          exact absurd h0 (by simp)
        · right
          have h1 : br.hp - 1 ≤ 0 := hhp
          simp
          omega
      · simp only [hf]
        have := aliveCount_set s.bricks i br { br with hp := br.hp - 1, alive := false } hbr
        simp [hal] at this
        linarith
    · refine ⟨rfl, ?_, ?_⟩
      · refine forall₂_evolves_set _ _ br _ hbr ⟨?_, ?_, ?_⟩
        · simp
        · intro h0
          rw [hal] at h0
          exact absurd h0 (by simp)
        · right
          have h1 : ¬ br.hp - 1 ≤ 0 := hhp
          simp [hal]
          omega
      · have := aliveCount_set s.bricks i br { br with hp := br.hp - 1 } hbr
        have h1 : ({ br with hp := br.hp - 1 } : Brick α).alive = br.alive := rfl
        rw [h1] at this
        have h2 := add_right_cancel this
        simp only []
        rw [h2]

end Damage

/-! ## The collision phases keep the core and the paddle, and evolve the bricks -/

section Phases

variable {α : Type} [LinearOrderedField α] [FloorRing α]

theorem brickCollide_evolves (E : Env α) (s : State α) (b : Ball α) :
    Evolves s (brickCollide E s b).1 ∧ (brickCollide E s b).1.paddle = s.paddle ∧
    (brickCollide E s b).1.balls = s.balls ∧ (brickCollide E s b).1.bullets = s.bullets := by
  unfold brickCollide
  split
  · exact ⟨Evolves.refl s, rfl, rfl, rfl⟩
  · rename_i i hi
    obtain ⟨x, hx, hp⟩ := firstIdx_some _ _ _ hi
    rw [hx]
    simp only []
    refine ⟨damageBrick_evolves E s i ?_, damageBrick_frame E s i⟩
    intro br hbr
    rw [hx] at hbr
    cases hbr
    simp only [Bool.and_eq_true] at hp
    exact hp.1

theorem stepBall_evolves (E : Env α) (dt : α) (s : State α) (b : Ball α) :
    Evolves s (stepBall E dt s b).1 ∧ (stepBall E dt s b).1.paddle = s.paddle ∧
    (stepBall E dt s b).1.balls = s.balls ∧ (stepBall E dt s b).1.bullets = s.bullets := by
  unfold stepBall
  split_ifs
  · exact ⟨Evolves.refl s, rfl, rfl, rfl⟩
  · exact brickCollide_evolves E s _

theorem ballLoop_evolves (E : Env α) (dt : α) (bs : List (Ball α)) (s : State α) :
    Evolves s (ballLoop E dt bs s).1 ∧ (ballLoop E dt bs s).1.paddle = s.paddle ∧
    (ballLoop E dt bs s).1.bullets = s.bullets := by
  induction bs generalizing s with
  | nil => exact ⟨Evolves.refl s, rfl, rfl⟩
  | cons b bs ih =>
    unfold ballLoop
    simp only []
    obtain ⟨h1, h2, _, h3⟩ := stepBall_evolves E dt s b
    obtain ⟨h4, h5, h6⟩ := ih (stepBall E dt s b).1
    exact ⟨h1.trans h4, h5.trans h2, h6.trans h3⟩

theorem ballPhase_evolves (E : Env α) (dt : α) (s : State α) :
    Evolves s (ballPhase E dt s) ∧ (ballPhase E dt s).paddle = s.paddle := by
  unfold ballPhase
  simp only []
  obtain ⟨h1, h2, _⟩ := ballLoop_evolves E dt s.balls
    { s with bullets := ((s.bullets.map (fun b => { b with y := b.y + b.vy * dt * s.speedMul })).filter
        (fun b => decide (b.y > -20))) }
  exact ⟨⟨h1.core, h1.bricks, h1.score⟩, h2⟩

omit [LinearOrderedField α] [FloorRing α] in
theorem purgeDead_evolves (s : State α) :
    Evolves s (purgeDead s) ∧ (purgeDead s).paddle = s.paddle :=
  ⟨Evolves.of_eq rfl rfl rfl, rfl⟩

theorem bulletLoop_evolves (E : Env α) (bs : List (Bullet α)) (s : State α) :
    Evolves s (bulletLoop E bs s).1 ∧ (bulletLoop E bs s).1.paddle = s.paddle ∧
    (bulletLoop E bs s).1.balls = s.balls := by
  induction bs generalizing s with
  | nil => exact ⟨Evolves.refl s, rfl, rfl⟩
  | cons b bs ih =>
    unfold bulletLoop
    simp only []
    obtain ⟨h1, h2, h3⟩ := ih s
    split
    · exact ⟨h1, h2, h3⟩
    · rename_i i hi
      obtain ⟨x, hx, hp⟩ := firstIdx_some _ _ _ hi
      obtain ⟨h4, h5, _⟩ := damageBrick_frame E (bulletLoop E bs s).1 i
      refine ⟨h1.trans (damageBrick_evolves E _ i ?_), h4.trans h2, h5.trans h3⟩
      intro br hbr
      rw [hx] at hbr
      cases hbr
      simp only [Bool.and_eq_true] at hp
      exact hp.1

theorem bulletPhase_evolves (E : Env α) (s : State α) :
    Evolves s (bulletPhase E s) ∧ (bulletPhase E s).paddle = s.paddle ∧
    (bulletPhase E s).balls = s.balls := by
  unfold bulletPhase
  simp only []
  obtain ⟨h1, h2, h3⟩ := bulletLoop_evolves E s.bullets s
  exact ⟨⟨h1.core, h1.bricks, h1.score⟩, h2, h3⟩

end Phases

/-! ## The first part of the step: timers, paddle, keys, power-ups -/

section Head

variable {α : Type} [LinearOrderedField α] [FloorRing α]

omit [FloorRing α] in
theorem paddleClamped_clamp (p : Paddle α) (v : α) :
    PaddleClamped { p with x := clamp v 0 (canvasWidth - p.w) } := by
  intro h
  have h1 : (0 : α) ≤ canvasWidth - p.w := sub_nonneg.mpr h
  exact ⟨clamp_ge _ _ _, clamp_le _ _ _ h1⟩

omit [FloorRing α] in
theorem cloneLoop_isSome (E : Env α) (existing : List (Ball α)) (h : existing ≠ [])
    (n i k : Nat) : (cloneLoop E existing n i k).isSome = true := by
  induction n generalizing i k with
  | zero => simp [cloneLoop]
  | succ n ih =>
    unfold cloneLoop
    have hlen : 0 < existing.length := List.length_pos.mpr h
    have hlt : i % existing.length < existing.length := Nat.mod_lt _ hlen
    rw [List.getElem?_eq_getElem hlt]
    simp only [Option.isSome_map']
    exact ih _ _

omit [FloorRing α] in
theorem multiBallSpawn_spec (E : Env α) (s s' : State α) (n : Nat)
    (h : multiBallSpawn E s n = some s') :
    s'.core = s.core ∧ s'.bricks = s.bricks ∧ s'.score = s.score ∧ s'.paddle = s.paddle ∧
    (s.balls ≠ [] → s'.balls ≠ []) := by
  unfold multiBallSpawn at h
  simp only [Option.map_eq_some'] at h
  obtain ⟨r, _, rfl⟩ := h
  refine ⟨rfl, rfl, rfl, rfl, fun hb => ?_⟩
  simp [hb]

omit [FloorRing α] in
theorem applyPowerup_spec (E : Env α) (s s' : State α) (t : String)
    (h : applyPowerup E s t = some s') :
    s'.core = s.core ∧ s'.bricks = s.bricks ∧ s'.score = s.score ∧ PaddleClamped s'.paddle ∧
    (s.balls ≠ [] → s'.balls ≠ []) := by
  unfold applyPowerup at h
  simp only [Option.map_eq_some'] at h
  obtain ⟨r, hr, rfl⟩ := h
  refine ⟨?_, ?_, ?_, paddleClamped_clamp _ _, ?_⟩
  all_goals
    split_ifs at hr
    · obtain ⟨h1, h2, h3, h4, h5⟩ := multiBallSpawn_spec E s r _ hr
      first | exact h1 | exact h2 | exact h3 | exact h5
    all_goals
      cases hr
      first | rfl | exact id

omit [FloorRing α] in
theorem applyPowerup_isSome (E : Env α) (s : State α) (t : String) (h : s.balls ≠ []) :
    (applyPowerup E s t).isSome = true := by
  unfold applyPowerup multiBallSpawn
  simp only [Option.isSome_map']
  split_ifs
  · simp only [Option.isSome_map']
    exact cloneLoop_isSome E s.balls h _ _ _
  all_goals rfl

omit [FloorRing α] in
theorem powerupLoop_spec (E : Env α) (ps : List (Powerup α)) (s s' : State α)
    (kept : List (Powerup α)) (h : powerupLoop E ps s = some (s', kept)) :
    s'.core = s.core ∧ s'.bricks = s.bricks ∧ s'.score = s.score ∧
    (PaddleClamped s.paddle → PaddleClamped s'.paddle) ∧ (s.balls ≠ [] → s'.balls ≠ []) := by
  induction ps generalizing s' kept with
  | nil =>
    simp only [powerupLoop, Option.some.injEq, Prod.mk.injEq] at h
    obtain ⟨rfl, _⟩ := h
    exact ⟨rfl, rfl, rfl, id, id⟩
  | cons p ps ih =>
    unfold powerupLoop at h
    split at h
    · cases h
    · rename_i s1 kept1 h1
      obtain ⟨a1, a2, a3, a4, a5⟩ := ih s1 kept1 h1
      split_ifs at h
      · simp only [Option.some.injEq, Prod.mk.injEq] at h
        obtain ⟨rfl, _⟩ := h
        exact ⟨a1, a2, a3, a4, a5⟩
      · simp only [Option.map_eq_some', Prod.mk.injEq] at h
        obtain ⟨s2, h2, rfl, _⟩ := h
        obtain ⟨b1, b2, b3, b4, b5⟩ := applyPowerup_spec E s1 s2 _ h2
        exact ⟨b1.trans a1, b2.trans a2, b3.trans a3, fun _ => b4, fun hb => b5 (a5 hb)⟩
      · simp only [Option.some.injEq, Prod.mk.injEq] at h
        obtain ⟨rfl, _⟩ := h
        exact ⟨a1, a2, a3, a4, a5⟩

omit [FloorRing α] in
theorem powerupLoop_isSome (E : Env α) (ps : List (Powerup α)) (s : State α) (h : s.balls ≠ []) :
    (powerupLoop E ps s).isSome = true := by
  induction ps with
  | nil => simp [powerupLoop]
  | cons p ps ih =>
    unfold powerupLoop
    obtain ⟨r, hr⟩ := Option.isSome_iff_exists.mp ih
    obtain ⟨s1, kept⟩ := r
    rw [hr]
    simp only []
    split_ifs
    · rfl
    · simp only [Option.isSome_map']
      exact applyPowerup_isSome E s1 _ ((powerupLoop_spec E ps s s1 kept hr).2.2.2.2 h)
    · rfl

omit [FloorRing α] in
theorem tryShootLaser_frame (E : Env α) (s : State α) :
    (tryShootLaser E s).core = s.core ∧ (tryShootLaser E s).bricks = s.bricks ∧
    (tryShootLaser E s).score = s.score ∧ (tryShootLaser E s).paddle = s.paddle ∧
    (tryShootLaser E s).balls = s.balls := by
  unfold tryShootLaser
  simp only []
  split_ifs <;> exact ⟨rfl, rfl, rfl, rfl, rfl⟩

omit [FloorRing α] in
/-- The state before the power-ups are collected. -/
theorem preCollect_spec (E : Env α) (dt now : α) (s : State α) :
    (fallPowerups dt (launchKey (fireKey E (movePaddle dt (expireTimers now s))))).core = s.core ∧
    (fallPowerups dt (launchKey (fireKey E (movePaddle dt (expireTimers now s))))).bricks = s.bricks ∧
    (fallPowerups dt (launchKey (fireKey E (movePaddle dt (expireTimers now s))))).score = s.score ∧
    PaddleClamped (fallPowerups dt (launchKey (fireKey E (movePaddle dt (expireTimers now s))))).paddle ∧
    (s.balls ≠ [] →
      (fallPowerups dt (launchKey (fireKey E (movePaddle dt (expireTimers now s))))).balls ≠ []) := by
  have e1 : (expireTimers now s).core = s.core ∧ (expireTimers now s).bricks = s.bricks ∧
      (expireTimers now s).score = s.score ∧ (expireTimers now s).balls = s.balls := by
    unfold expireTimers
    simp only []
    split_ifs <;> exact ⟨rfl, rfl, rfl, rfl⟩
  generalize expireTimers now s = s1 at e1 ⊢
  have e2 : (movePaddle dt s1).core = s1.core ∧ (movePaddle dt s1).bricks = s1.bricks ∧
      (movePaddle dt s1).score = s1.score ∧ (movePaddle dt s1).balls = s1.balls ∧
      PaddleClamped (movePaddle dt s1).paddle :=
    ⟨rfl, rfl, rfl, rfl, paddleClamped_clamp _ _⟩
  generalize movePaddle dt s1 = s2 at e2 ⊢
  have e3 : (fireKey E s2).core = s2.core ∧ (fireKey E s2).bricks = s2.bricks ∧
      (fireKey E s2).score = s2.score ∧ (fireKey E s2).balls = s2.balls ∧
      (fireKey E s2).paddle = s2.paddle := by
    unfold fireKey
    obtain ⟨h1, h2, h3, h4, h5⟩ := tryShootLaser_frame E s2
    split_ifs
    · exact ⟨h1, h2, h3, h5, h4⟩
    · exact ⟨rfl, rfl, rfl, rfl, rfl⟩
  generalize fireKey E s2 = s3 at e3 ⊢
  have e4 : (launchKey s3).core = s3.core ∧ (launchKey s3).bricks = s3.bricks ∧
      (launchKey s3).score = s3.score ∧ (s3.balls ≠ [] → (launchKey s3).balls ≠ []) ∧
      (launchKey s3).paddle = s3.paddle := by
    unfold launchKey
    split_ifs
    · refine ⟨rfl, rfl, rfl, fun h => ?_, rfl⟩
      simpa using h
    · exact ⟨rfl, rfl, rfl, id, rfl⟩
  generalize launchKey s3 = s4 at e4 ⊢
  obtain ⟨a1, a2, a3, a4⟩ := e1
  obtain ⟨b1, b2, b3, b4, b5⟩ := e2
  obtain ⟨c1, c2, c3, c4, c5⟩ := e3
  obtain ⟨d1, d2, d3, d4, d5⟩ := e4
  refine ⟨?_, ?_, ?_, ?_, fun h => ?_⟩
  · exact (d1.trans (c1.trans (b1.trans a1)))
  · exact (d2.trans (c2.trans (b2.trans a2)))
  · exact (d3.trans (c3.trans (b3.trans a3)))
  · show PaddleClamped s4.paddle
    rw [d5, c5]
    exact b5
  · show s4.balls ≠ []
    apply d4
    rw [c4, b4, a4]
    exact h

omit [FloorRing α] in
theorem updateHead_spec (E : Env α) (dt : α) (s s' : State α) (h : updateHead E dt s = some s') :
    s'.core = s.core ∧ s'.bricks = s.bricks ∧ s'.score = s.score ∧ PaddleClamped s'.paddle ∧
    (s.balls ≠ [] → s'.balls ≠ []) := by
  unfold updateHead collectPowerups at h
  simp only [Option.map_eq_some'] at h
  obtain ⟨r, hr, rfl⟩ := h
  obtain ⟨s1, kept⟩ := r
  obtain ⟨a1, a2, a3, a4, a5⟩ := preCollect_spec E dt (E.clock s.clk) { s with clk := s.clk + 1 }
  obtain ⟨b1, b2, b3, b4, b5⟩ := powerupLoop_spec E _ _ s1 kept hr
  exact ⟨b1.trans a1, b2.trans a2, b3.trans a3, b4 a4, fun hb => b5 (a5 hb)⟩

omit [FloorRing α] in
theorem updateHead_isSome (E : Env α) (dt : α) (s : State α) (h : s.balls ≠ []) :
    (updateHead E dt s).isSome = true := by
  unfold updateHead collectPowerups
  simp only [Option.isSome_map']
  obtain ⟨_, _, _, _, a5⟩ := preCollect_spec E dt (E.clock s.clk) { s with clk := s.clk + 1 }
  exact powerupLoop_isSome E _ _ (a5 h)

end Head

/-! ## The last part of the step: life loss, bullets, level clear -/

section Tail

variable {α : Type} [LinearOrderedField α] [FloorRing α]

theorem resetPaddleAndBalls_spec (s : State α) :
    (resetPaddleAndBalls s).core = s.core ∧ (resetPaddleAndBalls s).bricks = s.bricks ∧
    (resetPaddleAndBalls s).score = s.score ∧ PaddleClamped (resetPaddleAndBalls s).paddle ∧
    ∃ b, (resetPaddleAndBalls s).balls = [b] ∧ b.stuck = true ∧ b.dead = false ∧
      b.x = (resetPaddleAndBalls s).paddle.x + (resetPaddleAndBalls s).paddle.w / 2 ∧
      b.y = (resetPaddleAndBalls s).paddle.y - b.r - 1 := by
  refine ⟨rfl, rfl, rfl, ?_, _, rfl, rfl, rfl, rfl, rfl⟩
  intro h
  simp only [resetPaddleAndBalls] at h ⊢
  constructor <;> linarith

/-- The paddle and the ball that `resetPaddleAndBalls` leaves depend on the portrait flag
and on `CONFIG.PADDLE.w` alone, the paddle velocity apart. -/
theorem resetPaddleAndBalls_congr (s t : State α) (h1 : t.portraitMode = s.portraitMode)
    (h2 : t.cfgPaddleW = s.cfgPaddleW) :
    (resetPaddleAndBalls t).balls = (resetPaddleAndBalls s).balls ∧
    (resetPaddleAndBalls t).paddle.x = (resetPaddleAndBalls s).paddle.x ∧
    (resetPaddleAndBalls t).paddle.y = (resetPaddleAndBalls s).paddle.y ∧
    (resetPaddleAndBalls t).paddle.w = (resetPaddleAndBalls s).paddle.w ∧
    (resetPaddleAndBalls t).paddle.h = (resetPaddleAndBalls s).paddle.h := by
  simp [resetPaddleAndBalls, h1, h2]

omit [FloorRing α] in
theorem buildBricksFromGrid_congr (s t : State α) (h1 : t.levels = s.levels)
    (h2 : t.levelIndex = s.levelIndex) :
    (buildBricksFromGrid t).bricks = (buildBricksFromGrid s).bricks := by
  unfold buildBricksFromGrid
  rw [h1, h2]
  split <;> rfl

omit [FloorRing α] in
theorem buildBricksFromGrid_frame (s : State α) :
    (buildBricksFromGrid s).core = s.core ∧ (buildBricksFromGrid s).score = s.score := by
  unfold buildBricksFromGrid
  split <;> exact ⟨rfl, rfl⟩

theorem brickOfChar_hp_pos (ch : Char) : 1 ≤ (brickOfChar ch).1 := by
  unfold brickOfChar
  split_ifs with h1 h2
  · have : '1'.toNat ≤ ch.toNat := h1.1
    have h49 : '1'.toNat = 49 := rfl
    simp only []
    omega
  · simp
  · simp

omit [FloorRing α] in
/-- Every brick that `buildBricksFromGrid` makes is on, with at least one hit-point. -/
theorem buildBricksFromGrid_alive (s : State α) :
    ∀ b ∈ (buildBricksFromGrid s).bricks, b.alive = true ∧ 1 ≤ b.hp := by
  intro b hb
  unfold buildBricksFromGrid at hb
  split at hb
  · simp at hb
  · simp only [List.mem_flatten, List.mem_map, List.mem_range] at hb
    obtain ⟨l, ⟨r, _, hl⟩, hbl⟩ := hb
    subst hl
    simp only [List.mem_filterMap, List.mem_range] at hbl
    obtain ⟨c, _, hc⟩ := hbl
    split_ifs at hc
    simp only [Option.some.injEq] at hc
    subst hc
    exact ⟨rfl, brickOfChar_hp_pos _⟩

theorem startLevel_spec (s : State α) (idx : Int) :
    (startLevel s idx true).score = s.score ∧ (startLevel s idx true).lives = s.lives ∧
    (startLevel s idx true).levels = s.levels ∧
    (startLevel s idx true).levelIndex = (clamp idx 0 ((s.levels.length : Int) - 1)).toNat ∧
    PaddleClamped (startLevel s idx true).paddle ∧
    (startLevel s idx true).bricks =
      (buildBricksFromGrid
        { s with levelIndex := (clamp idx 0 ((s.levels.length : Int) - 1)).toNat }).bricks ∧
    (startLevel s idx true).balls = (resetPaddleAndBalls s).balls ∧
    (startLevel s idx true).paddle.x = (resetPaddleAndBalls s).paddle.x ∧
    (startLevel s idx true).paddle.y = (resetPaddleAndBalls s).paddle.y ∧
    (startLevel s idx true).paddle.w = (resetPaddleAndBalls s).paddle.w ∧
    (startLevel s idx true).paddle.h = (resetPaddleAndBalls s).paddle.h := by
  unfold startLevel
  simp only [Bool.not_true, Bool.false_eq_true, if_false]
  generalize hs1 : ({ s with levelIndex := (clamp idx 0 ((s.levels.length : Int) - 1)).toNat } :
    State α) = s1
  obtain ⟨a1, a2⟩ := buildBricksFromGrid_frame s1
  obtain ⟨b1, b2, b3, b4, _⟩ := resetPaddleAndBalls_spec (buildBricksFromGrid s1)
  have hcore := b1.trans a1
  have hc2 : (buildBricksFromGrid s1).core = (s.core.1, s1.levelIndex, s.core.2.2) := by
    rw [a1, ← hs1]
    rfl
  simp only [State.core, Prod.mk.injEq] at hcore hc2
  refine ⟨?_, ?_, ?_, ?_, b4, b2, ?_⟩
  · rw [b3, a2, ← hs1]
  · rw [hcore.1, ← hs1]
  · rw [hcore.2.2.1, ← hs1]
  · rw [hcore.2.1, ← hs1]
  · simp [resetPaddleAndBalls, hc2.2.2.2.1, hc2.2.2.2.2.1]

theorem clamp_index (n len : Nat) (h : n ≤ len - 1) :
    (clamp (n : Int) 0 ((len : Int) - 1)).toNat = n := by
  unfold clamp
  rcases Nat.eq_zero_or_pos len with h0 | h0
  · subst h0
    have : n = 0 := by omega
    subst this
    simp
  · have h1 : (n : Int) ≤ (len : Int) - 1 := by omega
    rw [min_eq_right h1, max_eq_right (by omega)]
    simp

end Tail

/-! ## The step as a whole -/

section Step

variable {α : Type} [LinearOrderedField α] [FloorRing α]

theorem afterPurge_spec (E : Env α) (dt : α) (s p : State α) (h : afterPurge E dt s = some p) :
    Evolves s p ∧ PaddleClamped p.paddle := by
  unfold afterPurge at h
  simp only [Option.map_eq_some'] at h
  obtain ⟨s1, h1, rfl⟩ := h
  obtain ⟨a1, a2, a3, a4, _⟩ := updateHead_spec E dt s s1 h1
  obtain ⟨b1, b2⟩ := ballPhase_evolves E dt s1
  obtain ⟨c1, c2⟩ := purgeDead_evolves (ballPhase E dt s1)
  refine ⟨(Evolves.of_eq a1 a2 a3).trans (b1.trans c1), ?_⟩
  rw [c2, b2]
  exact a4

theorem afterPurge_isSome (E : Env α) (dt : α) (s : State α) (h : s.balls ≠ []) :
    (afterPurge E dt s).isSome = true := by
  unfold afterPurge
  simp only [Option.isSome_map']
  exact updateHead_isSome E dt s h

theorem loseLife_paddle (p : State α) : PaddleClamped (loseLife p).paddle := by
  unfold loseLife
  simp only []
  split_ifs
  · exact (startLevel_spec _ _).2.2.2.2.1
  · exact (resetPaddleAndBalls_spec _).2.2.2.1

theorem nextLevel_paddle (p : State α) : PaddleClamped (nextLevel p).paddle := by
  unfold nextLevel
  split_ifs
  · exact (startLevel_spec _ _).2.2.2.2.1
  · exact (startLevel_spec _ _).2.2.2.2.1

theorem updateTail_paddle (E : Env α) (p : State α) (h : PaddleClamped p.paddle) :
    PaddleClamped (updateTail E p).paddle := by
  unfold updateTail
  split_ifs
  · exact loseLife_paddle p
  · unfold levelClear
    split_ifs
    · exact nextLevel_paddle _
    · rw [(bulletPhase_evolves E p).2.1]
      exact h

/-- C4, amended.  After `applyPowerup` (every power-up type, every starting state) and
after every `update` step, whenever the resulting paddle is not wider than the playfield,
`0 ≤ paddle.x` and `paddle.x ≤ playfieldWidth - paddle.w`, the playfield width being 960;
and neither of the two throws when the state holds a ball. -/
theorem paddle_clamped (E : Env α) (dt : α) (s : State α) (t : String) :
    (canvasWidth : α) = 960 ∧
    (∀ s', applyPowerup E s t = some s' → s'.paddle.w ≤ canvasWidth →
      0 ≤ s'.paddle.x ∧ s'.paddle.x ≤ canvasWidth - s'.paddle.w) ∧
    (∀ s', update E dt s = some s' → s'.paddle.w ≤ canvasWidth →
      0 ≤ s'.paddle.x ∧ s'.paddle.x ≤ canvasWidth - s'.paddle.w) ∧
    (s.balls ≠ [] → (applyPowerup E s t).isSome = true ∧ (update E dt s).isSome = true) := by
  refine ⟨?_, fun s' h => (applyPowerup_spec E s s' t h).2.2.2.1, fun s' h => ?_, fun h => ?_⟩
  · simp [canvasWidth, CONFIG.BASE_WIDTH]
  · unfold update at h
    simp only [Option.map_eq_some'] at h
    obtain ⟨p, hp, rfl⟩ := h
    exact updateTail_paddle E p (afterPurge_spec E dt s p hp).2
  · refine ⟨applyPowerup_isSome E s t h, ?_⟩
    unfold update
    simp only [Option.isSome_map']
    exact afterPurge_isSome E dt s h

omit [LinearOrderedField α] [FloorRing α] in
theorem forall₂_step_of_evolves {l l' : List (Brick α)} (h : List.Forall₂ BrickEvolves l l') :
    List.Forall₂ BrickStep l l' := by
  induction h with
  | nil => exact List.Forall₂.nil
  | cons hab _ ih => exact List.Forall₂.cons hab.step ih

omit [LinearOrderedField α] [FloorRing α] in
theorem destroyed_of_evolves {l l' : List (Brick α)} (h : List.Forall₂ BrickEvolves l l') :
    (aliveCount l' : Int) + (destroyed l l' : Int) = (aliveCount l : Int) := by
  induction h with
  | nil => simp [aliveCount, destroyed]
  | @cons b b' l l' hab _ ih =>
    simp only [aliveCount, destroyed, List.zip_cons_cons, List.countP_cons] at ih ⊢
    obtain ⟨_, h2, _⟩ := hab
    push_cast
    cases hb : b.alive
    · rw [h2 hb, hb]
      simp
      linarith
    · cases hb' : b'.alive
      · simp
        linarith
      · simp
        linarith

/-- The state `c` when the collision phases are over, and the result of the step. -/
theorem collided_spec (E : Env α) (dt : α) (s : State α) (br : Branch)
    (h : branch E dt s = some br) :
    ∃ p c s', afterPurge E dt s = some p ∧ collided E dt s = some c ∧ update E dt s = some s' ∧
      Evolves s p ∧ Evolves p c ∧
      (br = Branch.gameOver → p.balls = [] ∧ p.lives - 1 ≤ 0 ∧ c = p ∧ s' = loseLife p) ∧
      (br = Branch.lifeLost → p.balls = [] ∧ ¬ p.lives - 1 ≤ 0 ∧ c = p ∧
        s' = resetPaddleAndBalls { p with lives := p.lives - 1 }) ∧
      (br = Branch.levelAdvance → p.balls ≠ [] ∧ c = bulletPhase E p ∧ s' = nextLevel c) ∧
      (br = Branch.play → p.balls ≠ [] ∧ c = bulletPhase E p ∧ s' = c) := by
  unfold branch collided at h
  simp only [Option.map_map, Option.map_eq_some', Function.comp] at h
  obtain ⟨p, hp, hbr⟩ := h
  have hev := (afterPurge_spec E dt s p hp).1
  refine ⟨p, if p.balls.length = 0 then p else bulletPhase E p, updateTail E p, hp, ?_, ?_, hev,
    ?_⟩
  · unfold collided
    rw [hp]
    rfl
  · unfold update
    rw [hp]
    rfl
  · by_cases hlen : p.balls.length = 0
    · have hnil : p.balls = [] := List.length_eq_zero.mp hlen
      simp only [hlen, if_true] at hbr ⊢
      refine ⟨Evolves.refl p, ?_⟩
      by_cases hl : p.lives - 1 ≤ 0
      · rw [if_pos hl] at hbr
        subst hbr
        refine ⟨fun _ => ⟨hnil, hl, trivial, ?_⟩, fun hx => ?_, fun hx => ?_, fun hx => ?_⟩
        · unfold updateTail
          rw [if_pos hlen]
        all_goals cases hx
      · rw [if_neg hl] at hbr
        subst hbr
        refine ⟨fun hx => ?_, fun _ => ⟨hnil, hl, trivial, ?_⟩, fun hx => ?_, fun hx => ?_⟩
        · cases hx
        · unfold updateTail loseLife
          rw [if_pos hlen]
          simp only []
          rw [if_neg hl]
        all_goals cases hx
    · have hnil : p.balls ≠ [] := fun h0 => hlen (List.length_eq_zero.mpr h0)
      have hlen2 : ¬ (bulletPhase E p).balls.length = 0 := by
        rw [(bulletPhase_evolves E p).2.2]
        exact hlen
      simp only [hlen, hlen2, if_false] at hbr ⊢
      refine ⟨(bulletPhase_evolves E p).1, ?_⟩
      by_cases hall : ((bulletPhase E p).bricks.all fun b => !b.alive) = true
      · rw [if_pos hall] at hbr
        subst hbr
        refine ⟨fun hx => ?_, fun hx => ?_, fun _ => ⟨hnil, trivial, ?_⟩, fun hx => ?_⟩
        · cases hx
        · cases hx
        · unfold updateTail levelClear
          rw [if_neg hlen, if_pos hall]
        · cases hx
      · rw [if_neg hall] at hbr
        subst hbr
        refine ⟨fun hx => ?_, fun hx => ?_, fun hx => ?_, fun _ => ⟨hnil, trivial, ?_⟩⟩
        · cases hx
        · cases hx
        · cases hx
        · unfold updateTail levelClear
          rw [if_neg hlen, if_neg hall]

end Step

section Claims

variable {α : Type} [LinearOrderedField α] [FloorRing α]

omit [LinearOrderedField α] [FloorRing α] in
theorem core_fields {s p : State α} (h : p.core = s.core) :
    p.lives = s.lives ∧ p.levelIndex = s.levelIndex ∧ p.levels = s.levels := by
  simp only [State.core, Prod.mk.injEq] at h
  exact ⟨h.1, h.2.1, h.2.2.1⟩

/-- C7.  In an `update` step that ends without rebuilding the brick list (no game-over
restart, no level advance) the brick list keeps its length and every brick obeys
`BrickStep`: its hit-points do not grow, a brick that was off stays off with the same
hit-points, a brick that was on with positive hit-points is off after the step exactly when
its hit-points are then `≤ 0`, and "on iff hit-points `≥ 1`" is kept; and every brick made
by `buildBricksFromGrid` is on with hit-points `≥ 1`. -/
theorem bricks_step (E : Env α) (dt : α) (s : State α)
    (h : branch E dt s = some Branch.play ∨ branch E dt s = some Branch.lifeLost) :
    (∃ s', update E dt s = some s' ∧ List.Forall₂ BrickStep s.bricks s'.bricks) ∧
    (∀ b ∈ (buildBricksFromGrid s).bricks, b.alive = true ∧ 1 ≤ b.hp) := by
  refine ⟨?_, buildBricksFromGrid_alive s⟩
  rcases h with h | h
  · obtain ⟨p, c, s', _, _, hu, h1, h2, _, _, _, h6⟩ := collided_spec E dt s _ h
    obtain ⟨_, _, rfl⟩ := h6 rfl
    exact ⟨s', hu, forall₂_step_of_evolves (h1.trans h2).bricks⟩
  · obtain ⟨p, c, s', _, _, hu, h1, h2, _, h4, _, _⟩ := collided_spec E dt s _ h
    obtain ⟨_, _, _, rfl⟩ := h4 rfl
    exact ⟨_, hu, forall₂_step_of_evolves h1.bricks⟩

/-- C8.  In an `update` step that does not take the game-over branch, the score after the
step is the score before plus 10 times the number of bricks that were on before the step
and are off when its collision phases are over; in particular it does not decrease. -/
theorem score_step (E : Env α) (dt : α) (s : State α) (br : Branch)
    (h : branch E dt s = some br) (hne : br ≠ Branch.gameOver) :
    ∃ c s', collided E dt s = some c ∧ update E dt s = some s' ∧
      s'.score = s.score + 10 * (destroyed s.bricks c.bricks : Int) ∧ s.score ≤ s'.score := by
  obtain ⟨p, c, s', _, hc, hu, h1, h2, _, h4, h5, h6⟩ := collided_spec E dt s br h
  have hev := h1.trans h2
  have hd := destroyed_of_evolves hev.bricks
  have hsc := hev.score
  have hcs : c.score = s.score + 10 * (destroyed s.bricks c.bricks : Int) := by linarith
  have hs' : s'.score = c.score := by
    cases br with
    | gameOver => exact absurd rfl hne
    | lifeLost =>
      obtain ⟨_, _, rfl, rfl⟩ := h4 rfl
      rfl
    | levelAdvance =>
      obtain ⟨_, _, rfl⟩ := h5 rfl
      unfold nextLevel
      split_ifs
      · exact (startLevel_spec _ _).1
      · exact (startLevel_spec _ _).1
    | play =>
      obtain ⟨_, _, rfl⟩ := h6 rfl
      rfl
  refine ⟨c, s', hc, hu, hs'.trans hcs, ?_⟩
  rw [hs', hcs]
  have : (0 : Int) ≤ (destroyed s.bricks c.bricks : Int) := Int.natCast_nonneg _
  linarith

theorem update_of_afterPurge (E : Env α) (dt : α) (s p : State α)
    (h : afterPurge E dt s = some p) : update E dt s = some (updateTail E p) := by
  unfold update
  rw [h]
  rfl

/-- C9.  From a state with `lives = 1` (and a level index that `startLevel` can have
left), an `update` step after whose purge no ball remains ends with `score = 0`,
`lives = 3`, the same level index, the brick list of a fresh `buildBricksFromGrid` of the
current level (every brick on, with its initial hit-points), and the paddle and the single
ball that `resetPaddleAndBalls` makes. -/
theorem game_over_restart (E : Env α) (dt : α) (s : State α) (hl : s.lives = 1)
    (hidx : s.levelIndex ≤ s.levels.length - 1)
    (hb : (afterPurge E dt s).map (fun p => p.balls) = some []) :
    ∃ s', update E dt s = some s' ∧ s'.score = 0 ∧ s'.lives = 3 ∧
      s'.levelIndex = s.levelIndex ∧ s'.bricks = (buildBricksFromGrid s).bricks ∧
      (∀ b ∈ s'.bricks, b.alive = true ∧ 1 ≤ b.hp) ∧
      s'.balls = (resetPaddleAndBalls s).balls ∧ s'.balls.length = 1 ∧
      s'.paddle.x = (resetPaddleAndBalls s).paddle.x ∧
      s'.paddle.y = (resetPaddleAndBalls s).paddle.y ∧
      s'.paddle.w = (resetPaddleAndBalls s).paddle.w ∧
      s'.paddle.h = (resetPaddleAndBalls s).paddle.h := by
  simp only [Option.map_eq_some'] at hb
  obtain ⟨p, hp, hnil⟩ := hb
  have hcore := (afterPurge_spec E dt s p hp).1.core
  obtain ⟨c1, c2, c3⟩ := core_fields hcore
  have htail : updateTail E p =
      startLevel { p with lives := 3, running := false, score := 0 } (p.levelIndex : Int) true := by
    unfold updateTail loseLife
    rw [if_pos (by rw [hnil]; rfl)]
    simp only []
    rw [if_pos (by rw [c1, hl]; norm_num)]
  refine ⟨_, update_of_afterPurge E dt s p hp, ?_⟩
  rw [htail]
  obtain ⟨d1, d2, d3, d4, _, d6, d7, d8, d9, d10, d11⟩ :=
    startLevel_spec { p with lives := 3, running := false, score := 0 } (p.levelIndex : Int)
  have hci : (clamp (p.levelIndex : Int) 0 ((p.levels.length : Int) - 1)).toNat = s.levelIndex := by
    rw [c2, c3]
    exact clamp_index _ _ hidx
  have hbr : (startLevel { p with lives := 3, running := false, score := 0 }
      (p.levelIndex : Int) true).bricks = (buildBricksFromGrid s).bricks := by
    rw [d6]
    apply buildBricksFromGrid_congr
    · exact c3
    · exact hci
  simp only [State.core, Prod.mk.injEq] at hcore
  have hr := resetPaddleAndBalls_congr s { p with lives := 3, running := false, score := 0 }
    hcore.2.2.2.1 hcore.2.2.2.2.1
  refine ⟨d1, d2, ?_, hbr, ?_, ?_, ?_, ?_, ?_, ?_, ?_⟩
  · rw [d4]
    exact hci
  · rw [hbr]
    exact buildBricksFromGrid_alive s
  · rw [d7, hr.1]
  · rw [d7]
    rfl
  · rw [d8, hr.2.1]
  · rw [d9, hr.2.2.1]
  · rw [d10, hr.2.2.2.1]
  · rw [d11, hr.2.2.2.2]

/-- C10.  From a state with `lives > 1`, an `update` step after whose purge no ball
remains (`p` is the state at that point) returns `resetPaddleAndBalls` of `p` with one life
less, before the bullets meet the bricks and before the level-clear check: the brick list,
the score and the level index are those of `p`, `lives` is `lives - 1`, and there is exactly
one ball, stuck, on the centre of the paddle. -/
theorem life_lost_respawn (E : Env α) (dt : α) (s : State α) (hl : 1 < s.lives)
    (hb : (afterPurge E dt s).map (fun p => p.balls) = some []) :
    ∃ p s', afterPurge E dt s = some p ∧ update E dt s = some s' ∧
      s' = resetPaddleAndBalls { p with lives := p.lives - 1 } ∧
      s'.bricks = p.bricks ∧ s'.score = p.score ∧ s'.levelIndex = p.levelIndex ∧
      s'.levelIndex = s.levelIndex ∧ s'.lives = s.lives - 1 ∧
      ∃ b, s'.balls = [b] ∧ b.stuck = true ∧ b.x = s'.paddle.x + s'.paddle.w / 2 ∧
        b.y = s'.paddle.y - b.r - 1 := by
  simp only [Option.map_eq_some'] at hb
  obtain ⟨p, hp, hnil⟩ := hb
  have hcore := (afterPurge_spec E dt s p hp).1.core
  obtain ⟨c1, c2, c3⟩ := core_fields hcore
  have htail : updateTail E p = resetPaddleAndBalls { p with lives := p.lives - 1 } := by
    unfold updateTail loseLife
    rw [if_pos (by rw [hnil]; rfl)]
    simp only []
    rw [if_neg (by rw [c1]; omega)]
  refine ⟨p, _, hp, update_of_afterPurge E dt s p hp, htail, ?_⟩
  rw [htail]
  obtain ⟨_, _, _, _, b, hb1, hb2, _, hb4, hb5⟩ :=
    resetPaddleAndBalls_spec { p with lives := p.lives - 1 }
  refine ⟨rfl, rfl, rfl, c2, ?_, b, hb1, hb2, hb4, hb5⟩
  show p.lives - 1 = s.lives - 1
  rw [c1]

end Claims

/-! ## The step on the sample states -/

section Samples

set_option maxRecDepth 8000

theorem sqrt36 : Real.sqrt 36 = 6 := by
  rw [show (36 : ℝ) = 6 ^ 2 by norm_num]
  exact Real.sqrt_sq (by norm_num)

theorem steel_ne_X : ¬ ("steel" : String) = "X" := by decide

theorem normal_ne_X : ¬ ("normal" : String) = "X" := by decide

theorem normal_not_bound :
    ¬ (("normal" : String) = "M" ∨ ("normal" : String) = "W" ∨ ("normal" : String) = "S"
      ∨ ("normal" : String) = "L") := by decide

theorem toUpperCase_W : toUpperCase "W" = "W" := by decide

theorem W_ne_M : ¬ ("W" : String) = "M" := by decide

theorem realEnv_sqrtLaw :
    Env.SqrtLaw (Env.quiet Real.sqrt Real.sin Real.cos Real.pi) :=
  fun x hx => ⟨Real.sqrt_nonneg x, Real.mul_self_sqrt hx⟩

/-- C2, the failing input evaluated: with the left arrow held for a step of 1/50 s the
paddle centre moves from 480 to 463.6 while the stuck ball keeps `x = 480`. -/
theorem stuck_ball_left_behind :
    (update (Env.quiet Real.sqrt Real.sin Real.cos Real.pi) (1 / 50)
      stuckState).map
      (fun s => (s.paddle.x + s.paddle.w / 2, s.balls.map (fun b => (b.stuck, b.x, b.y))))
      = some (4636 / 10, [(true, 480, 473)]) := by
  simp [Env.quiet, update, afterPurge, updateHead, collectPowerups, fallPowerups, launchKey, fireKey,
    movePaddle, expireTimers, powerupLoop, ballPhase, ballLoop, stepBall, purgeDead, updateTail,
    bulletPhase, bulletLoop, levelClear, firstIdx, clamp, jsOr, canvasWidth, CONFIG.BASE_WIDTH,
    CONFIG.PADDLE.speed, stuckState]
  norm_num

/-- C1, the failing input evaluated: the brick list of `steelState` is the one
`buildBricksFromGrid` makes from the grid cell `'X'`, a steel brick of 9999 hit-points, and
one `update` step in which the ball meets it leaves it with 9998. -/
theorem steel_brick_loses_hit_point :
    (buildBricksFromGrid (steelState : State ℝ)).bricks = steelState.bricks ∧
    (steelState : State ℝ).bricks.map (fun b => (b.kind, b.hp, b.alive)) = [("steel", 9999, true)] ∧
    (update (Env.quiet Real.sqrt Real.sin Real.cos Real.pi) (1 / 50)
      steelState).map (fun s => s.bricks.map (fun b => (b.kind, b.hp, b.alive)))
      = some [("steel", 9998, true)] := by
  refine ⟨?_, ?_, ?_⟩
  · simp [buildBricksFromGrid, steelState, steelLevel, brickOfChar, CONFIG.BASE_WIDTH,
      CONFIG.BRICK.marginX, CONFIG.BRICK.gap, CONFIG.BRICK.maxBrickArea, CONFIG.BRICK.maxH,
      CONFIG.BRICK.top, CONFIG.BASE_HEIGHT, List.range, List.range.loop]
  · simp [steelState]
  · norm_num [Env.quiet, update, afterPurge, updateHead, collectPowerups, fallPowerups, launchKey, fireKey,
      movePaddle, expireTimers, powerupLoop, ballPhase, ballLoop, stepBall, purgeDead, updateTail,
      bulletPhase, bulletLoop, levelClear, firstIdx, clamp, jsOr, canvasWidth, CONFIG.BASE_WIDTH,
      canvasHeight, CONFIG.BASE_HEIGHT,
      CONFIG.PADDLE.speed, steelState, wallCollide, paddleCollide, brickCollide, bounceOffBrick,
      collisionNormal, circleIntersectsRect, damageBrick, Ball.circle, Brick.rect, Paddle.rect,
      jsSign, sqrt36, steel_ne_X]

end Samples

section Witnesses

set_option maxRecDepth 8000

theorem flightState_branch :
    branch (Env.quiet Real.sqrt Real.sin Real.cos Real.pi) (1 / 50)
      flightState = some Branch.play := by
  norm_num [Env.quiet, branch, collided, afterPurge, updateHead, collectPowerups, fallPowerups, launchKey,
    fireKey, movePaddle, expireTimers, powerupLoop, ballPhase, ballLoop, stepBall, purgeDead,
    bulletPhase, bulletLoop, firstIdx, clamp, jsOr, canvasWidth, CONFIG.BASE_WIDTH,
    canvasHeight, CONFIG.BASE_HEIGHT, CONFIG.PADDLE.speed, flightState, stuckState, wallCollide,
    paddleCollide, brickCollide, bounceOffBrick, collisionNormal, circleIntersectsRect,
    damageBrick, maybeSpawnPowerupFromBrick, spawnPowerup, CONFIG.POWERUP.chance,
    CONFIG.POWERUP.fallSpeed, Ball.circle, Brick.rect, Paddle.rect, jsSign, sqrt36,
    normal_ne_X, normal_not_bound]

theorem lostState_purged (lives : Int) :
    (afterPurge (Env.quiet Real.sqrt Real.sin Real.cos Real.pi) (1 / 50)
      (lostState lives)).map (fun p => p.balls) = some [] := by
  norm_num [Env.quiet, afterPurge, updateHead, collectPowerups, fallPowerups, launchKey,
    fireKey, movePaddle, expireTimers, powerupLoop, ballPhase, ballLoop, stepBall, purgeDead,
    firstIdx, clamp, jsOr, canvasWidth, CONFIG.BASE_WIDTH,
    canvasHeight, CONFIG.BASE_HEIGHT, CONFIG.PADDLE.speed, lostState, stuckState, wallCollide,
    paddleCollide, brickCollide, circleIntersectsRect, Ball.circle, Brick.rect, Paddle.rect]

/-- C7, witness: the step of `flightState`, in which the ball destroys the left brick. -/
theorem bricks_step_witness :
    (branch (Env.quiet Real.sqrt Real.sin Real.cos Real.pi) (1 / 50)
        flightState = some Branch.play ∨
      branch (Env.quiet Real.sqrt Real.sin Real.cos Real.pi) (1 / 50)
        flightState = some Branch.lifeLost) ∧
    (∃ s', update (Env.quiet Real.sqrt Real.sin Real.cos Real.pi)
        (1 / 50) flightState = some s' ∧
      List.Forall₂ BrickStep (flightState : State ℝ).bricks s'.bricks) :=
  ⟨Or.inl flightState_branch, (bricks_step _ _ _ (Or.inl flightState_branch)).1⟩

/-- C8, witness: the step of `flightState`, in which the ball destroys the left brick. -/
theorem score_step_witness :
    branch (Env.quiet Real.sqrt Real.sin Real.cos Real.pi) (1 / 50)
        flightState = some Branch.play ∧
    Branch.play ≠ Branch.gameOver ∧
    ∃ c s', collided (Env.quiet Real.sqrt Real.sin Real.cos Real.pi)
        (1 / 50) flightState = some c ∧
      update (Env.quiet Real.sqrt Real.sin Real.cos Real.pi)
        (1 / 50) flightState = some s' ∧
      s'.score = (flightState : State ℝ).score
        + 10 * (destroyed (flightState : State ℝ).bricks c.bricks : Int) ∧
      (flightState : State ℝ).score ≤ s'.score :=
  ⟨flightState_branch, by decide, score_step _ _ _ _ flightState_branch (by decide)⟩

/-- C9, witness: the step of `lostState 1`, whose only ball is below the playfield. -/
theorem game_over_restart_witness :
    (lostState 1 : State ℝ).lives = 1 ∧
    (lostState 1 : State ℝ).levelIndex ≤ (lostState 1 : State ℝ).levels.length - 1 ∧
    (afterPurge (Env.quiet Real.sqrt Real.sin Real.cos Real.pi) (1 / 50)
      (lostState 1)).map (fun p => p.balls) = some [] ∧
    ∃ s', update (Env.quiet Real.sqrt Real.sin Real.cos Real.pi)
        (1 / 50) (lostState 1) = some s' ∧ s'.score = 0 ∧ s'.lives = 3 ∧
      s'.levelIndex = (lostState 1 : State ℝ).levelIndex ∧
      s'.bricks = (buildBricksFromGrid (lostState 1 : State ℝ)).bricks :=
  have h := game_over_restart
    (Env.quiet Real.sqrt Real.sin Real.cos Real.pi) (1 / 50)
    (lostState 1) rfl (by simp [lostState, stuckState]) (lostState_purged 1)
  ⟨rfl, by simp [lostState, stuckState], lostState_purged 1,
    h.elim fun s' hs' => ⟨s', hs'.1, hs'.2.1, hs'.2.2.1, hs'.2.2.2.1, hs'.2.2.2.2.1⟩⟩

/-- C10, witness: the step of `lostState 3`, whose only ball is below the playfield. -/
theorem life_lost_respawn_witness :
    1 < (lostState 3 : State ℝ).lives ∧
    (afterPurge (Env.quiet Real.sqrt Real.sin Real.cos Real.pi) (1 / 50)
      (lostState 3)).map (fun p => p.balls) = some [] ∧
    ∃ p s', afterPurge (Env.quiet Real.sqrt Real.sin Real.cos Real.pi)
        (1 / 50) (lostState 3) = some p ∧
      update (Env.quiet Real.sqrt Real.sin Real.cos Real.pi)
        (1 / 50) (lostState 3) = some s' ∧
      s'.bricks = p.bricks ∧ s'.score = p.score ∧
      s'.lives = (lostState 3 : State ℝ).lives - 1 ∧ s'.balls.length = 1 :=
  have h := life_lost_respawn
    (Env.quiet Real.sqrt Real.sin Real.cos Real.pi) (1 / 50)
    (lostState 3) (by simp [lostState]) (lostState_purged 3)
  ⟨by simp [lostState], lostState_purged 3,
    h.elim fun p hp => hp.elim fun s' hs' =>
      ⟨p, s', hs'.1, hs'.2.1, hs'.2.2.2.1, hs'.2.2.2.2.1, hs'.2.2.2.2.2.2.2.1,
        hs'.2.2.2.2.2.2.2.2.elim fun b hb => by rw [hb.1]; rfl⟩⟩

/-- C4, witness: a widen pickup applied to `stuckState`, and the step of `stuckState`. -/
theorem paddle_clamped_witness :
    (∃ s', applyPowerup (Env.quiet Real.sqrt Real.sin Real.cos Real.pi)
        stuckState "W" = some s' ∧ s'.paddle.w ≤ canvasWidth ∧
      0 ≤ s'.paddle.x ∧ s'.paddle.x ≤ canvasWidth - s'.paddle.w) ∧
    (∃ s', update (Env.quiet Real.sqrt Real.sin Real.cos Real.pi)
        (1 / 50) stuckState = some s' ∧ s'.paddle.w ≤ canvasWidth ∧
      0 ≤ s'.paddle.x ∧ s'.paddle.x ≤ canvasWidth - s'.paddle.w) := by
  have h := paddle_clamped
    (Env.quiet Real.sqrt Real.sin Real.cos Real.pi) (1 / 50)
    stuckState "W"
  have ha : (applyPowerup (Env.quiet Real.sqrt Real.sin Real.cos Real.pi)
      stuckState "W").map (fun s => s.paddle.w) = some 192 := by
    norm_num [Env.quiet, applyPowerup, toUpperCase_W, W_ne_M, stuckState]
  have hu : (update (Env.quiet Real.sqrt Real.sin Real.cos Real.pi)
      (1 / 50) stuckState).map (fun s => s.paddle.w) = some 120 := by
    norm_num [Env.quiet, update, afterPurge, updateHead, collectPowerups, fallPowerups, launchKey, fireKey,
      movePaddle, expireTimers, powerupLoop, ballPhase, ballLoop, stepBall, purgeDead, updateTail,
      bulletPhase, bulletLoop, levelClear, firstIdx, clamp, jsOr, canvasWidth, CONFIG.BASE_WIDTH,
      CONFIG.PADDLE.speed, stuckState]
  simp only [Option.map_eq_some'] at ha hu
  obtain ⟨s1, h1, w1⟩ := ha
  obtain ⟨s2, h2, w2⟩ := hu
  have hw1 : s1.paddle.w ≤ canvasWidth := by
    rw [w1, h.1]
    norm_num
  have hw2 : s2.paddle.w ≤ canvasWidth := by
    rw [w2, h.1]
    norm_num
  exact ⟨⟨s1, h1, hw1, h.2.1 s1 h1 hw1⟩, ⟨s2, h2, hw2, h.2.2.1 s2 h2 hw2⟩⟩

/-- C4, counterexample: `wideState` satisfies the bound (`0 ≤ 0 ≤ 960 - 786.432`); after a
fifth widen pickup the paddle is wider than the playfield, `paddle.x` is 0 and the upper
bound fails. -/
theorem widen_breaks_upper_bound :
    (0 ≤ (wideState : State ℝ).paddle.x ∧
      (wideState : State ℝ).paddle.x ≤ canvasWidth - (wideState : State ℝ).paddle.w) ∧
    ∃ s', applyPowerup (Env.quiet Real.sqrt Real.sin Real.cos Real.pi)
        wideState "W" = some s' ∧
      ¬ (0 ≤ s'.paddle.x ∧ s'.paddle.x ≤ canvasWidth - s'.paddle.w) := by
  have ha : (applyPowerup (Env.quiet Real.sqrt Real.sin Real.cos Real.pi)
      wideState "W").map (fun s => (s.paddle.x, s.paddle.w)) = some (0, 98304 / 125 * (16 / 10)) := by
    norm_num [Env.quiet, applyPowerup, toUpperCase_W, W_ne_M, wideState, stuckState, clamp, canvasWidth,
      CONFIG.BASE_WIDTH]
  simp only [Option.map_eq_some', Prod.mk.injEq] at ha
  obtain ⟨s1, h1, hx, hw⟩ := ha
  refine ⟨?_, s1, h1, ?_⟩
  · norm_num [wideState, canvasWidth, CONFIG.BASE_WIDTH]
  · rw [hx, hw]
    norm_num [canvasWidth, CONFIG.BASE_WIDTH]

end Witnesses

/-! ## The collision tests -/

section Geometry

variable {α : Type} [LinearOrderedField α]

theorem clamp_nearest (v lo hi p : α) (h1 : lo ≤ p) (h2 : p ≤ hi) :
    (v - clamp v lo hi) * (v - clamp v lo hi) ≤ (v - p) * (v - p) := by
  unfold clamp
  rcases le_total hi v with h | h
  · rw [min_eq_left h, max_eq_right (le_trans h1 h2)]
    nlinarith
  · rw [min_eq_right h]
    rcases le_total lo v with h3 | h3
    · rw [max_eq_right h3]
      nlinarith [mul_self_nonneg (v - p)]
    · rw [max_eq_left h3]
      nlinarith

/-- C14.  For a rectangle with `w ≥ 0` and `h ≥ 0`, the point that `circleIntersectsRect`
clamps the centre to lies in the closed rectangle and is nearest to the centre among its
points, and `circleIntersectsRect` is true iff its squared distance to the centre, the
minimum over the rectangle, is `≤ r * r`; that is, iff some point of the closed rectangle
is within `r` of the centre. -/
theorem circleIntersectsRect_nearest (c : Circle α) (r : Rect α) (hw : 0 ≤ r.w) (hh : 0 ≤ r.h) :
    (r.x ≤ clamp c.x r.x (r.x + r.w) ∧ clamp c.x r.x (r.x + r.w) ≤ r.x + r.w ∧
      r.y ≤ clamp c.y r.y (r.y + r.h) ∧ clamp c.y r.y (r.y + r.h) ≤ r.y + r.h) ∧
    (∀ px py : α, r.x ≤ px → px ≤ r.x + r.w → r.y ≤ py → py ≤ r.y + r.h →
      clampDistSq c r ≤ (c.x - px) * (c.x - px) + (c.y - py) * (c.y - py)) ∧
    (circleIntersectsRect c r = true ↔ clampDistSq c r ≤ c.r * c.r) ∧
    (circleIntersectsRect c r = true ↔
      ∃ px py : α, r.x ≤ px ∧ px ≤ r.x + r.w ∧ r.y ≤ py ∧ py ≤ r.y + r.h ∧
        (c.x - px) * (c.x - px) + (c.y - py) * (c.y - py) ≤ c.r * c.r) := by
  have hin : r.x ≤ clamp c.x r.x (r.x + r.w) ∧ clamp c.x r.x (r.x + r.w) ≤ r.x + r.w ∧
      r.y ≤ clamp c.y r.y (r.y + r.h) ∧ clamp c.y r.y (r.y + r.h) ≤ r.y + r.h :=
    ⟨clamp_ge _ _ _, clamp_le _ _ _ (by linarith), clamp_ge _ _ _, clamp_le _ _ _ (by linarith)⟩
  have hmin : ∀ px py : α, r.x ≤ px → px ≤ r.x + r.w → r.y ≤ py → py ≤ r.y + r.h →
      clampDistSq c r ≤ (c.x - px) * (c.x - px) + (c.y - py) * (c.y - py) := by
    intro px py h1 h2 h3 h4
    unfold clampDistSq
    exact add_le_add (clamp_nearest _ _ _ _ h1 h2) (clamp_nearest _ _ _ _ h3 h4)
  refine ⟨hin, hmin, circleIntersectsRect_iff c r, ?_⟩
  rw [circleIntersectsRect_iff]
  constructor
  · intro h
    exact ⟨_, _, hin.1, hin.2.1, hin.2.2.1, hin.2.2.2, h⟩
  · rintro ⟨px, py, h1, h2, h3, h4, h5⟩
    exact le_trans (hmin px py h1 h2 h3 h4) h5

/-- C14, witness: a circle of radius 8 whose centre is 5 above a rectangle. -/
theorem circleIntersectsRect_nearest_witness :
    (0 : ℚ) ≤ (⟨-10, 0, 20, 10⟩ : Rect ℚ).w ∧ (0 : ℚ) ≤ (⟨-10, 0, 20, 10⟩ : Rect ℚ).h ∧
    (circleIntersectsRect (⟨0, -5, 8⟩ : Circle ℚ) ⟨-10, 0, 20, 10⟩ = true ↔
      clampDistSq (⟨0, -5, 8⟩ : Circle ℚ) ⟨-10, 0, 20, 10⟩
        ≤ (⟨0, -5, 8⟩ : Circle ℚ).r * (⟨0, -5, 8⟩ : Circle ℚ).r) :=
  ⟨by norm_num, by norm_num,
    (circleIntersectsRect_nearest (⟨0, -5, 8⟩ : Circle ℚ) ⟨-10, 0, 20, 10⟩
      (by norm_num) (by norm_num)).2.2.1⟩

/-- C19.  For rectangles of non-negative width and height, `rectIntersectsRect(a, b)` is
true iff the closed rectangles share a point, that is iff they are separated neither on the
x axis nor on the y axis (touching edges overlap); it is symmetric; and the two declarations
of `rectIntersectsRect` in the file compute the same function. -/
theorem rectIntersectsRect_spec (a b : Rect α) (haw : 0 ≤ a.w) (hah : 0 ≤ a.h)
    (hbw : 0 ≤ b.w) (hbh : 0 ≤ b.h) :
    (rectIntersectsRect a b = true ↔
      ∃ px py : α, a.x ≤ px ∧ px ≤ a.x + a.w ∧ a.y ≤ py ∧ py ≤ a.y + a.h ∧
        b.x ≤ px ∧ px ≤ b.x + b.w ∧ b.y ≤ py ∧ py ≤ b.y + b.h) ∧
    (rectIntersectsRect a b = false ↔
      (a.x + a.w < b.x ∨ b.x + b.w < a.x) ∨ (a.y + a.h < b.y ∨ b.y + b.h < a.y)) ∧
    rectIntersectsRect a b = rectIntersectsRect b a ∧
    rectIntersectsRect2 a b = rectIntersectsRect a b := by
  have hiff : rectIntersectsRect a b = true ↔
      b.x ≤ a.x + a.w ∧ a.x ≤ b.x + b.w ∧ b.y ≤ a.y + a.h ∧ a.y ≤ b.y + b.h := by
    simp [rectIntersectsRect, and_assoc]
  have hiff' : rectIntersectsRect b a = true ↔
      a.x ≤ b.x + b.w ∧ b.x ≤ a.x + a.w ∧ a.y ≤ b.y + b.h ∧ b.y ≤ a.y + a.h := by
    simp [rectIntersectsRect, and_assoc]
  refine ⟨?_, ?_, ?_, rfl⟩
  · rw [hiff]
    constructor
    · rintro ⟨h1, h2, h3, h4⟩
      refine ⟨max a.x b.x, max a.y b.y, le_max_left _ _, max_le (by linarith) h1,
        le_max_left _ _, max_le (by linarith) h3, le_max_right _ _, max_le h2 (by linarith),
        le_max_right _ _, max_le h4 (by linarith)⟩
    · rintro ⟨px, py, h1, h2, h3, h4, h5, h6, h7, h8⟩
      exact ⟨by linarith, by linarith, by linarith, by linarith⟩
  · rw [← Bool.not_eq_true, hiff]
    constructor
    · intro h
      by_contra hc
      push_neg at hc
      exact h ⟨hc.1.1, hc.1.2, hc.2.1, hc.2.2⟩
    · rintro h ⟨h1, h2, h3, h4⟩
      rcases h with (h | h) | (h | h) <;> linarith
  · rw [Bool.eq_iff_iff, hiff, hiff']
    constructor
    · rintro ⟨h1, h2, h3, h4⟩
      exact ⟨h2, h1, h4, h3⟩
    · rintro ⟨h1, h2, h3, h4⟩
      exact ⟨h2, h1, h4, h3⟩

/-- C19, witness: two rectangles that touch along an edge. -/
theorem rectIntersectsRect_spec_witness :
    (0 : ℚ) ≤ (⟨0, 0, 10, 10⟩ : Rect ℚ).w ∧ (0 : ℚ) ≤ (⟨0, 0, 10, 10⟩ : Rect ℚ).h ∧
    (0 : ℚ) ≤ (⟨10, 0, 5, 5⟩ : Rect ℚ).w ∧ (0 : ℚ) ≤ (⟨10, 0, 5, 5⟩ : Rect ℚ).h ∧
    rectIntersectsRect (⟨0, 0, 10, 10⟩ : Rect ℚ) ⟨10, 0, 5, 5⟩
      = rectIntersectsRect (⟨10, 0, 5, 5⟩ : Rect ℚ) ⟨0, 0, 10, 10⟩ ∧
    rectIntersectsRect (⟨0, 0, 10, 10⟩ : Rect ℚ) ⟨10, 0, 5, 5⟩ = true :=
  ⟨by norm_num, by norm_num, by norm_num, by norm_num,
    (rectIntersectsRect_spec (⟨0, 0, 10, 10⟩ : Rect ℚ) ⟨10, 0, 5, 5⟩
      (by norm_num) (by norm_num) (by norm_num) (by norm_num)).2.2.1,
    by norm_num [rectIntersectsRect]⟩

end Geometry

section Normal

variable {α : Type} [LinearOrderedField α]

theorem jsOr_ne_zero (a d : α) (hd : d ≠ 0) : jsOr a d ≠ 0 := by
  unfold jsOr
  split_ifs with h
  · exact hd
  · exact h

theorem jsSign_unit (a : α) (h : a ≠ 0) : jsSign a = 1 ∨ jsSign a = -1 := by
  unfold jsSign
  rcases lt_or_gt_of_ne h with h1 | h1
  · right
    rw [if_neg (not_lt.mpr h1.le), if_pos h1]
  · left
    rw [if_pos h1]

theorem collisionNormal_inside (E : Env α) (c : Circle α) (r : Rect α) (h : strictlyInside c r) :
    collisionNormal E c r =
      if min (min (min |c.x - r.x| |r.x + r.w - c.x|) |c.y - r.y|) |r.y + r.h - c.y|
          = |c.x - r.x| then ⟨-1, 0, c.r⟩
      else if min (min (min |c.x - r.x| |r.x + r.w - c.x|) |c.y - r.y|) |r.y + r.h - c.y|
          = |r.x + r.w - c.x| then ⟨1, 0, c.r⟩
      else if min (min (min |c.x - r.x| |r.x + r.w - c.x|) |c.y - r.y|) |r.y + r.h - c.y|
          = |c.y - r.y| then ⟨0, -1, c.r⟩
      else ⟨0, 1, c.r⟩ := by
  have h' : c.x > r.x ∧ c.x < r.x + r.w ∧ c.y > r.y ∧ c.y < r.y + r.h := h
  unfold collisionNormal
  simp only []
  rw [if_pos h']

theorem collisionNormal_outside (E : Env α) (c : Circle α) (r : Rect α)
    (h : ¬ strictlyInside c r) :
    (collisionNormal E c r).nx =
      (if |(c.x - clamp c.x r.x (r.x + r.w)) / jsOr (E.sqrt (clampDistSq c r)) (1 / 10000)|
          > |(c.y - clamp c.y r.y (r.y + r.h)) / jsOr (E.sqrt (clampDistSq c r)) (1 / 10000)|
        then jsSign ((c.x - clamp c.x r.x (r.x + r.w)) / jsOr (E.sqrt (clampDistSq c r)) (1 / 10000))
        else 0) ∧
    (collisionNormal E c r).ny =
      (if |(c.x - clamp c.x r.x (r.x + r.w)) / jsOr (E.sqrt (clampDistSq c r)) (1 / 10000)|
          > |(c.y - clamp c.y r.y (r.y + r.h)) / jsOr (E.sqrt (clampDistSq c r)) (1 / 10000)|
        then 0
        else jsSign ((c.y - clamp c.y r.y (r.y + r.h)) / jsOr (E.sqrt (clampDistSq c r)) (1 / 10000))) := by
  have h' : ¬ (c.x > r.x ∧ c.x < r.x + r.w ∧ c.y > r.y ∧ c.y < r.y + r.h) := h
  unfold collisionNormal clampDistSq
  simp only []
  rw [if_neg h']
  split_ifs <;> exact ⟨rfl, rfl⟩

theorem axisUnit_inside (E : Env α) (c : Circle α) (r : Rect α) (h : strictlyInside c r) :
    AxisUnit (collisionNormal E c r).nx (collisionNormal E c r).ny := by
  rw [collisionNormal_inside E c r h]
  unfold AxisUnit
  split_ifs <;> simp

theorem axisUnit_outside (E : Env α) (c : Circle α) (r : Rect α) (h : ¬ strictlyInside c r)
    (hd : clampDistSq c r ≠ 0) :
    AxisUnit (collisionNormal E c r).nx (collisionNormal E c r).ny := by
  obtain ⟨hx, hy⟩ := collisionNormal_outside E c r h
  rw [hx, hy]
  have hdist : jsOr (E.sqrt (clampDistSq c r)) (1 / 10000) ≠ 0 := jsOr_ne_zero _ _ (by norm_num)
  generalize jsOr (E.sqrt (clampDistSq c r)) (1 / 10000) = dist at hdist ⊢
  unfold AxisUnit
  split_ifs with hgt
  · right
    refine ⟨rfl, jsSign_unit _ ?_⟩
    intro h0
    rw [h0, abs_zero] at hgt
    exact absurd hgt (not_lt.mpr (abs_nonneg _))
  · left
    refine ⟨rfl, jsSign_unit _ ?_⟩
    intro h0
    rw [h0, abs_zero] at hgt
    have hx0 : (c.x - clamp c.x r.x (r.x + r.w)) / dist = 0 := by
      have := abs_nonneg ((c.x - clamp c.x r.x (r.x + r.w)) / dist)
      exact abs_eq_zero.mp (le_antisymm (not_lt.mp hgt) this)
    have h1 : c.x - clamp c.x r.x (r.x + r.w) = 0 := by
      rcases div_eq_zero_iff.mp hx0 with h | h
      · exact h
      · exact absurd h hdist
    have h2 : c.y - clamp c.y r.y (r.y + r.h) = 0 := by
      rcases div_eq_zero_iff.mp h0 with h | h
      · exact h
      · exact absurd h hdist
    apply hd
    unfold clampDistSq
    rw [h1, h2]
    simp

theorem normal_zero (E : Env α) (c : Circle α) (r : Rect α) (h : ¬ strictlyInside c r)
    (hd : clampDistSq c r = 0) :
    (collisionNormal E c r).nx = 0 ∧ (collisionNormal E c r).ny = 0 := by
  obtain ⟨hx, hy⟩ := collisionNormal_outside E c r h
  rw [hx, hy]
  have h1 : c.x - clamp c.x r.x (r.x + r.w) = 0 := by
    unfold clampDistSq at hd
    have := mul_self_nonneg (c.y - clamp c.y r.y (r.y + r.h))
    have h2 := mul_self_nonneg (c.x - clamp c.x r.x (r.x + r.w))
    exact mul_self_eq_zero.mp (by linarith)
  have h2 : c.y - clamp c.y r.y (r.y + r.h) = 0 := by
    unfold clampDistSq at hd
    have := mul_self_nonneg (c.y - clamp c.y r.y (r.y + r.h))
    have h2 := mul_self_nonneg (c.x - clamp c.x r.x (r.x + r.w))
    exact mul_self_eq_zero.mp (by linarith)
  rw [h1, h2]
  simp [jsSign]

theorem bounceOffBrick_velocity (E : Env α) (b : Ball α) (br : Brick α) :
    (bounceOffBrick E b br).vx =
      (if (collisionNormal E b.circle br.rect).nx ≠ 0 then b.vx * -1 else b.vx) ∧
    (bounceOffBrick E b br).vy =
      (if (collisionNormal E b.circle br.rect).ny ≠ 0 then b.vy * -1 else b.vy) := by
  unfold bounceOffBrick
  simp only []
  split_ifs <;> exact ⟨rfl, rfl⟩

/-- C15, amended.  Whenever the centre of the circle is strictly inside the rectangle,
or at a non-zero distance from the point it is clamped to, the normal `(nx, ny)` returned by
`collisionNormal` is an axis-aligned unit vector (one of `nx`, `ny` is 0, the other `+1` or
`-1`) and a ball-vs-brick hit negates exactly one component of the ball's velocity; when
the centre lies on the rectangle without being strictly inside (distance zero), the normal
is `(0, 0)` and the hit leaves both components. -/
theorem collisionNormal_axis (E : Env α) (b : Ball α) (br : Brick α) :
    (strictlyInside b.circle br.rect ∨ clampDistSq b.circle br.rect ≠ 0 →
      AxisUnit (collisionNormal E b.circle br.rect).nx (collisionNormal E b.circle br.rect).ny ∧
      (((bounceOffBrick E b br).vx = -b.vx ∧ (bounceOffBrick E b br).vy = b.vy) ∨
        ((bounceOffBrick E b br).vx = b.vx ∧ (bounceOffBrick E b br).vy = -b.vy))) ∧
    (¬ strictlyInside b.circle br.rect ∧ clampDistSq b.circle br.rect = 0 →
      (collisionNormal E b.circle br.rect).nx = 0 ∧ (collisionNormal E b.circle br.rect).ny = 0 ∧
      (bounceOffBrick E b br).vx = b.vx ∧ (bounceOffBrick E b br).vy = b.vy) := by
  obtain ⟨hvx, hvy⟩ := bounceOffBrick_velocity E b br
  constructor
  · intro h
    have hax : AxisUnit (collisionNormal E b.circle br.rect).nx
        (collisionNormal E b.circle br.rect).ny := by
      by_cases hin : strictlyInside b.circle br.rect
      · exact axisUnit_inside E _ _ hin
      · rcases h with h | h
        · exact absurd h hin
        · exact axisUnit_outside E _ _ hin h
    refine ⟨hax, ?_⟩
    rw [hvx, hvy]
    rcases hax with ⟨h0, h1⟩ | ⟨h0, h1⟩
    · right
      rw [h0]
      rcases h1 with h1 | h1 <;> rw [h1] <;> norm_num
    · left
      rw [h0]
      rcases h1 with h1 | h1 <;> rw [h1] <;> norm_num
  · rintro ⟨hin, hd⟩
    obtain ⟨h1, h2⟩ := normal_zero E _ _ hin hd
    rw [hvx, hvy, h1, h2]
    simp

/-- C20.  For a circle whose centre is strictly inside the rectangle, `collisionNormal`
returns the radius as penetration, and, `m` being the least of the distances `left`,
`right`, `top`, `bottom` from the centre to the four sides: the normal `(-1, 0)` if
`m = left`, else `(1, 0)` if `m = right`, else `(0, -1)` if `m = top`, else `(0, 1)`, in
which case `m = bottom`. -/
theorem collisionNormal_strictlyInside (E : Env α) (c : Circle α) (r : Rect α)
    (h : strictlyInside c r) :
    (collisionNormal E c r).pen = c.r ∧
    (min (min (min (c.x - r.x) (r.x + r.w - c.x)) (c.y - r.y)) (r.y + r.h - c.y) = c.x - r.x →
      (collisionNormal E c r).nx = -1 ∧ (collisionNormal E c r).ny = 0) ∧
    (min (min (min (c.x - r.x) (r.x + r.w - c.x)) (c.y - r.y)) (r.y + r.h - c.y) ≠ c.x - r.x →
      min (min (min (c.x - r.x) (r.x + r.w - c.x)) (c.y - r.y)) (r.y + r.h - c.y)
        = r.x + r.w - c.x →
      (collisionNormal E c r).nx = 1 ∧ (collisionNormal E c r).ny = 0) ∧
    (min (min (min (c.x - r.x) (r.x + r.w - c.x)) (c.y - r.y)) (r.y + r.h - c.y) ≠ c.x - r.x →
      min (min (min (c.x - r.x) (r.x + r.w - c.x)) (c.y - r.y)) (r.y + r.h - c.y)
        ≠ r.x + r.w - c.x →
      min (min (min (c.x - r.x) (r.x + r.w - c.x)) (c.y - r.y)) (r.y + r.h - c.y) = c.y - r.y →
      (collisionNormal E c r).nx = 0 ∧ (collisionNormal E c r).ny = -1) ∧
    (min (min (min (c.x - r.x) (r.x + r.w - c.x)) (c.y - r.y)) (r.y + r.h - c.y) ≠ c.x - r.x →
      min (min (min (c.x - r.x) (r.x + r.w - c.x)) (c.y - r.y)) (r.y + r.h - c.y)
        ≠ r.x + r.w - c.x →
      min (min (min (c.x - r.x) (r.x + r.w - c.x)) (c.y - r.y)) (r.y + r.h - c.y) ≠ c.y - r.y →
      (collisionNormal E c r).nx = 0 ∧ (collisionNormal E c r).ny = 1 ∧
      min (min (min (c.x - r.x) (r.x + r.w - c.x)) (c.y - r.y)) (r.y + r.h - c.y)
        = r.y + r.h - c.y) := by
  have h' : c.x > r.x ∧ c.x < r.x + r.w ∧ c.y > r.y ∧ c.y < r.y + r.h := h
  obtain ⟨h1, h2, h3, h4⟩ := h'
  rw [collisionNormal_inside E c r h]
  rw [abs_of_pos (sub_pos.mpr h1), abs_of_pos (sub_pos.mpr h2), abs_of_pos (sub_pos.mpr h3),
    abs_of_pos (sub_pos.mpr h4)]
  generalize hm : min (min (min (c.x - r.x) (r.x + r.w - c.x)) (c.y - r.y)) (r.y + r.h - c.y) = m
  refine ⟨?_, ?_, ?_, ?_, ?_⟩
  · split_ifs <;> rfl
  · intro e1
    rw [if_pos e1]
    exact ⟨rfl, rfl⟩
  · intro e1 e2
    rw [if_neg e1, if_pos e2]
    exact ⟨rfl, rfl⟩
  · intro e1 e2 e3
    rw [if_neg e1, if_neg e2, if_pos e3]
    exact ⟨rfl, rfl⟩
  · intro e1 e2 e3
    rw [if_neg e1, if_neg e2, if_neg e3]
    refine ⟨rfl, rfl, ?_⟩
    rw [← hm] at e1 e2 e3 ⊢
    rcases min_choice (min (min (c.x - r.x) (r.x + r.w - c.x)) (c.y - r.y)) (r.y + r.h - c.y)
      with h5 | h5
    · rw [h5] at e1 e2 e3
      rcases min_choice (min (c.x - r.x) (r.x + r.w - c.x)) (c.y - r.y) with h6 | h6
      · rw [h6] at e1 e2
        rcases min_choice (c.x - r.x) (r.x + r.w - c.x) with h7 | h7
        · exact absurd h7 e1
        · exact absurd h7 e2
      · exact absurd h6 e3
    · exact h5

/-- C20, witness: a centre nearest to the top side of the rectangle. -/
theorem collisionNormal_strictlyInside_witness :
    strictlyInside (⟨0, 2, 8⟩ : Circle ℝ) ⟨-10, 0, 20, 10⟩ ∧
    (collisionNormal (Env.quiet Real.sqrt Real.sin Real.cos Real.pi)
      (⟨0, 2, 8⟩ : Circle ℝ) ⟨-10, 0, 20, 10⟩).pen = 8 ∧
    (collisionNormal (Env.quiet Real.sqrt Real.sin Real.cos Real.pi)
      (⟨0, 2, 8⟩ : Circle ℝ) ⟨-10, 0, 20, 10⟩).nx = 0 ∧
    (collisionNormal (Env.quiet Real.sqrt Real.sin Real.cos Real.pi)
      (⟨0, 2, 8⟩ : Circle ℝ) ⟨-10, 0, 20, 10⟩).ny = -1 := by
  have h : strictlyInside (⟨0, 2, 8⟩ : Circle ℝ) ⟨-10, 0, 20, 10⟩ := by
    norm_num [strictlyInside]
  have t := collisionNormal_strictlyInside (Env.quiet Real.sqrt Real.sin Real.cos Real.pi)
    (⟨0, 2, 8⟩ : Circle ℝ) ⟨-10, 0, 20, 10⟩ h
  refine ⟨h, t.1, ?_⟩
  exact t.2.2.2.1 (by norm_num) (by norm_num) (by norm_num)

/-- C15, witness: a ball of radius 8 whose centre is 5 above the top of a brick. -/
theorem collisionNormal_axis_witness :
    (strictlyInside (⟨480, 67, 0, 300, 8, 420, false, false⟩ : Ball ℝ).circle
        (⟨28, 72, 904, 32, 1, true, "normal"⟩ : Brick ℝ).rect ∨
      clampDistSq (⟨480, 67, 0, 300, 8, 420, false, false⟩ : Ball ℝ).circle
        (⟨28, 72, 904, 32, 1, true, "normal"⟩ : Brick ℝ).rect ≠ 0) ∧
    AxisUnit
      (collisionNormal (Env.quiet Real.sqrt Real.sin Real.cos Real.pi)
        (⟨480, 67, 0, 300, 8, 420, false, false⟩ : Ball ℝ).circle
        (⟨28, 72, 904, 32, 1, true, "normal"⟩ : Brick ℝ).rect).nx
      (collisionNormal (Env.quiet Real.sqrt Real.sin Real.cos Real.pi)
        (⟨480, 67, 0, 300, 8, 420, false, false⟩ : Ball ℝ).circle
        (⟨28, 72, 904, 32, 1, true, "normal"⟩ : Brick ℝ).rect).ny := by
  have h : clampDistSq (⟨480, 67, 0, 300, 8, 420, false, false⟩ : Ball ℝ).circle
      (⟨28, 72, 904, 32, 1, true, "normal"⟩ : Brick ℝ).rect ≠ 0 := by
    norm_num [clampDistSq, clamp, Ball.circle, Brick.rect]
  exact ⟨Or.inr h, ((collisionNormal_axis (Env.quiet Real.sqrt Real.sin Real.cos Real.pi)
    (⟨480, 67, 0, 300, 8, 420, false, false⟩ : Ball ℝ)
    (⟨28, 72, 904, 32, 1, true, "normal"⟩ : Brick ℝ)).1 (Or.inr h)).1⟩

/-- C15, counterexample: for a circle whose centre lies on the top edge of the rectangle
the normal is `(0, 0)`, not a unit vector. -/
theorem collisionNormal_zero_on_edge :
    (collisionNormal (Env.quiet Real.sqrt Real.sin Real.cos Real.pi)
      (⟨0, 0, 8⟩ : Circle ℝ) ⟨-10, 0, 20, 10⟩).nx = 0 ∧
    (collisionNormal (Env.quiet Real.sqrt Real.sin Real.cos Real.pi)
      (⟨0, 0, 8⟩ : Circle ℝ) ⟨-10, 0, 20, 10⟩).ny = 0 ∧
    ¬ AxisUnit
      (collisionNormal (Env.quiet Real.sqrt Real.sin Real.cos Real.pi)
        (⟨0, 0, 8⟩ : Circle ℝ) ⟨-10, 0, 20, 10⟩).nx
      (collisionNormal (Env.quiet Real.sqrt Real.sin Real.cos Real.pi)
        (⟨0, 0, 8⟩ : Circle ℝ) ⟨-10, 0, 20, 10⟩).ny := by
  have h := normal_zero (Env.quiet Real.sqrt Real.sin Real.cos Real.pi)
    (⟨0, 0, 8⟩ : Circle ℝ) ⟨-10, 0, 20, 10⟩ (by norm_num [strictlyInside])
    (by norm_num [clampDistSq, clamp])
  refine ⟨h.1, h.2, ?_⟩
  rw [h.1, h.2]
  unfold AxisUnit
  norm_num

end Normal

/-! ## The level model -/

section Levels

theorem brickOfChar_eq_spec (ch : Char) :
    ((brickOfChar ch).1, (brickOfChar ch).2, true) = specBrick ch := by
  unfold specBrick
  split_ifs with h1 h2 h3 h4 h5 h6 h7 h8 h9 hX
  all_goals first
    | (subst_vars; decide)
    | skip
  unfold brickOfChar
  have hnot : ¬ ('1' ≤ ch ∧ ch ≤ '9') := by
    rintro ⟨ha, hb⟩
    have ha' : 49 ≤ ch.toNat := ha
    have hb' : ch.toNat ≤ 57 := hb
    have e : ch = Char.ofNat ch.toNat := (Char.ofNat_toNat ch).symm
    generalize ch.toNat = n at ha' hb' e
    interval_cases n
    · exact h1 (e.trans (by decide))
    · exact h2 (e.trans (by decide))
    · exact h3 (e.trans (by decide))
    · exact h4 (e.trans (by decide))
    · exact h5 (e.trans (by decide))
    · exact h6 (e.trans (by decide))
    · exact h7 (e.trans (by decide))
    · exact h8 (e.trans (by decide))
    · exact h9 (e.trans (by decide))
  rw [if_neg hnot, if_neg hX]

theorem getD_replicate_zero (n c : Nat) : (List.replicate n '0').getD c '0' = '0' := by
  rw [List.getD_eq_getElem?_getD]
  by_cases h : c < n
  · simp [List.getElem?_replicate, h]
  · simp [List.getElem?_replicate, h]

theorem filterMap_map_eq {β γ δ : Type} (f : β → Option γ) (g : γ → δ) (p : β → Bool)
    (k : β → δ) (h : ∀ x, (f x).map g = if p x then some (k x) else none) (l : List β) :
    (l.filterMap f).map g = (l.filter p).map k := by
  induction l with
  | nil => rfl
  | cons x xs ih =>
    have hx := h x
    cases hf : f x with
    | none =>
      rw [hf] at hx
      have hp : p x = false := by
        by_contra hc
        simp only [Bool.not_eq_false] at hc
        rw [hc] at hx
        simp at hx
      simp [List.filterMap_cons, hf, hp, ih]
    | some y =>
      rw [hf] at hx
      have hp : p x = true := by
        by_contra hc
        simp only [Bool.not_eq_true] at hc
        rw [hc] at hx
        simp at hx
      rw [hp] at hx
      simp only [Option.map_some', if_true, Option.some.injEq] at hx
      simp [List.filterMap_cons, hf, hp, ih, hx]

end Levels

section LevelBricks

variable {α : Type} [LinearOrderedField α] [FloorRing α]

omit [FloorRing α] in
/-- C16.  For the current level `L`, `buildBricksFromGrid` makes exactly the bricks of
`specBricks L`: one brick per grid cell (`r < rows`, `c < cols`) whose character is not
`'0'`, in row-major order, none for a `'0'` cell or a missing cell; a digit `d` in `1..9`
gives kind `'normal'` with `d` hit-points, `'X'` kind `'steel'` with 9999, any other
character `ch` kind `ch` with one hit-point; every brick is alive. -/
theorem buildBricksFromGrid_spec (s : State α) (L : Level)
    (h : s.levels[s.levelIndex]? = some L) :
    (buildBricksFromGrid s).bricks.map (fun b => (b.hp, b.kind, b.alive)) = specBricks L := by
  unfold buildBricksFromGrid specBricks
  rw [h]
  simp only [List.map_flatten, List.map_map]
  congr 1
  apply List.map_congr_left
  intro r _
  simp only [Function.comp]
  apply filterMap_map_eq
  intro c
  have key : ∀ rowStr : List Char, rowStr.getD c '0' = cellAt L r c →
      Option.map (fun b : Brick α => (b.hp, b.kind, b.alive))
        (if rowStr.getD c '0' = '0' then none
         else some
          { x := ((((CONFIG.BASE_WIDTH - (L.cols * (max 12 ((CONFIG.BASE_WIDTH
                - CONFIG.BRICK.marginX * 2 - (L.cols - 1) * CONFIG.BRICK.gap) / max 1 L.cols))
                + (L.cols - 1) * CONFIG.BRICK.gap)) / 2 + (c : Int) * (max 12 ((CONFIG.BASE_WIDTH
                - CONFIG.BRICK.marginX * 2 - (L.cols - 1) * CONFIG.BRICK.gap) / max 1 L.cols)
                + CONFIG.BRICK.gap) : Int)) : α)
            y := (((CONFIG.BRICK.top + (r : Int) * (min ((CONFIG.BRICK.maxBrickArea
                - (L.rows - 1) * CONFIG.BRICK.gap) / max 1 L.rows) CONFIG.BRICK.maxH
                + CONFIG.BRICK.gap) : Int)) : α)
            w := (((max 12 ((CONFIG.BASE_WIDTH - CONFIG.BRICK.marginX * 2
                - (L.cols - 1) * CONFIG.BRICK.gap) / max 1 L.cols) : Int)) : α)
            h := (((min ((CONFIG.BRICK.maxBrickArea - (L.rows - 1) * CONFIG.BRICK.gap)
                / max 1 L.rows) CONFIG.BRICK.maxH : Int)) : α)
            hp := (brickOfChar (rowStr.getD c '0')).1
            alive := true
            kind := (brickOfChar (rowStr.getD c '0')).2 })
      = if (decide (cellAt L r c ≠ '0')) = true then some (specBrick (cellAt L r c)) else none := by
    intro rowStr hrow
    rw [hrow]
    by_cases h0 : cellAt L r c = '0'
    · simp [h0]
    · simp only [h0, if_false, Option.map_some', ne_eq, not_false_eq_true, decide_True,
        if_true, Option.some.injEq]
      exact brickOfChar_eq_spec _
  cases hg : L.grid[r]? with
  | none =>
    apply key
    unfold cellAt
    rw [List.getD_eq_getElem?_getD L.grid, hg, getD_replicate_zero]
    simp
  | some row =>
    apply key
    unfold cellAt
    rw [List.getD_eq_getElem?_getD L.grid, hg]
    simp only [Option.getD_some]
    split_ifs with he
    · rw [he, getD_replicate_zero]
      simp
    · rfl

end LevelBricks

section Normalize

/-- C16, witness: the level of `stuckState`. -/
theorem buildBricksFromGrid_spec_witness :
    (stuckState : State ℝ).levels[(stuckState : State ℝ).levelIndex]? = some twoBrickLevel ∧
    (buildBricksFromGrid (stuckState : State ℝ)).bricks.map (fun b => (b.hp, b.kind, b.alive))
      = specBricks twoBrickLevel :=
  ⟨rfl, buildBricksFromGrid_spec (stuckState : State ℝ) twoBrickLevel rfl⟩

theorem pushRows_eq (z : List Char) (n : Nat) (grid : List (List Char)) :
    pushRows z n grid = grid ++ List.replicate n z := by
  induction n generalizing grid with
  | zero => simp [pushRows]
  | succ n ih =>
    rw [pushRows, ih, List.append_assoc]
    congr 1

theorem sliceTo_padEndZero (r : List Char) (n : Int) (hn : 0 ≤ n) :
    sliceTo (padEndZero r n) n
      = r.take n.toNat ++ List.replicate (n.toNat - r.length) '0' := by
  unfold sliceTo padEndZero
  rw [if_neg (not_lt.mpr hn), List.take_append_eq_append_take]
  congr 1
  rw [List.take_replicate]
  congr 1
  omega

theorem length_sliceTo_padEndZero (r : List Char) (n : Int) (hn : 0 ≤ n) :
    (sliceTo (padEndZero r n) n).length = n.toNat := by
  rw [sliceTo_padEndZero r n hn]
  simp only [List.length_append, List.length_take, List.length_replicate]
  omega

/-- C17.  For a level descriptor whose column count (declared, or else the length of its
first row) is `≥ 0`, `normalizeLevels` accepts the descriptor, whatever the lengths of its
rows; the grid it returns has the rows of the descriptor followed by the rows missing up to
the declared row count; every row has exactly `cols` characters; a row of the descriptor
is cut to its first `cols` characters and padded with `'0'`, and an added row is all
`'0'`. -/
theorem normalizeLevel_grid (L : RawLevel) (hc : ∀ c, L.cols = some c → 0 ≤ c) :
    ∃ N, normalizeLevel L = some N ∧ normalizeLevels [L] = some [N] ∧ 0 ≤ N.cols ∧
      N.grid.length = max (L.grid.getD []).length N.rows.toNat ∧
      (∀ (i : Nat) (row : List Char), N.grid[i]? = some row → row.length = N.cols.toNat) ∧
      (∀ (i : Nat) (orig : List Char), (L.grid.getD [])[i]? = some orig →
        N.grid[i]? = some (orig.take N.cols.toNat
          ++ List.replicate (N.cols.toNat - orig.length) '0')) ∧
      (∀ i : Nat, (L.grid.getD []).length ≤ i → i < N.grid.length →
        N.grid[i]? = some (List.replicate N.cols.toNat '0')) := by
  generalize hg : L.grid.getD [] = grid
  have hnorm : ∀ rows cols : Int, 0 ≤ cols →
      ∀ filled : List (List Char),
        filled = grid ++ List.replicate (rows.toNat - grid.length) (List.replicate cols.toNat '0') →
      ∀ N : Level, N.rows = rows → N.cols = cols →
        N.grid = filled.map (fun r => sliceTo (padEndZero r cols) cols) →
      0 ≤ N.cols ∧ N.grid.length = max grid.length N.rows.toNat ∧
      (∀ (i : Nat) (row : List Char), N.grid[i]? = some row → row.length = N.cols.toNat) ∧
      (∀ (i : Nat) (orig : List Char), grid[i]? = some orig →
        N.grid[i]? = some (orig.take N.cols.toNat
          ++ List.replicate (N.cols.toNat - orig.length) '0')) ∧
      (∀ i : Nat, grid.length ≤ i → i < N.grid.length →
        N.grid[i]? = some (List.replicate N.cols.toNat '0')) := by
    intro rows cols hcols filled hf N hr hcl hgr
    rw [hr, hcl, hgr]
    refine ⟨hcols, ?_, ?_, ?_, ?_⟩
    · rw [List.length_map, hf, List.length_append, List.length_replicate]
      omega
    · intro i row hi
      rw [List.getElem?_map] at hi
      simp only [Option.map_eq_some'] at hi
      obtain ⟨r0, _, rfl⟩ := hi
      exact length_sliceTo_padEndZero r0 cols hcols
    · intro i orig hi
      rw [List.getElem?_map, hf, List.getElem?_append_left (List.getElem?_eq_some.mp hi).1, hi]
      simp only [Option.map_some']
      rw [sliceTo_padEndZero orig cols hcols]
    · intro i h1 h2
      rw [List.length_map, hf, List.length_append, List.length_replicate] at h2
      rw [List.getElem?_map, hf, List.getElem?_append_right h1, List.getElem?_replicate,
        if_pos (by omega)]
      simp only [Option.map_some']
      rw [sliceTo_padEndZero _ cols hcols]
      simp
  have hcols : 0 ≤ L.cols.getD ((grid[0]?.map (fun r => (r.length : Int))).getD 0) := by
    cases hL : L.cols with
    | some c => exact hc c hL
    | none =>
      simp only [Option.getD_none]
      cases grid[0]? with
      | none => exact le_refl _
      | some r => exact Int.natCast_nonneg _
  have hsome : ∃ N, normalizeLevel L = some N ∧ 0 ≤ N.cols ∧
      N.grid.length = max grid.length N.rows.toNat ∧
      (∀ (i : Nat) (row : List Char), N.grid[i]? = some row → row.length = N.cols.toNat) ∧
      (∀ (i : Nat) (orig : List Char), grid[i]? = some orig →
        N.grid[i]? = some (orig.take N.cols.toNat
          ++ List.replicate (N.cols.toNat - orig.length) '0')) ∧
      (∀ i : Nat, grid.length ≤ i → i < N.grid.length →
        N.grid[i]? = some (List.replicate N.cols.toNat '0')) := by
    unfold normalizeLevel
    simp only [hg]
    generalize L.cols.getD ((grid[0]?.map (fun r => (r.length : Int))).getD 0) = cols at hcols ⊢
    generalize L.rows.getD (grid.length : Int) = rows
    by_cases hlt : (grid.length : Int) < rows
    · rw [if_pos hlt]
      unfold repeatZero
      rw [if_neg (not_lt.mpr hcols)]
      simp only [Option.map_some']
      refine ⟨_, rfl, hnorm rows cols hcols _ ?_ _ rfl rfl rfl⟩
      rw [pushRows_eq]
      congr 2
      omega
    · rw [if_neg hlt]
      simp only [Option.map_some']
      refine ⟨_, rfl, hnorm rows cols hcols _ ?_ _ rfl rfl rfl⟩
      have : rows.toNat - grid.length = 0 := by omega
      rw [this]
      simp
  obtain ⟨N, hN, rest⟩ := hsome
  refine ⟨N, hN, ?_, rest⟩
  simp [normalizeLevels, hN]

end Normalize

section Loading

/-- C17, witness: `raggedLevel`, whose rows have 2 and 5 characters for 4 columns. -/
theorem normalizeLevel_grid_witness :
    (∀ c, raggedLevel.cols = some c → 0 ≤ c) ∧
    ∃ N, normalizeLevels [raggedLevel] = some [N] ∧ N.grid.length = 3 ∧
      ∀ (i : Nat) (row : List Char), N.grid[i]? = some row → row.length = N.cols.toNat := by
  have hc : ∀ c, raggedLevel.cols = some c → 0 ≤ c := by
    intro c h
    simp only [raggedLevel, Option.some.injEq] at h
    omega
  obtain ⟨N, h1, h2, _, h4, h5, _⟩ := normalizeLevel_grid raggedLevel hc
  refine ⟨hc, N, h2, ?_, h5⟩
  have hr : N.rows = 3 := by
    simp only [normalizeLevel, raggedLevel, Option.getD_some, Option.map_eq_some'] at h1
    obtain ⟨_, _, rfl⟩ := h1
    rfl
  rw [h4, hr]
  rfl

theorem normalizeLevels_length (ls : List RawLevel) (r : List Level)
    (h : normalizeLevels ls = some r) : r.length = ls.length := by
  induction ls generalizing r with
  | nil =>
    simp only [normalizeLevels, Option.some.injEq] at h
    rw [← h]
    rfl
  | cons L rest ih =>
    unfold normalizeLevels at h
    split at h
    · cases h
    · simp only [Option.map_eq_some'] at h
      obtain ⟨Ns, hNs, rfl⟩ := h
      simp [ih Ns hNs]

theorem final_fallback :
    ∃ N, normalizeLevels [fallbackLevel] = some [N] ∧ N.name = "Fallback" ∧ N.rows = 6
      ∧ N.cols = 12 := by
  obtain ⟨N, h1, h2, _⟩ := normalizeLevel_grid fallbackLevel (by
    intro c h
    simp only [fallbackLevel, Option.some.injEq] at h
    omega)
  refine ⟨N, h2, ?_⟩
  simp only [normalizeLevel, fallbackLevel, Option.getD_some, Option.map_eq_some'] at h1
  obtain ⟨_, _, rfl⟩ := h1
  refine ⟨?_, rfl, rfl⟩
  show (if ("Fallback" : String) = "" then "Level" else "Fallback") = "Fallback"
  rw [if_neg (by decide)]

/-- C13, amended.  When the fetch fails and the inline fallback is absent or does not
parse, `loadLevels` leaves exactly the one built-in level; in every case it leaves at least
one level unless the fetched document or the inline document has an empty or missing
`levels` list; and a fetched document whose `levels` list is empty or missing leaves
`state.levels` empty. -/
theorem loadLevels_spec (fetched : Option LevelDoc) (inline : Option (Option LevelDoc)) :
    (fetched = none → inline = none ∨ inline = some none →
      (loadLevels fetched inline).length = 1) ∧
    (loadLevels fetched inline ≠ [] ∨
      ∃ d, (fetched = some d ∨ inline = some (some d)) ∧ d.levels.getD [] = []) ∧
    (∀ d, fetched = some d → d.levels.getD [] = [] → loadLevels fetched inline = []) := by
  obtain ⟨F, hF, _⟩ := final_fallback
  have hfin : ((normalizeLevels [fallbackLevel]).getD []).length = 1 := by
    rw [hF]
    rfl
  have hne : ∀ l : List Level, l.length = 1 → l ≠ [] := by
    intro l h h0
    rw [h0] at h
    cases h
  have hdoc : ∀ (d : LevelDoc) (r : List Level), normalizeLevels (d.levels.getD []) = some r →
      r ≠ [] ∨ d.levels.getD [] = [] := by
    intro d r hr
    have := normalizeLevels_length _ _ hr
    by_cases h0 : d.levels.getD [] = []
    · exact Or.inr h0
    · left
      intro hr0
      rw [hr0] at this
      exact h0 (List.length_eq_zero.mp this.symm)
  refine ⟨?_, ?_, ?_⟩
  · intro hf hi
    subst hf
    rcases hi with rfl | rfl
    · exact hfin
    · exact hfin
  · unfold loadLevels
    simp only []
    cases fetched with
    | some d =>
      simp only [Option.some_bind]
      cases hn : normalizeLevels (d.levels.getD []) with
      | some r =>
        simp only []
        rcases hdoc d r hn with h | h
        · exact Or.inl h
        · exact Or.inr ⟨d, Or.inl rfl, h⟩
      | none =>
        simp only []
        rcases inline with _ | _ | d2
        · exact Or.inl (hne _ hfin)
        · exact Or.inl (hne _ hfin)
        · simp only []
          cases hn2 : normalizeLevels (d2.levels.getD []) with
          | some r2 =>
            simp only []
            rcases hdoc d2 r2 hn2 with h | h
            · exact Or.inl h
            · exact Or.inr ⟨d2, Or.inr rfl, h⟩
          | none => exact Or.inl (hne _ hfin)
    | none =>
      simp only [Option.none_bind]
      rcases inline with _ | _ | d2
      · exact Or.inl (hne _ hfin)
      · exact Or.inl (hne _ hfin)
      · simp only []
        cases hn2 : normalizeLevels (d2.levels.getD []) with
        | some r2 =>
          simp only []
          rcases hdoc d2 r2 hn2 with h | h
          · exact Or.inl h
          · exact Or.inr ⟨d2, Or.inr rfl, h⟩
        | none => exact Or.inl (hne _ hfin)
  · intro d hf h0
    subst hf
    unfold loadLevels
    simp only [Option.some_bind, h0, normalizeLevels]

/-- C13, witness: the fetch fails and there is no inline element. -/
theorem loadLevels_spec_witness :
    (none : Option LevelDoc) = none ∧
    ((none : Option (Option LevelDoc)) = none ∨ (none : Option (Option LevelDoc)) = some none) ∧
    (loadLevels none none).length = 1 :=
  ⟨rfl, Or.inl rfl, (loadLevels_spec none none).1 rfl (Or.inl rfl)⟩

/-- C13, counterexample: a fetch that succeeds with a document whose `levels` list is
empty, or missing, leaves no level, and so does a failed fetch followed by such an inline
document. -/
theorem loadLevels_empty :
    loadLevels (some ⟨some []⟩) none = [] ∧ loadLevels (some ⟨none⟩) none = [] ∧
    loadLevels none (some (some ⟨some []⟩)) = [] ∧
    ¬ 1 ≤ (loadLevels (some ⟨some []⟩) none).length := by
  refine ⟨rfl, rfl, rfl, ?_⟩
  have : loadLevels (some ⟨some []⟩) none = [] := rfl
  rw [this]
  simp

end Loading

/-! ## The bounce at the centre and at the ends of the paddle -/

section BounceEnds

variable {α : Type} [LinearOrderedField α]

theorem paddleBounce_fields (E : Env α) (p : Paddle α) (b : Ball α) :
    (paddleBounce E p b).vx
      = E.sin (bounceRel p b * (E.pi / (26 / 10))) * (paddleBounce E p b).speed ∧
    (paddleBounce E p b).vy
      = -|E.cos (bounceRel p b * (E.pi / (26 / 10))) * (paddleBounce E p b).speed| ∧
    (420 : α) ≤ (paddleBounce E p b).speed :=
  ⟨rfl, rfl, clamp_ge _ _ _⟩

/-- C18.  In a paddle bounce (paddle width `w > 0`; `sin 0 = 0`, `cos 0 = 1`, `sin` odd,
`cos` even, and both non-negative at `pi / 2.6`), a ball whose centre `x` is the paddle
centre leaves with `vx = 0` and `vy = -speed`, and a ball whose centre `x` is the paddle's
left end `paddle.x` or right end `paddle.x + paddle.w` leaves at the angle `pi / 2.6` from
the vertical: `|vx| = speed * sin (pi / 2.6)` (to the left, to the right) and
`vy = -speed * cos (pi / 2.6)`. -/
theorem paddleBounce_centre_ends (E : Env α) (hB : E.BounceLaw) (p : Paddle α) (b : Ball α)
    (hw : 0 < p.w) :
    (b.x = p.x + p.w / 2 →
      (paddleBounce E p b).vx = 0 ∧ (paddleBounce E p b).vy = -(paddleBounce E p b).speed) ∧
    (b.x = p.x →
      (paddleBounce E p b).vx = -((paddleBounce E p b).speed * E.sin (E.pi / (26 / 10))) ∧
      |(paddleBounce E p b).vx| = (paddleBounce E p b).speed * E.sin (E.pi / (26 / 10)) ∧
      (paddleBounce E p b).vy = -((paddleBounce E p b).speed * E.cos (E.pi / (26 / 10)))) ∧
    (b.x = p.x + p.w →
      (paddleBounce E p b).vx = (paddleBounce E p b).speed * E.sin (E.pi / (26 / 10)) ∧
      |(paddleBounce E p b).vx| = (paddleBounce E p b).speed * E.sin (E.pi / (26 / 10)) ∧
      (paddleBounce E p b).vy = -((paddleBounce E p b).speed * E.cos (E.pi / (26 / 10)))) := by
  obtain ⟨hs0, hc0, hodd, heven, hsn, hcn⟩ := hB
  obtain ⟨hvx, hvy, hsp⟩ := paddleBounce_fields E p b
  have hpos : (0 : α) ≤ (paddleBounce E p b).speed := le_trans (by norm_num) hsp
  have hw2 : p.w / 2 ≠ 0 := by
    have : 0 < p.w / 2 := by linarith
    exact this.ne'
  rw [hvx, hvy]
  generalize (paddleBounce E p b).speed = sp at hpos
  refine ⟨fun h => ?_, fun h => ?_, fun h => ?_⟩
  · have hrel : bounceRel p b = 0 := by
      unfold bounceRel
      rw [h, sub_self, zero_div]
    rw [hrel, zero_mul, hs0, hc0, zero_mul, one_mul, abs_of_nonneg hpos]
    exact ⟨rfl, rfl⟩
  · have hrel : bounceRel p b = -1 := by
      unfold bounceRel
      rw [div_eq_iff hw2, h]
      ring
    rw [hrel, neg_one_mul, hodd, heven, abs_of_nonneg (mul_nonneg hcn hpos)]
    refine ⟨by ring, ?_, by ring⟩
    rw [neg_mul, abs_neg, abs_of_nonneg (mul_nonneg hsn hpos)]
    ring
  · have hrel : bounceRel p b = 1 := by
      unfold bounceRel
      rw [div_eq_iff hw2]
      rw [h]
      ring
    rw [hrel, one_mul, abs_of_nonneg (mul_nonneg hcn hpos)]
    refine ⟨by ring, ?_, by ring⟩
    rw [abs_of_nonneg (mul_nonneg hsn hpos)]
    ring

theorem realEnv_bounceLaw : Env.BounceLaw (Env.quiet Real.sqrt Real.sin Real.cos Real.pi) := by
  have h1 : (0 : ℝ) ≤ Real.pi / (26 / 10) := div_nonneg Real.pi_pos.le (by norm_num)
  have h2 : Real.pi / (26 / 10) ≤ Real.pi / 2 := by
    have := Real.pi_pos
    rw [div_le_div_iff₀ (by norm_num) (by norm_num)]
    nlinarith
  have h3 : Real.pi / (26 / 10) ≤ Real.pi := by linarith [Real.pi_pos]
  have h4 : -(Real.pi / 2) ≤ Real.pi / (26 / 10) := by linarith [Real.pi_pos]
  refine ⟨Real.sin_zero, Real.cos_zero, Real.sin_neg, Real.cos_neg, ?_, ?_⟩
  · exact Real.sin_nonneg_of_nonneg_of_le_pi h1 h3
  · exact Real.cos_nonneg_of_neg_pi_div_two_le_of_le h4 h2

/-- C18, witness: a ball over the centre of the paddle. -/
theorem paddleBounce_centre_ends_witness :
    Env.BounceLaw (Env.quiet Real.sqrt Real.sin Real.cos Real.pi) ∧
    (0 : ℝ) < (⟨420, 482, 120, 16, 0⟩ : Paddle ℝ).w ∧
    (⟨480, 480, 3, 4, 8, 420, false, false⟩ : Ball ℝ).x
      = (⟨420, 482, 120, 16, 0⟩ : Paddle ℝ).x + (⟨420, 482, 120, 16, 0⟩ : Paddle ℝ).w / 2 ∧
    (paddleBounce (Env.quiet Real.sqrt Real.sin Real.cos Real.pi) ⟨420, 482, 120, 16, 0⟩
      ⟨480, 480, 3, 4, 8, 420, false, false⟩).vx = 0 :=
  have hx : (⟨480, 480, 3, 4, 8, 420, false, false⟩ : Ball ℝ).x
      = (⟨420, 482, 120, 16, 0⟩ : Paddle ℝ).x + (⟨420, 482, 120, 16, 0⟩ : Paddle ℝ).w / 2 := by
    norm_num
  ⟨realEnv_bounceLaw, by norm_num, hx,
    ((paddleBounce_centre_ends _ realEnv_bounceLaw ⟨420, 482, 120, 16, 0⟩
      ⟨480, 480, 3, 4, 8, 420, false, false⟩ (by norm_num)).1 hx).1⟩

end BounceEnds

/-! ## The timers -/

section TimersExpiry

variable {α : Type} [LinearOrderedField α]

/-- C21, amended.  At the start of an `update` step with clock reading `now`, each of the
three timers that is active (non-zero) with expiry strictly before `now` is cleared to 0,
and when the widen or the shrink timer is cleared the paddle width is reset to its base
width (`CONFIG.PADDLE.w`, times 1.6 in portrait mode); a timer that is zero or whose expiry
is `now` or later, and the width when neither the widen nor the shrink timer is cleared,
are left as they are. -/
theorem expireTimers_spec (now : α) (s : State α) :
    ((expireTimers now s).timers.widenEnd =
      if s.timers.widenEnd ≠ 0 ∧ s.timers.widenEnd < now then 0 else s.timers.widenEnd) ∧
    ((expireTimers now s).timers.shrinkEnd =
      if s.timers.shrinkEnd ≠ 0 ∧ s.timers.shrinkEnd < now then 0 else s.timers.shrinkEnd) ∧
    ((expireTimers now s).timers.laserEnd =
      if s.timers.laserEnd ≠ 0 ∧ s.timers.laserEnd < now then 0 else s.timers.laserEnd) ∧
    ((expireTimers now s).paddle.w =
      if (s.timers.widenEnd ≠ 0 ∧ s.timers.widenEnd < now)
          ∨ (s.timers.shrinkEnd ≠ 0 ∧ s.timers.shrinkEnd < now) then
        s.cfgPaddleW * (if s.portraitMode then CONFIG.MOBILE.portraitPaddleScale else 1)
      else s.paddle.w) := by
  unfold expireTimers
  simp only [gt_iff_lt]
  by_cases h1 : s.timers.widenEnd ≠ 0 ∧ s.timers.widenEnd < now <;>
  by_cases h2 : s.timers.shrinkEnd ≠ 0 ∧ s.timers.shrinkEnd < now <;>
  by_cases h3 : s.timers.laserEnd ≠ 0 ∧ s.timers.laserEnd < now <;>
  simp [h1, h2, h3]

/-- C21, counterexample: with the three timers at 5 and the clock reading exactly 5,
nothing is cleared and the widened paddle keeps its width 192. -/
theorem timers_kept_at_expiry :
    (timedState : State ℚ).timers.widenEnd ≠ 0 ∧ (timedState : State ℚ).timers.widenEnd ≤ 5 ∧
    (expireTimers 5 (timedState : State ℚ)).timers.widenEnd = 5 ∧
    (expireTimers 5 (timedState : State ℚ)).timers.shrinkEnd = 5 ∧
    (expireTimers 5 (timedState : State ℚ)).timers.laserEnd = 5 ∧
    (expireTimers 5 (timedState : State ℚ)).paddle.w = 192 ∧
    (timedState : State ℚ).cfgPaddleW = 120 := by
  norm_num [expireTimers, timedState, stuckState]

end TimersExpiry

/-! ## Power-up drops and multi-ball -/

section Spawning

variable {α : Type} [LinearOrderedField α] [FloorRing α]

omit [FloorRing α] in
theorem spawnPowerup_spec (s : State α) (t : String) (cx cy : α) :
    ∃ p, (spawnPowerup s t cx cy).powerups = s.powerups ++ [p] ∧ p.type = t ∧ p.w = 28 ∧
      p.h = 28 ∧ p.x + p.w / 2 = cx ∧ p.y + p.h / 2 = cy := by
  refine ⟨_, rfl, rfl, rfl, rfl, ?_, ?_⟩
  · simp
  · simp

/-- C24.  For a brick whose kind is one of `'M'`, `'W'`, `'S'`, `'L'`,
`maybeSpawnPowerupFromBrick` appends exactly one pickup to `state.powerups`, of the brick's
kind, 28 by 28 and centred on the centre of the brick, drawing no random number; for a
brick of any other kind it appends one pickup (28 by 28, centred on the brick) if the first
random draw is below 0.22 and nothing otherwise. -/
theorem maybeSpawnPowerupFromBrick_spec (E : Env α) (s : State α) (b : Brick α) :
    (b.kind ∈ ["M", "W", "S", "L"] →
      (maybeSpawnPowerupFromBrick E s b).rnd = s.rnd ∧
      ∃ p, (maybeSpawnPowerupFromBrick E s b).powerups = s.powerups ++ [p] ∧
        p.type = b.kind ∧ p.w = 28 ∧ p.h = 28 ∧
        p.x + p.w / 2 = b.x + b.w / 2 ∧ p.y + p.h / 2 = b.y + b.h / 2) ∧
    (b.kind ∉ ["M", "W", "S", "L"] →
      (E.random s.rnd < 22 / 100 →
        ∃ p, (maybeSpawnPowerupFromBrick E s b).powerups = s.powerups ++ [p] ∧
          p.w = 28 ∧ p.h = 28 ∧
          p.x + p.w / 2 = b.x + b.w / 2 ∧ p.y + p.h / 2 = b.y + b.h / 2) ∧
      (¬ E.random s.rnd < 22 / 100 →
        (maybeSpawnPowerupFromBrick E s b).powerups = s.powerups)) := by
  refine ⟨fun h => ?_, fun h => ⟨fun hu => ?_, fun hu => ?_⟩⟩
  · unfold maybeSpawnPowerupFromBrick
    simp only []
    rw [if_pos h]
    exact ⟨rfl, spawnPowerup_spec s b.kind _ _⟩
  · unfold maybeSpawnPowerupFromBrick
    simp only []
    rw [if_neg h, if_pos (by unfold CONFIG.POWERUP.chance; exact hu)]
    obtain ⟨p, h1, _, h3, h4, h5, h6⟩ := spawnPowerup_spec
      ({ s with rnd := s.rnd + 1 + 1 } : State α)
      (if 0 ≤ (⌊E.random (s.rnd + 1) * ((["M", "W", "S", "L"].length : Nat) : α)⌋ : Int) then
        ["M", "W", "S", "L"].getD
          (⌊E.random (s.rnd + 1) * ((["M", "W", "S", "L"].length : Nat) : α)⌋ : Int).toNat ""
        else "") (b.x + b.w / 2) (b.y + b.h / 2)
    exact ⟨p, h1, h3, h4, h5, h6⟩
  · unfold maybeSpawnPowerupFromBrick
    simp only []
    rw [if_neg h, if_neg (by unfold CONFIG.POWERUP.chance; exact hu)]

/-- C24, witness: a brick of kind `'W'`. -/
theorem maybeSpawnPowerupFromBrick_spec_witness :
    (⟨28, 72, 448, 32, 0, false, "W"⟩ : Brick ℝ).kind ∈ ["M", "W", "S", "L"] ∧
    ∃ p, (maybeSpawnPowerupFromBrick (Env.quiet Real.sqrt Real.sin Real.cos Real.pi)
        (stuckState : State ℝ) ⟨28, 72, 448, 32, 0, false, "W"⟩).powerups
          = (stuckState : State ℝ).powerups ++ [p] ∧
      p.type = "W" ∧ p.w = 28 ∧ p.h = 28 :=
  have h : (⟨28, 72, 448, 32, 0, false, "W"⟩ : Brick ℝ).kind ∈ ["M", "W", "S", "L"] := by
    decide
  ⟨h, ((maybeSpawnPowerupFromBrick_spec (Env.quiet Real.sqrt Real.sin Real.cos Real.pi)
    (stuckState : State ℝ) ⟨28, 72, 448, 32, 0, false, "W"⟩).1 h).2.elim
      fun p hp => ⟨p, hp.1, hp.2.1, hp.2.2.1, hp.2.2.2.1⟩⟩

end Spawning

section MultiBall

variable {α : Type} [LinearOrderedField α]

theorem rand_range (E : Env α) (k : Nat) (lo hi : α) (h0 : 0 ≤ E.random k)
    (h1 : E.random k < 1) (hlh : lo < hi) : lo ≤ rand E k lo hi ∧ rand E k lo hi < hi := by
  unfold rand
  have hd : 0 < hi - lo := sub_pos.mpr hlh
  constructor
  · nlinarith [mul_nonneg h0 hd.le]
  · nlinarith [mul_lt_mul_of_pos_right h1 hd]

theorem spawnClone_fields (E : Env α) (base : Ball α) (k : Nat) :
    (spawnClone E base k).1.speed
      = base.speed * (1 + rand E (k + 1) (-(6 / 100)) (8 / 100)) ∧
    (spawnClone E base k).1.vy
      = -|E.cos (rand E k (-(6 / 10)) (6 / 10)) * (spawnClone E base k).1.speed| ∧
    (spawnClone E base k).1.vx
      = E.sin (rand E k (-(6 / 10)) (6 / 10)) * (spawnClone E base k).1.speed
        * (if jsSign base.vx = 0 then (if E.random (k + 2) < 1 / 2 then -1 else 1)
           else jsSign base.vx) ∧
    (spawnClone E base k).1.r = base.r ∧ (spawnClone E base k).1.stuck = false ∧
    (spawnClone E base k).1.dead = false :=
  ⟨rfl, rfl, rfl, rfl, rfl, rfl⟩

/-- The launch of a clone, given the laws of the random numbers and of the cosine. -/
theorem spawnClone_launch (E : Env α) (hL : E.SpawnLaw) (base : Ball α) (k : Nat)
    (hs : 0 < base.speed) :
    (spawnClone E base k).1.vy < 0 ∧
    94 / 100 * base.speed ≤ (spawnClone E base k).1.speed ∧
    (spawnClone E base k).1.speed ≤ 108 / 100 * base.speed := by
  obtain ⟨hr, _, _, hcos⟩ := hL
  obtain ⟨h1, h2, _⟩ := spawnClone_fields E base k
  obtain ⟨a1, a2⟩ := rand_range E k (-(6 / 10)) (6 / 10) (hr k).1 (hr k).2 (by norm_num)
  obtain ⟨b1, b2⟩ := rand_range E (k + 1) (-(6 / 100)) (8 / 100) (hr (k + 1)).1 (hr (k + 1)).2
    (by norm_num)
  have hsp1 : 94 / 100 * base.speed ≤ (spawnClone E base k).1.speed := by
    rw [h1]
    nlinarith
  have hsp2 : (spawnClone E base k).1.speed ≤ 108 / 100 * base.speed := by
    rw [h1]
    nlinarith
  refine ⟨?_, hsp1, hsp2⟩
  rw [h2, neg_lt_zero, abs_pos]
  have hc := hcos _ a1 a2.le
  have hp : 0 < (spawnClone E base k).1.speed := by linarith
  exact (mul_pos hc hp).ne'

theorem multiBallSpawn_one (E : Env α) (s : State α) (b0 : Ball α) (h : s.balls = [b0]) :
    multiBallSpawn E s 2 = some
      { s with
        balls := [{ b0 with stuck := false }, (spawnClone E b0 s.rnd).1,
          (spawnClone E b0 (spawnClone E b0 s.rnd).2).1]
        rnd := (spawnClone E b0 (spawnClone E b0 s.rnd).2).2 } := by
  unfold multiBallSpawn
  rw [h]
  simp only [cloneLoop, List.length_singleton, Nat.mod_one, List.getElem?_cons_zero,
    Option.map_some', List.map_cons, List.map_nil, List.singleton_append, Option.some.injEq]
  cases hb : b0.stuck
  · simp only [Bool.false_eq_true, if_false]
    congr 2
    cases b0
    simp only at hb
    rw [hb]
  · simp only [if_true]

/-- C12, amended.  For a state that holds exactly one ball, of speed `> 0` (moving in
any direction, stuck or free), and for every outcome of the random draws, `multiBallSpawn(2)`
leaves exactly 3 balls: the existing ball, released but otherwise unchanged (its velocity
included), then two new balls, each with `vy < 0` and with its speed within
`[0.94, 1.08]` times the speed of the existing ball. -/
theorem multiBallSpawn_two (E : Env α) (hL : E.SpawnLaw) (s : State α) (b0 : Ball α)
    (h : s.balls = [b0]) (hs : 0 < b0.speed) :
    ∃ s' c1 c2, multiBallSpawn E s 2 = some s' ∧ s'.balls.length = 3 ∧
      s'.balls = [{ b0 with stuck := false }, c1, c2] ∧
      c1.vy < 0 ∧ c2.vy < 0 ∧
      94 / 100 * b0.speed ≤ c1.speed ∧ c1.speed ≤ 108 / 100 * b0.speed ∧
      94 / 100 * b0.speed ≤ c2.speed ∧ c2.speed ≤ 108 / 100 * b0.speed := by
  obtain ⟨a1, a2, a3⟩ := spawnClone_launch E hL b0 s.rnd hs
  obtain ⟨b1, b2, b3⟩ := spawnClone_launch E hL b0 (spawnClone E b0 s.rnd).2 hs
  exact ⟨_, _, _, multiBallSpawn_one E s b0 h, rfl, rfl, a1, b1, a2, a3, b2, b3⟩

/-- C23, amended.  For a ball created by `multiBallSpawn` from a template of speed `> 0`
and non-zero horizontal velocity, the launch angle drawn lies in `[-0.6, 0.6)` and the new
horizontal velocity is `sin(angle) * speed * sign(template vx)`: it has the sign of the
template's horizontal velocity when the angle is positive, the opposite sign when the
angle is negative, and is zero when the angle is zero. -/
theorem spawnClone_vx_sign (E : Env α) (hL : E.SpawnLaw) (base : Ball α) (k : Nat)
    (hs : 0 < base.speed) (hv : base.vx ≠ 0) :
    -(6 / 10) ≤ rand E k (-(6 / 10)) (6 / 10) ∧ rand E k (-(6 / 10)) (6 / 10) < 6 / 10 ∧
    (spawnClone E base k).1.vx = E.sin (rand E k (-(6 / 10)) (6 / 10))
      * (spawnClone E base k).1.speed * jsSign base.vx ∧
    (0 < rand E k (-(6 / 10)) (6 / 10) → 0 < (spawnClone E base k).1.vx * base.vx) ∧
    (rand E k (-(6 / 10)) (6 / 10) < 0 → (spawnClone E base k).1.vx * base.vx < 0) ∧
    (rand E k (-(6 / 10)) (6 / 10) = 0 → (spawnClone E base k).1.vx = 0) := by
  obtain ⟨_, hsp, _⟩ := spawnClone_launch E hL base k hs
  obtain ⟨hr, hodd, hsin, _⟩ := hL
  obtain ⟨_, _, hvx, _⟩ := spawnClone_fields E base k
  obtain ⟨a1, a2⟩ := rand_range E k (-(6 / 10)) (6 / 10) (hr k).1 (hr k).2 (by norm_num)
  have hsg : jsSign base.vx ≠ 0 := by
    rcases jsSign_unit base.vx hv with h | h <;> rw [h] <;> norm_num
  have hdir : 0 < jsSign base.vx * base.vx := by
    unfold jsSign
    rcases lt_or_gt_of_ne hv with h | h
    · rw [if_neg (not_lt.mpr h.le), if_pos h]
      linarith
    · rw [if_pos h]
      linarith
  rw [if_neg hsg] at hvx
  have hp : 0 < (spawnClone E base k).1.speed := by linarith
  generalize (spawnClone E base k).1.speed = sp at hvx hp
  generalize rand E k (-(6 / 10)) (6 / 10) = a at a1 a2 hvx
  have hprod : (spawnClone E base k).1.vx * base.vx
      = E.sin a * (sp * (jsSign base.vx * base.vx)) := by
    rw [hvx]
    ring
  have hpd : 0 < sp * (jsSign base.vx * base.vx) := mul_pos hp hdir
  refine ⟨a1, a2, hvx, fun h => ?_, fun h => ?_, fun h => ?_⟩
  · rw [hprod]
    exact mul_pos (hsin a h a2.le) hpd
  · rw [hprod]
    have h1 : 0 < E.sin (-a) := hsin (-a) (by linarith) (by linarith)
    rw [hodd] at h1
    have h2 : E.sin a < 0 := by linarith
    exact mul_neg_of_neg_of_pos h2 hpd
  · have h0 : E.sin 0 = 0 := by
      have := hodd 0
      rw [neg_zero] at this
      linarith
    rw [hvx, h, h0]
    ring

theorem realEnv_spawnLaw : Env.SpawnLaw (Env.quiet Real.sqrt Real.sin Real.cos Real.pi) := by
  have hpi := Real.pi_gt_three
  refine ⟨fun k => ⟨le_refl _, by norm_num [Env.quiet]⟩, Real.sin_neg, ?_, ?_⟩
  · intro a h1 h2
    exact Real.sin_pos_of_pos_of_lt_pi h1 (by linarith)
  · intro a h1 h2
    exact Real.cos_pos_of_mem_Ioo ⟨by linarith, by linarith⟩

end MultiBall

section MultiBallSamples

/-- C12, witness: the one ball of `fallingState`. -/
theorem multiBallSpawn_two_witness :
    Env.SpawnLaw (Env.quiet Real.sqrt Real.sin Real.cos Real.pi) ∧
    (fallingState : State ℝ).balls = [⟨250, 300, 120, 300, 8, 420, false, false⟩] ∧
    (0 : ℝ) < (⟨250, 300, 120, 300, 8, 420, false, false⟩ : Ball ℝ).speed ∧
    ∃ s' c1 c2, multiBallSpawn (Env.quiet Real.sqrt Real.sin Real.cos Real.pi)
        (fallingState : State ℝ) 2 = some s' ∧ s'.balls.length = 3 ∧
      s'.balls = [{ (⟨250, 300, 120, 300, 8, 420, false, false⟩ : Ball ℝ) with stuck := false },
        c1, c2] ∧ c1.vy < 0 ∧ c2.vy < 0 :=
  ⟨realEnv_spawnLaw, rfl, by norm_num,
    (multiBallSpawn_two (Env.quiet Real.sqrt Real.sin Real.cos Real.pi) realEnv_spawnLaw
      (fallingState : State ℝ) ⟨250, 300, 120, 300, 8, 420, false, false⟩ rfl
      (by norm_num)).elim fun s' h1 => h1.elim fun c1 h2 => h2.elim fun c2 h3 =>
        ⟨s', c1, c2, h3.1, h3.2.1, h3.2.2.1, h3.2.2.2.1, h3.2.2.2.2.1⟩⟩

/-- C12, counterexample: the one ball of `fallingState` moves down (`vy = 300`); after
`multiBallSpawn(2)` there are 3 balls and the first of them still has `vy = 300`. -/
theorem multiBallSpawn_keeps_falling_ball :
    (fallingState : State ℝ).balls.length = 1 ∧
    ∃ s', multiBallSpawn (Env.quiet Real.sqrt Real.sin Real.cos Real.pi)
        (fallingState : State ℝ) 2 = some s' ∧ s'.balls.length = 3 ∧
      ¬ (∀ b ∈ s'.balls, b.vy < 0) := by
  refine ⟨rfl, _, multiBallSpawn_one (Env.quiet Real.sqrt Real.sin Real.cos Real.pi)
    (fallingState : State ℝ) ⟨250, 300, 120, 300, 8, 420, false, false⟩ rfl, rfl, ?_⟩
  intro h
  have := h { (⟨250, 300, 120, 300, 8, 420, false, false⟩ : Ball ℝ) with stuck := false }
    (List.mem_cons_self _ _)
  norm_num at this

/-- C23, witness: a clone of the ball of `fallingState`, which moves to the right. -/
theorem spawnClone_vx_sign_witness :
    Env.SpawnLaw (Env.quiet Real.sqrt Real.sin Real.cos Real.pi) ∧
    (0 : ℝ) < (⟨250, 300, 120, 300, 8, 420, false, false⟩ : Ball ℝ).speed ∧
    (⟨250, 300, 120, 300, 8, 420, false, false⟩ : Ball ℝ).vx ≠ 0 ∧
    -(6 / 10) ≤ rand (Env.quiet Real.sqrt Real.sin Real.cos Real.pi) 0 (-(6 / 10)) (6 / 10) ∧
    rand (Env.quiet Real.sqrt Real.sin Real.cos Real.pi) 0 (-(6 / 10)) (6 / 10) < 6 / 10 :=
  have h := spawnClone_vx_sign (Env.quiet Real.sqrt Real.sin Real.cos Real.pi) realEnv_spawnLaw
    (⟨250, 300, 120, 300, 8, 420, false, false⟩ : Ball ℝ) 0 (by norm_num) (by norm_num)
  ⟨realEnv_spawnLaw, by norm_num, by norm_num, h.1, h.2.1⟩

/-- C23, counterexample: when `Math.random()` returns 0 the launch angle is `-0.6`, in the
range, and the clone of a ball moving to the right (`vx = 120`) moves to the left. -/
theorem spawnClone_opposite_direction :
    rand (Env.quiet Real.sqrt Real.sin Real.cos Real.pi) 0 (-(6 / 10)) (6 / 10) = -(6 / 10) ∧
    (0 : ℝ) < (⟨250, 300, 120, 300, 8, 420, false, false⟩ : Ball ℝ).vx ∧
    (spawnClone (Env.quiet Real.sqrt Real.sin Real.cos Real.pi)
      (⟨250, 300, 120, 300, 8, 420, false, false⟩ : Ball ℝ) 0).1.vx < 0 := by
  have ha : rand (Env.quiet Real.sqrt Real.sin Real.cos Real.pi) 0 (-(6 / 10)) (6 / 10)
      = -(6 / 10) := by
    norm_num [rand, Env.quiet]
  have hsin : Real.sin (-(6 / 10)) < 0 := by
    rw [Real.sin_neg, neg_lt_zero]
    exact Real.sin_pos_of_pos_of_lt_pi (by norm_num) (by linarith [Real.pi_gt_three])
  refine ⟨ha, by norm_num, ?_⟩
  obtain ⟨h1, _, h3, _⟩ := spawnClone_fields (Env.quiet Real.sqrt Real.sin Real.cos Real.pi)
    (⟨250, 300, 120, 300, 8, 420, false, false⟩ : Ball ℝ) 0
  rw [h3, h1, ha]
  have hsg : jsSign (120 : ℝ) = 1 := by norm_num [jsSign]
  have hr : rand (Env.quiet Real.sqrt Real.sin Real.cos Real.pi) (0 + 1) (-(6 / 100)) (8 / 100)
      = -(6 / 100) := by
    norm_num [rand, Env.quiet]
  simp only [hsg, hr]
  have hsin2 : (Env.quiet Real.sqrt Real.sin Real.cos Real.pi).sin (-(6 / 10)) < 0 := hsin
  have hpos : (0 : ℝ) < (⟨250, 300, 120, 300, 8, 420, false, false⟩ : Ball ℝ).speed
      * (1 + -(6 / 100)) := by norm_num
  rw [if_neg (by norm_num), mul_one]
  exact mul_neg_of_neg_of_pos hsin2 hpos

end MultiBallSamples

/-! ## One ball, one brick -/

section OneBrick

variable {α : Type} [LinearOrderedField α] [FloorRing α]

omit [LinearOrderedField α] [FloorRing α] in
theorem firstIdx_least {β : Type} (p : β → Bool) (l : List β) (i : Nat)
    (h : firstIdx p l = some i) : ∀ j, j < i → ∀ x, l[j]? = some x → p x = false := by
  induction l generalizing i with
  | nil => simp [firstIdx] at h
  | cons y ys ih =>
    unfold firstIdx at h
    split_ifs at h with hp
    · simp only [Option.some.injEq] at h
      subst h
      intro j hj
      omega
    · simp only [Option.map_eq_some'] at h
      obtain ⟨k, hk, rfl⟩ := h
      intro j hj x hx
      cases j with
      | zero =>
        simp only [List.getElem?_cons_zero, Option.some.injEq] at hx
        subst hx
        simpa using hp
      | succ j =>
        simp only [List.getElem?_cons_succ] at hx
        exact ih k hk j (by omega) x hx

omit [LinearOrderedField α] [FloorRing α] in
theorem set_same {β : Type} (l : List β) (i : Nat) (x : β) (h : l[i]? = some x) :
    l.set i x = l := by
  induction l generalizing i with
  | nil => rfl
  | cons y ys ih =>
    cases i with
    | zero =>
      simp only [List.getElem?_cons_zero, Option.some.injEq] at h
      rw [h]
      rfl
    | succ n =>
      simp only [List.getElem?_cons_succ] at h
      rw [List.set_cons_succ, ih n h]

theorem damageBrick_bricks (E : Env α) (s : State α) (i : Nat) (br : Brick α)
    (h : s.bricks[i]? = some br) :
    ∃ br2, (damageBrick E s i).bricks = s.bricks.set i br2 ∧
      (br.kind = "X" → br2 = br) ∧ (br.kind ≠ "X" → br2.hp = br.hp - 1) := by
  unfold damageBrick
  rw [h]
  simp only []
  split_ifs with hk hhp
  · refine ⟨br, ?_, fun _ => rfl, fun hn => absurd hk hn⟩
    exact (set_same s.bricks i br h).symm
  · refine ⟨{ br with hp := br.hp - 1, alive := false }, ?_, fun hx => absurd hx hk, fun _ => rfl⟩
    rw [(maybeSpawnPowerupFromBrick_frame E _ _).2.1]
  · exact ⟨{ br with hp := br.hp - 1 }, rfl, fun hx => absurd hx hk, fun _ => rfl⟩

theorem stepBall_free (E : Env α) (dt : α) (s : State α) (b : Ball α) (hs : b.stuck = false) :
    (stepBall E dt s b).1 = (brickCollide E s (ballAtBricks E dt s b)).1 := by
  unfold stepBall ballAtBricks
  rw [if_neg (by rw [hs]; simp)]

/-- C22.  In one `update` step a free ball changes at most one brick, and by exactly one
hit-point: a brick that differs after the ball's turn is the lowest-index brick of
`state.bricks` that is alive and overlaps the ball (`circleIntersectsRect`) at the ball's
position after integration, wall and paddle handling, and it has lost exactly 1 hit-point;
every other brick, overlapping or not, is as before; and that first brick does lose a
hit-point unless its kind is `'X'`. -/
theorem stepBall_one_brick (E : Env α) (dt : α) (s : State α) (b : Ball α)
    (hs : b.stuck = false) :
    (stepBall E dt s b).1.bricks.length = s.bricks.length ∧
    (∀ (j : Nat) (br br' : Brick α), s.bricks[j]? = some br →
      (stepBall E dt s b).1.bricks[j]? = some br' → br' ≠ br →
      firstIdx (fun x => x.alive && circleIntersectsRect (ballAtBricks E dt s b).circle x.rect)
        s.bricks = some j ∧
      br.alive = true ∧ circleIntersectsRect (ballAtBricks E dt s b).circle br.rect = true ∧
      br'.hp = br.hp - 1 ∧
      ∀ i, i < j → ∀ x, s.bricks[i]? = some x →
        ¬ (x.alive = true ∧ circleIntersectsRect (ballAtBricks E dt s b).circle x.rect = true)) ∧
    (∀ (j : Nat) (br : Brick α),
      firstIdx (fun x => x.alive && circleIntersectsRect (ballAtBricks E dt s b).circle x.rect)
        s.bricks = some j →
      s.bricks[j]? = some br → br.kind ≠ "X" →
      ∃ br', (stepBall E dt s b).1.bricks[j]? = some br' ∧ br'.hp = br.hp - 1) := by
  rw [stepBall_free E dt s b hs]
  generalize ballAtBricks E dt s b = b1
  unfold brickCollide
  cases hf : firstIdx (fun x => x.alive && circleIntersectsRect b1.circle x.rect) s.bricks with
  | none =>
    simp only []
    refine ⟨trivial, ?_, ?_⟩
    · intro j br br' h1 h2 h3
      rw [h1] at h2
      cases h2
      exact absurd rfl h3
    · intro j br h
      cases h
  | some i =>
    obtain ⟨x, hx, hp⟩ := firstIdx_some _ _ _ hf
    have hleast := firstIdx_least _ _ _ hf
    simp only [hx]
    obtain ⟨br2, hset, hX, hnX⟩ := damageBrick_bricks E s i x hx
    rw [hset]
    simp only [Bool.and_eq_true] at hp
    refine ⟨List.length_set _ _ _, ?_, ?_⟩
    · intro j br br' h1 h2 h3
      by_cases hij : i = j
      · subst hij
        rw [hx] at h1
        cases h1
        have hlt := (List.getElem?_eq_some.mp hx).1
        rw [List.getElem?_set_self hlt] at h2
        cases h2
        have hk : x.kind ≠ "X" := fun hk => h3 (hX hk)
        refine ⟨rfl, hp.1, hp.2, hnX hk, ?_⟩
        intro k hk2 y hy hc
        have := hleast k hk2 y hy
        simp only [Bool.and_eq_false_iff] at this
        rcases this with h | h
        · rw [hc.1] at h
          cases h
        · rw [hc.2] at h
          cases h
      · rw [List.getElem?_set_ne hij, h1] at h2
        cases h2
        exact absurd rfl h3
    · intro j br hj hbr hk
      cases hj
      rw [hx] at hbr
      cases hbr
      have hlt := (List.getElem?_eq_some.mp hx).1
      exact ⟨br2, List.getElem?_set_self hlt, hnX hk⟩

end OneBrick

/-! ## Balls between steps, and the level advance -/

section Between

variable {α : Type} [LinearOrderedField α] [FloorRing α]

/-- C22, witness: the ball of `flightState`. -/
theorem stepBall_one_brick_witness :
    (⟨250, 1163 / 10, 0, -315, 8, 420, false, false⟩ : Ball ℝ).stuck = false ∧
    (stepBall (Env.quiet Real.sqrt Real.sin Real.cos Real.pi) (1 / 50) (flightState : State ℝ)
      ⟨250, 1163 / 10, 0, -315, 8, 420, false, false⟩).1.bricks.length
        = (flightState : State ℝ).bricks.length :=
  ⟨rfl, (stepBall_one_brick (Env.quiet Real.sqrt Real.sin Real.cos Real.pi) (1 / 50)
    (flightState : State ℝ) ⟨250, 1163 / 10, 0, -315, 8, 420, false, false⟩ rfl).1⟩

/-- The ball list holds at least one ball and no ball marked `_dead`. -/
theorem ballsOk_reset (s : State α) :
    (resetPaddleAndBalls s).balls ≠ [] ∧ ∀ b ∈ (resetPaddleAndBalls s).balls, b.dead = false := by
  obtain ⟨_, _, _, _, b, hb, _, hd, _⟩ := resetPaddleAndBalls_spec s
  rw [hb]
  refine ⟨by simp, ?_⟩
  intro x hx
  simp only [List.mem_singleton] at hx
  rw [hx]
  exact hd

theorem ballsOk_startLevel (s : State α) (idx : Int) (keepStats : Bool) :
    (startLevel s idx keepStats).balls ≠ [] ∧
    ∀ b ∈ (startLevel s idx keepStats).balls, b.dead = false := by
  unfold startLevel
  exact ballsOk_reset _

theorem ballsOk_updateTail (E : Env α) (p : State α) (hp : ∀ b ∈ p.balls, b.dead = false) :
    (updateTail E p).balls ≠ [] ∧ ∀ b ∈ (updateTail E p).balls, b.dead = false := by
  unfold updateTail
  split_ifs with hlen
  · unfold loseLife
    simp only []
    split_ifs
    · exact ballsOk_startLevel _ _ _
    · exact ballsOk_reset _
  · unfold levelClear
    split_ifs
    · unfold nextLevel
      split_ifs
      · exact ballsOk_startLevel _ _ _
      · exact ballsOk_startLevel _ _ _
    · rw [(bulletPhase_evolves E p).2.2]
      exact ⟨fun h0 => hlen (by rw [h0]; rfl), hp⟩

theorem afterPurge_no_dead (E : Env α) (dt : α) (s p : State α)
    (h : afterPurge E dt s = some p) : ∀ b ∈ p.balls, b.dead = false := by
  unfold afterPurge at h
  simp only [Option.map_eq_some'] at h
  obtain ⟨s1, _, rfl⟩ := h
  intro b hb
  simp only [purgeDead, List.mem_filter, Bool.not_eq_true'] at hb
  exact hb.2

/-- C26.  After `startLevel`, after `resetPaddleAndBalls` and after every `update` step,
whichever branch it takes, `state.balls` holds at least one ball and no ball marked for
removal; and from a state that holds at least one ball `update` does not throw: the
template lookup of `multiBallSpawn` is defined whenever a multi-ball pickup is collected,
and `multiBallSpawn(n)` itself returns. -/
theorem balls_never_empty (E : Env α) (dt : α) (s : State α) (idx : Int) (keepStats : Bool)
    (n : Nat) :
    ((startLevel s idx keepStats).balls ≠ [] ∧
      ∀ b ∈ (startLevel s idx keepStats).balls, b.dead = false) ∧
    ((resetPaddleAndBalls s).balls ≠ [] ∧
      ∀ b ∈ (resetPaddleAndBalls s).balls, b.dead = false) ∧
    (∀ s', update E dt s = some s' → s'.balls ≠ [] ∧ ∀ b ∈ s'.balls, b.dead = false) ∧
    (s.balls ≠ [] → (update E dt s).isSome = true ∧ (multiBallSpawn E s n).isSome = true ∧
      ∀ i, ∃ base, s.balls[i % s.balls.length]? = some base) := by
  refine ⟨ballsOk_startLevel s idx keepStats, ballsOk_reset s, ?_, ?_⟩
  · intro s' h
    unfold update at h
    simp only [Option.map_eq_some'] at h
    obtain ⟨p, hp, rfl⟩ := h
    exact ballsOk_updateTail E p (afterPurge_no_dead E dt s p hp)
  · intro h
    refine ⟨?_, ?_, ?_⟩
    · unfold update
      simp only [Option.isSome_map']
      exact afterPurge_isSome E dt s h
    · unfold multiBallSpawn
      simp only [Option.isSome_map']
      exact cloneLoop_isSome E s.balls h _ _ _
    · intro i
      have hlen : 0 < s.balls.length := List.length_pos.mpr h
      exact ⟨_, List.getElem?_eq_getElem (Nat.mod_lt i hlen)⟩

/-- C26, witness: the step of `stuckState`, which holds one ball. -/
theorem balls_never_empty_witness :
    (stuckState : State ℝ).balls ≠ [] ∧
    (update (Env.quiet Real.sqrt Real.sin Real.cos Real.pi) (1 / 50)
      (stuckState : State ℝ)).isSome = true ∧
    (multiBallSpawn (Env.quiet Real.sqrt Real.sin Real.cos Real.pi)
      (stuckState : State ℝ) 2).isSome = true :=
  have h : (stuckState : State ℝ).balls ≠ [] := by simp [stuckState]
  have t := (balls_never_empty (Env.quiet Real.sqrt Real.sin Real.cos Real.pi) (1 / 50)
    (stuckState : State ℝ) 0 true 2).2.2.2 h
  ⟨h, t.1, t.2.1⟩

theorem startLevel_clears (s : State α) (idx : Int) (keepStats : Bool) :
    (startLevel s idx keepStats).powerups = [] ∧ (startLevel s idx keepStats).bullets = [] ∧
    (startLevel s idx keepStats).timers = ⟨0, 0, 0⟩ :=
  ⟨rfl, rfl, rfl⟩

omit [LinearOrderedField α] [FloorRing α] in
theorem next_index (i len : Nat) (h : i < len) :
    (if (i : Int) < (len : Int) - 1 then
        (clamp ((i : Int) + 1) 0 ((len : Int) - 1)).toNat
      else (clamp (0 : Int) 0 ((len : Int) - 1)).toNat) = (i + 1) % len := by
  unfold clamp
  split_ifs with h1
  · have h2 : i + 1 < len := by omega
    rw [Nat.mod_eq_of_lt h2, min_eq_right (by omega), max_eq_right (by omega)]
    omega
  · have h2 : i + 1 = len := by omega
    rw [h2, Nat.mod_self, min_eq_right (by omega), max_eq_right (le_refl _)]
    rfl

/-- C11.  From a state whose level index `i` is valid for its `n ≥ 1` levels: an
`update` step in which at least one ball remains and every brick is off when the collision
phases are over (state `c`) takes the level-advance branch; in that branch the level index
becomes `(i + 1) mod n`, score and lives are those of `c` (the lives those before the step),
the bricks are built from the grid of the new level, and paddle, ball, power-ups, bullets
and timers are those `startLevel` makes; in the ordinary branch, where some brick is still
on, the level index is unchanged. -/
theorem level_advance (E : Env α) (dt : α) (s : State α) (hi : s.levelIndex < s.levels.length) :
    (∀ c, collided E dt s = some c → c.balls ≠ [] → (∀ b ∈ c.bricks, b.alive = false) →
      branch E dt s = some Branch.levelAdvance) ∧
    (branch E dt s = some Branch.levelAdvance →
      ∃ c s', collided E dt s = some c ∧ update E dt s = some s' ∧
        c.balls ≠ [] ∧ (∀ b ∈ c.bricks, b.alive = false) ∧
        s'.levelIndex = (s.levelIndex + 1) % s.levels.length ∧
        s'.score = c.score ∧ s'.lives = c.lives ∧ s'.lives = s.lives ∧
        s'.bricks = (buildBricksFromGrid
          { s with levelIndex := (s.levelIndex + 1) % s.levels.length }).bricks ∧
        s'.balls = (resetPaddleAndBalls s).balls ∧
        s'.paddle.x = (resetPaddleAndBalls s).paddle.x ∧
        s'.paddle.y = (resetPaddleAndBalls s).paddle.y ∧
        s'.paddle.w = (resetPaddleAndBalls s).paddle.w ∧
        s'.paddle.h = (resetPaddleAndBalls s).paddle.h ∧
        s'.powerups = [] ∧ s'.bullets = [] ∧ s'.timers = ⟨0, 0, 0⟩) ∧
    (branch E dt s = some Branch.play →
      ∃ c s', collided E dt s = some c ∧ update E dt s = some s' ∧
        (∃ b ∈ c.bricks, b.alive = true) ∧ s'.levelIndex = s.levelIndex) := by
  refine ⟨?_, ?_, ?_⟩
  · intro c hc hb hall
    unfold branch
    rw [hc]
    simp only [Option.map_some', Option.some.injEq]
    have hlen : ¬ c.balls.length = 0 := fun h0 => hb (List.length_eq_zero.mp h0)
    rw [if_neg hlen, if_pos]
    simp only [List.all_eq_true, Bool.not_eq_true']
    exact hall
  · intro hbr
    obtain ⟨p, c, s', hp, hc, hu, h1, h2, _, _, h5, _⟩ := collided_spec E dt s _ hbr
    obtain ⟨hnil, hcp, hs'⟩ := h5 rfl
    have hev := h1.trans h2
    have hall : (c.bricks.all fun b => !b.alive) = true := by
      unfold branch at hbr
      rw [hc] at hbr
      simp only [Option.map_some', Option.some.injEq] at hbr
      by_contra hcon
      split_ifs at hbr
    have hcb : c.balls = p.balls := by
      rw [hcp]
      exact (bulletPhase_evolves E p).2.2
    obtain ⟨c1, c2, c3⟩ := core_fields hev.core
    have hcore := hev.core
    simp only [State.core, Prod.mk.injEq] at hcore
    have hnext : nextLevel c = startLevel c
        (if (c.levelIndex : Int) < (c.levels.length : Int) - 1 then (c.levelIndex : Int) + 1
          else 0) true := by
      unfold nextLevel
      split_ifs <;> rfl
    obtain ⟨d1, d2, d3, d4, _, d6, d7, d8, d9, d10, d11⟩ := startLevel_spec c
      (if (c.levelIndex : Int) < (c.levels.length : Int) - 1 then (c.levelIndex : Int) + 1
        else 0)
    obtain ⟨e1, e2, e3⟩ := startLevel_clears c
      (if (c.levelIndex : Int) < (c.levels.length : Int) - 1 then (c.levelIndex : Int) + 1
        else 0) true
    have hidx : (clamp (if (c.levelIndex : Int) < (c.levels.length : Int) - 1 then
        (c.levelIndex : Int) + 1 else 0) 0 ((c.levels.length : Int) - 1)).toNat
        = (s.levelIndex + 1) % s.levels.length := by
      rw [c2, c3, ← next_index s.levelIndex s.levels.length hi]
      split_ifs <;> rfl
    have hr := resetPaddleAndBalls_congr s c hcore.2.2.2.1 hcore.2.2.2.2.1
    have hs2 : s' = startLevel c
        (if (c.levelIndex : Int) < (c.levels.length : Int) - 1 then (c.levelIndex : Int) + 1
          else 0) true := hs'.trans hnext
    refine ⟨c, s', hc, hu, ?_, ?_, ?_, ?_, ?_, ?_, ?_, ?_, ?_, ?_, ?_, ?_, ?_, ?_, ?_⟩
    · rw [hcb]
      exact hnil
    · simpa using hall
    · rw [hs2, d4, hidx]
    · rw [hs2, d1]
    · rw [hs2, d2]
    · rw [hs2, d2, c1]
    · rw [hs2, d6]
      apply buildBricksFromGrid_congr
      · exact c3
      · exact hidx
    · rw [hs2, d7, hr.1]
    · rw [hs2, d8, hr.2.1]
    · rw [hs2, d9, hr.2.2.1]
    · rw [hs2, d10, hr.2.2.2.1]
    · rw [hs2, d11, hr.2.2.2.2]
    · rw [hs2, e1]
    · rw [hs2, e2]
    · rw [hs2, e3]
  · intro hbr
    obtain ⟨p, c, s', hp, hc, hu, h1, h2, _, _, _, h6⟩ := collided_spec E dt s _ hbr
    obtain ⟨hnil, hcp, hs'⟩ := h6 rfl
    obtain ⟨c1, c2, c3⟩ := core_fields (h1.trans h2).core
    refine ⟨c, s', hc, hu, ?_, ?_⟩
    · unfold branch at hbr
      rw [hc] at hbr
      simp only [Option.map_some', Option.some.injEq] at hbr
      by_contra hcon
      push_neg at hcon
      have hall : (c.bricks.all fun b => !b.alive) = true := by
        simp only [List.all_eq_true, Bool.not_eq_true']
        intro b hb
        have := hcon b hb
        simpa using this
      rw [if_pos hall] at hbr
      split_ifs at hbr
    · rw [hs']
      exact c2

end Between

section AdvanceSample

set_option maxRecDepth 8000

theorem lastBrickState_branch :
    branch (Env.quiet Real.sqrt Real.sin Real.cos Real.pi) (1 / 50)
      (lastBrickState : State ℝ) = some Branch.levelAdvance := by
  norm_num [Env.quiet, branch, collided, afterPurge, updateHead, collectPowerups, fallPowerups,
    launchKey, fireKey, movePaddle, expireTimers, powerupLoop, ballPhase, ballLoop, stepBall,
    purgeDead, bulletPhase, bulletLoop, firstIdx, clamp, jsOr, canvasWidth, CONFIG.BASE_WIDTH,
    canvasHeight, CONFIG.BASE_HEIGHT, CONFIG.PADDLE.speed, lastBrickState, wallCollide,
    paddleCollide, brickCollide, bounceOffBrick, collisionNormal, circleIntersectsRect,
    damageBrick, maybeSpawnPowerupFromBrick, spawnPowerup, CONFIG.POWERUP.chance,
    CONFIG.POWERUP.fallSpeed, Ball.circle, Brick.rect, Paddle.rect, jsSign, sqrt36,
    normal_ne_X, normal_not_bound]

/-- C11, witness: the step of `lastBrickState`, in which the ball destroys the only brick
of the first of two levels: the score goes from 30 to 40 and the second level starts in the
same step. -/
theorem level_advance_witness :
    (lastBrickState : State ℝ).levelIndex < (lastBrickState : State ℝ).levels.length ∧
    branch (Env.quiet Real.sqrt Real.sin Real.cos Real.pi) (1 / 50)
      (lastBrickState : State ℝ) = some Branch.levelAdvance ∧
    ∃ c s', collided (Env.quiet Real.sqrt Real.sin Real.cos Real.pi) (1 / 50)
        (lastBrickState : State ℝ) = some c ∧
      update (Env.quiet Real.sqrt Real.sin Real.cos Real.pi) (1 / 50)
        (lastBrickState : State ℝ) = some s' ∧
      s'.levelIndex = 1 ∧ s'.score = c.score ∧ s'.lives = 2 := by
  have hi : (lastBrickState : State ℝ).levelIndex < (lastBrickState : State ℝ).levels.length := by
    simp [lastBrickState]
  obtain ⟨c, s', h1, h2, _, _, h5, h6, _, h8, _⟩ :=
    (level_advance (Env.quiet Real.sqrt Real.sin Real.cos Real.pi) (1 / 50)
      (lastBrickState : State ℝ) hi).2.1 lastBrickState_branch
  exact ⟨hi, lastBrickState_branch, c, s', h1, h2, h5, h6, h8⟩

end AdvanceSample

/-! ## The speed multiplier -/

section SpeedMul

variable {α : Type} [LinearOrderedField α] [FloorRing α]

omit [FloorRing α] in
theorem expireTimers_withSpeed (now a v : α) (s : State α) :
    expireTimers now (s.withSpeed a v) = (expireTimers now s).withSpeed a v := by
  unfold expireTimers State.withSpeed
  simp only []
  split_ifs <;> rfl

omit [FloorRing α] in
theorem expireTimers_keep (now : α) (s : State α) :
    (expireTimers now s).speedMul = s.speedMul ∧ (expireTimers now s).keys = s.keys := by
  unfold expireTimers
  simp only []
  split_ifs <;> exact ⟨rfl, rfl⟩

omit [FloorRing α] in
theorem movePaddle_withSpeed (dt v : α) (s : State α) :
    movePaddle (dt * s.speedMul) (s.withSpeed 1 v)
      = (movePaddle dt s).withSpeed 1 (unitVx s.keys) := by
  unfold movePaddle State.withSpeed unitVx
  simp only [State.mk.injEq, Paddle.mk.injEq, true_and, and_true]
  congr 1
  ring

omit [FloorRing α] in
theorem movePaddle_keep (dt : α) (s : State α) : (movePaddle dt s).speedMul = s.speedMul := rfl

omit [FloorRing α] in
theorem tryShootLaser_withSpeed (E : Env α) (a v : α) (s : State α) :
    tryShootLaser E (s.withSpeed a v) = (tryShootLaser E s).withSpeed a v := by
  unfold tryShootLaser State.withSpeed
  simp only []
  split_ifs <;> rfl

omit [FloorRing α] in
theorem fireKey_withSpeed (E : Env α) (a v : α) (s : State α) :
    fireKey E (s.withSpeed a v) = (fireKey E s).withSpeed a v := by
  unfold fireKey
  rw [tryShootLaser_withSpeed]
  unfold State.withSpeed
  simp only []
  split_ifs <;> rfl

omit [FloorRing α] in
theorem fireKey_keep (E : Env α) (s : State α) : (fireKey E s).speedMul = s.speedMul := by
  unfold fireKey tryShootLaser
  simp only []
  split_ifs <;> rfl

omit [LinearOrderedField α] [FloorRing α] in
theorem launchKey_withSpeed (a v : α) (s : State α) :
    launchKey (s.withSpeed a v) = (launchKey s).withSpeed a v := by
  unfold launchKey State.withSpeed
  simp only []
  split_ifs <;> rfl

omit [LinearOrderedField α] [FloorRing α] in
theorem launchKey_keep (s : State α) : (launchKey s).speedMul = s.speedMul := by
  unfold launchKey
  split_ifs <;> rfl

omit [FloorRing α] in
theorem fallPowerups_withSpeed (dt v : α) (s : State α) :
    fallPowerups (dt * s.speedMul) (s.withSpeed 1 v) = (fallPowerups dt s).withSpeed 1 v := by
  unfold fallPowerups State.withSpeed
  simp only [mul_one, mul_assoc]

omit [FloorRing α] in
theorem fallPowerups_keep (dt : α) (s : State α) : (fallPowerups dt s).speedMul = s.speedMul := rfl

end SpeedMul

section SpeedMulPowerups

variable {α : Type} [LinearOrderedField α]

omit [LinearOrderedField α] in
theorem core_speedMul {s p : State α} (h : p.core = s.core) : p.speedMul = s.speedMul := by
  simp only [State.core, Prod.mk.injEq] at h
  exact h.2.2.2.2.2

theorem multiBallSpawn_withSpeed (E : Env α) (a v : α) (s : State α) (n : Nat) :
    multiBallSpawn E (s.withSpeed a v) n = (multiBallSpawn E s n).map (fun r => r.withSpeed a v) := by
  unfold multiBallSpawn State.withSpeed
  simp only [Option.map_map]
  rfl

theorem applyPowerup_withSpeed (E : Env α) (a v : α) (s : State α) (t : String) :
    applyPowerup E (s.withSpeed a v) t = (applyPowerup E s t).map (fun r => r.withSpeed a v) := by
  unfold applyPowerup
  simp only [multiBallSpawn_withSpeed, Option.map_map]
  split_ifs <;> first | rfl | (simp only [Option.map_map]; rfl)

theorem powerupLoop_withSpeed (E : Env α) (a v : α) (ps : List (Powerup α)) (s : State α) :
    powerupLoop E ps (s.withSpeed a v)
      = (powerupLoop E ps s).map (fun r => (r.1.withSpeed a v, r.2)) := by
  induction ps with
  | nil => rfl
  | cons p rest ih =>
    simp only [powerupLoop, ih]
    cases hr : powerupLoop E rest s with
    | none => rfl
    | some q =>
      obtain ⟨t, kept⟩ := q
      simp only [Option.map_some']
      have hp : (t.withSpeed a v).paddle.rect = t.paddle.rect := rfl
      rw [hp, applyPowerup_withSpeed]
      split_ifs
      · rfl
      · simp only [Option.map_map]
        rfl
      · rfl

theorem collectPowerups_withSpeed (E : Env α) (a v : α) (s : State α) :
    collectPowerups E (s.withSpeed a v) = (collectPowerups E s).map (fun r => r.withSpeed a v) := by
  unfold collectPowerups
  have hp : (s.withSpeed a v).powerups = s.powerups := rfl
  rw [hp, powerupLoop_withSpeed]
  simp only [Option.map_map]
  rfl

theorem collectPowerups_keep (E : Env α) (s r : State α) (h : collectPowerups E s = some r) :
    r.speedMul = s.speedMul := by
  unfold collectPowerups at h
  simp only [Option.map_eq_some'] at h
  obtain ⟨q, hq, rfl⟩ := h
  exact core_speedMul (powerupLoop_spec E s.powerups s q.1 q.2 hq).1

end SpeedMulPowerups

section SpeedMulBalls

variable {α : Type} [LinearOrderedField α] [FloorRing α]

omit [FloorRing α] in
theorem spawnPowerup_withSpeed (a v : α) (s : State α) (t : String) (cx cy : α) :
    spawnPowerup (s.withSpeed a v) t cx cy = (spawnPowerup s t cx cy).withSpeed a v := rfl

theorem maybeSpawnPowerupFromBrick_withSpeed (E : Env α) (a v : α) (s : State α) (b : Brick α) :
    maybeSpawnPowerupFromBrick E (s.withSpeed a v) b
      = (maybeSpawnPowerupFromBrick E s b).withSpeed a v := by
  unfold maybeSpawnPowerupFromBrick
  have hr : (s.withSpeed a v).rnd = s.rnd := rfl
  simp only [hr]
  split_ifs <;> rfl

theorem damageBrick_withSpeed (E : Env α) (a v : α) (s : State α) (i : Nat) :
    damageBrick E (s.withSpeed a v) i = (damageBrick E s i).withSpeed a v := by
  unfold damageBrick
  have hb : (s.withSpeed a v).bricks = s.bricks := rfl
  rw [hb]
  cases s.bricks[i]? with
  | none => rfl
  | some br =>
    simp only []
    split_ifs
    · rfl
    · have : ({ s.withSpeed a v with
          bricks := s.bricks.set i { br with hp := br.hp - 1, alive := false } } : State α)
          = ({ s with bricks := s.bricks.set i { br with hp := br.hp - 1, alive := false } }
              : State α).withSpeed a v := rfl
      rw [this, maybeSpawnPowerupFromBrick_withSpeed]
      rfl
    · rfl

theorem brickCollide_withSpeed (E : Env α) (a v : α) (s : State α) (b : Ball α) :
    brickCollide E (s.withSpeed a v) b
      = ((brickCollide E s b).1.withSpeed a v, (brickCollide E s b).2) := by
  unfold brickCollide
  have hb : (s.withSpeed a v).bricks = s.bricks := rfl
  rw [hb]
  cases firstIdx (fun br => br.alive && circleIntersectsRect b.circle br.rect) s.bricks with
  | none => rfl
  | some i =>
    simp only []
    cases s.bricks[i]? with
    | none => rfl
    | some br =>
      simp only [damageBrick_withSpeed]

theorem stepBall_withSpeed (E : Env α) (dt v : α) (s : State α) (b : Ball α) :
    stepBall E (dt * s.speedMul) (s.withSpeed 1 v) b
      = ((stepBall E dt s b).1.withSpeed 1 v, (stepBall E dt s b).2) := by
  unfold stepBall
  have hp : (s.withSpeed 1 v).paddle.x = s.paddle.x ∧ (s.withSpeed 1 v).paddle.w = s.paddle.w ∧
      (s.withSpeed 1 v).paddle.y = s.paddle.y ∧ (s.withSpeed 1 v).speedMul = 1 :=
    ⟨rfl, rfl, rfl, rfl⟩
  have hc : ∀ c : Ball α, paddleCollide E (s.withSpeed 1 v).paddle c = paddleCollide E s.paddle c :=
    fun c => rfl
  have hx : ∀ u : α, u * (dt * s.speedMul) * 1 = u * dt * s.speedMul := fun u => by ring
  simp only [hp.1, hp.2.1, hp.2.2.1, hp.2.2.2, hc, hx, brickCollide_withSpeed]
  split_ifs <;> rfl

theorem stepBall_keep (E : Env α) (dt : α) (s : State α) (b : Ball α) :
    (stepBall E dt s b).1.speedMul = s.speedMul :=
  core_speedMul (stepBall_evolves E dt s b).1.core

theorem ballLoop_withSpeed (E : Env α) (dt v : α) (bs : List (Ball α)) (s : State α) :
    ballLoop E (dt * s.speedMul) bs (s.withSpeed 1 v)
      = ((ballLoop E dt bs s).1.withSpeed 1 v, (ballLoop E dt bs s).2) := by
  induction bs generalizing s with
  | nil => rfl
  | cons b bs ih =>
    simp only [ballLoop, stepBall_withSpeed]
    have h := ih (stepBall E dt s b).1
    rw [stepBall_keep] at h
    rw [h]

theorem ballPhase_withSpeed (E : Env α) (dt v : α) (s : State α) :
    ballPhase E (dt * s.speedMul) (s.withSpeed 1 v) = (ballPhase E dt s).withSpeed 1 v := by
  unfold ballPhase
  have hx : ∀ u : α, u * (dt * s.speedMul) * 1 = u * dt * s.speedMul := fun u => by ring
  have h := ballLoop_withSpeed E dt v s.balls
    { s with
      bullets :=
        (s.bullets.map (fun b => { b with y := b.y + b.vy * dt * s.speedMul })).filter
          (fun b => decide (b.y > -20)) }
  simp only [State.withSpeed, hx] at h ⊢
  rw [h]

theorem ballPhase_keep (E : Env α) (dt : α) (s : State α) :
    (ballPhase E dt s).speedMul = s.speedMul :=
  core_speedMul (ballPhase_evolves E dt s).1.core

omit [LinearOrderedField α] [FloorRing α] in
theorem purgeDead_withSpeed (a v : α) (s : State α) :
    purgeDead (s.withSpeed a v) = (purgeDead s).withSpeed a v := rfl

end SpeedMulBalls

section SpeedMulTail

variable {α : Type} [LinearOrderedField α] [FloorRing α]

theorem bulletLoop_withSpeed (E : Env α) (a v : α) (bs : List (Bullet α)) (s : State α) :
    bulletLoop E bs (s.withSpeed a v)
      = ((bulletLoop E bs s).1.withSpeed a v, (bulletLoop E bs s).2) := by
  induction bs with
  | nil => rfl
  | cons bullet rest ih =>
    simp only [bulletLoop, ih]
    have hb : ((bulletLoop E rest s).1.withSpeed a v).bricks = (bulletLoop E rest s).1.bricks := rfl
    rw [hb]
    cases firstIdx (fun br => br.alive &&
        rectIntersectsRect ⟨bullet.x - 3, bullet.y - 8, 6, 12⟩ br.rect)
        (bulletLoop E rest s).1.bricks with
    | none => rfl
    | some i => simp only [damageBrick_withSpeed]

theorem bulletPhase_withSpeed (E : Env α) (a v : α) (s : State α) :
    bulletPhase E (s.withSpeed a v) = (bulletPhase E s).withSpeed a v := by
  unfold bulletPhase
  have hb : (s.withSpeed a v).bullets = s.bullets := rfl
  rw [hb, bulletLoop_withSpeed]
  rfl

omit [FloorRing α] in
theorem buildBricksFromGrid_withSpeed (a v : α) (s : State α) :
    buildBricksFromGrid (s.withSpeed a v) = (buildBricksFromGrid s).withSpeed a v := by
  unfold buildBricksFromGrid
  have h1 : (s.withSpeed a v).levels = s.levels := rfl
  have h2 : (s.withSpeed a v).levelIndex = s.levelIndex := rfl
  rw [h1, h2]
  cases s.levels[s.levelIndex]? <;> rfl

theorem resetPaddleAndBalls_withSpeed (a v : α) (s : State α) :
    resetPaddleAndBalls (s.withSpeed a v) = (resetPaddleAndBalls s).withSpeed a v := rfl

theorem startLevel_withSpeed (a v : α) (s : State α) (idx : Int) (keepStats : Bool) :
    startLevel (s.withSpeed a v) idx keepStats = (startLevel s idx keepStats).withSpeed a v := by
  unfold startLevel
  cases keepStats
  · simp only [Bool.not_false, if_true]
    rw [← resetPaddleAndBalls_withSpeed, ← buildBricksFromGrid_withSpeed]
    rfl
  · simp only [Bool.not_true, Bool.false_eq_true, if_false]
    rw [← resetPaddleAndBalls_withSpeed, ← buildBricksFromGrid_withSpeed]
    rfl

theorem nextLevel_withSpeed (a v : α) (s : State α) :
    nextLevel (s.withSpeed a v) = (nextLevel s).withSpeed a v := by
  unfold nextLevel
  simp only [startLevel_withSpeed]
  have h1 : (s.withSpeed a v).levels = s.levels := rfl
  have h2 : (s.withSpeed a v).levelIndex = s.levelIndex := rfl
  rw [h1, h2]
  split_ifs <;> rfl

theorem levelClear_withSpeed (a v : α) (s : State α) :
    levelClear (s.withSpeed a v) = (levelClear s).withSpeed a v := by
  unfold levelClear
  rw [nextLevel_withSpeed]
  have h1 : (s.withSpeed a v).bricks = s.bricks := rfl
  rw [h1]
  split_ifs <;> rfl

theorem loseLife_withSpeed (a v : α) (s : State α) :
    loseLife (s.withSpeed a v) = (loseLife s).withSpeed a v := by
  unfold loseLife
  have h1 : (s.withSpeed a v).lives = s.lives := rfl
  have h2 : (s.withSpeed a v).levelIndex = s.levelIndex := rfl
  simp only [h1, h2]
  split_ifs
  · rw [← startLevel_withSpeed]
    rfl
  · rfl

theorem updateTail_withSpeed (E : Env α) (a v : α) (s : State α) :
    updateTail E (s.withSpeed a v) = (updateTail E s).withSpeed a v := by
  unfold updateTail
  rw [loseLife_withSpeed, bulletPhase_withSpeed, levelClear_withSpeed]
  have h1 : (s.withSpeed a v).balls = s.balls := rfl
  rw [h1]
  split_ifs <;> rfl

omit [FloorRing α] in
theorem updateHead_withSpeed (E : Env α) (dt : α) (s : State α) :
    updateHead E (dt * s.speedMul) { s with speedMul := 1 }
      = (updateHead E dt s).map (fun r => r.withSpeed 1 (unitVx s.keys)) := by
  unfold updateHead
  have h0 : ({ ({ s with speedMul := 1 } : State α) with clk := s.clk + 1 } : State α)
      = ({ s with clk := s.clk + 1 } : State α).withSpeed 1 s.paddle.vx := rfl
  simp only [h0]
  obtain ⟨k1, k2⟩ := expireTimers_keep (E.clock s.clk) ({ s with clk := s.clk + 1 } : State α)
  have k1 : (expireTimers (E.clock s.clk) ({ s with clk := s.clk + 1 } : State α)).speedMul
      = s.speedMul := k1
  have k2 : (expireTimers (E.clock s.clk) ({ s with clk := s.clk + 1 } : State α)).keys
      = s.keys := k2
  rw [expireTimers_withSpeed]
  have m := movePaddle_withSpeed dt s.paddle.vx
    (expireTimers (E.clock s.clk) ({ s with clk := s.clk + 1 } : State α))
  rw [k1, k2] at m
  rw [m, fireKey_withSpeed, launchKey_withSpeed]
  have f := fallPowerups_withSpeed dt (unitVx s.keys)
    (launchKey (fireKey E (movePaddle dt
      (expireTimers (E.clock s.clk) ({ s with clk := s.clk + 1 } : State α)))))
  rw [launchKey_keep, fireKey_keep, movePaddle_keep, k1] at f
  rw [f, collectPowerups_withSpeed]

omit [FloorRing α] in
theorem updateHead_keep (E : Env α) (dt : α) (s r : State α) (h : updateHead E dt s = some r) :
    r.speedMul = s.speedMul :=
  core_speedMul (updateHead_spec E dt s r h).1

theorem update_withSpeed (E : Env α) (dt : α) (s : State α) :
    update E (dt * s.speedMul) { s with speedMul := 1 }
      = (update E dt s).map (fun r => r.withSpeed 1 (unitVx s.keys)) := by
  unfold update afterPurge
  rw [updateHead_withSpeed]
  cases h : updateHead E dt s with
  | none => rfl
  | some r =>
    have hk := updateHead_keep E dt s r h
    have hb := ballPhase_withSpeed E dt (unitVx s.keys) r
    rw [hk] at hb
    simp only [Option.map_some', hb, purgeDead_withSpeed, updateTail_withSpeed]

/-- C25.  For every state `s`, frame delta `dt` and speed multiplier `m`, under the same
clock readings, held keys and random draws, `update` run with `(dt, speedMul = m)` and
`update` run with `(dt * m, speedMul = 1)` throw together, and otherwise the second result
is the first one with `speedMul` set to 1 and the stored `paddle.vx` set to the unscaled
paddle velocity: the paddle position and size, the balls, the power-ups, the bullets, the
bricks, the score, the lives and the level index coincide. -/
theorem update_speedMul (E : Env α) (dt m : α) (s : State α) :
    update E (dt * m) { s with speedMul := 1 }
        = (update E dt { s with speedMul := m }).map (fun r => r.withSpeed 1 (unitVx s.keys)) ∧
    ((update E (dt * m) { s with speedMul := 1 }).isSome
        = (update E dt { s with speedMul := m }).isSome) ∧
    ∀ r, update E dt { s with speedMul := m } = some r →
      ∃ r2, update E (dt * m) { s with speedMul := 1 } = some r2 ∧
        r2.paddle.x = r.paddle.x ∧ r2.paddle.y = r.paddle.y ∧ r2.paddle.w = r.paddle.w ∧
        r2.paddle.h = r.paddle.h ∧ r2.balls = r.balls ∧ r2.powerups = r.powerups ∧
        r2.bullets = r.bullets ∧ r2.bricks = r.bricks ∧ r2.score = r.score ∧
        r2.lives = r.lives ∧ r2.levelIndex = r.levelIndex ∧ r2.timers = r.timers ∧
        r2.running = r.running ∧ r2.keys = r.keys ∧ r2.rnd = r.rnd ∧ r2.clk = r.clk := by
  have h := update_withSpeed E dt ({ s with speedMul := m } : State α)
  have h : update E (dt * m) { s with speedMul := 1 }
      = (update E dt { s with speedMul := m }).map (fun r => r.withSpeed 1 (unitVx s.keys)) := h
  refine ⟨h, ?_, ?_⟩
  · rw [h, Option.isSome_map']
  · intro r hr
    rw [hr] at h
    exact ⟨_, h, rfl, rfl, rfl, rfl, rfl, rfl, rfl, rfl, rfl, rfl, rfl, rfl, rfl, rfl, rfl, rfl⟩

end SpeedMulTail

end BreakDown
